import Mathlib

/-!
# Screen_EPD_EXT3 (Basic-Fast edition): frame buffer and COG update sequence

Shallow embedding of `Screen_EPD_EXT3.cpp`.

* Machine integers are natural numbers; bytes stored into the frame buffer are
  reduced modulo 256 where the C++ stores into a `uint8_t`.
* The frame buffer `_newImage` is a list of bytes; the element at index `z` is
  `_newImage[z]`.
* Everything sent to the panel is recorded as a list of `Event`s, in program
  order.
* The colour constants (`myColours`), the update-mode and feature constants
  (`UPDATE_FAST`, ..., `FEATURE_FAST`) and `checkTemperatureMode` are declared in
  headers that are not part of these sources: they are parameters.
-/

/-- Colour constants `myColours.black`, `myColours.white` and `myColours.grey`,
declared in a header outside these sources. -/
structure Colours where
  black : Nat
  white : Nat
  grey : Nat
  deriving DecidableEq, Repr

/-- Constants `UPDATE_FAST`, `UPDATE_PARTIAL`, `UPDATE_GLOBAL` and `FEATURE_FAST`,
declared in a header outside these sources. -/
structure Constants where
  UPDATE_FAST : Nat
  UPDATE_PARTIAL : Nat
  UPDATE_GLOBAL : Nat
  FEATURE_FAST : Nat
  deriving DecidableEq, Repr

/-- The three colour constants are three different values. -/
def Colours.Distinct (c : Colours) : Prop :=
  c.black ≠ c.white ∧ c.grey ≠ c.black ∧ c.grey ≠ c.white

instance (c : Colours) : Decidable c.Distinct := by
  unfold Colours.Distinct; infer_instance

/-- Colour values of the 16-bit RGB 5-6-5 encoding, used where a concrete
instance is evaluated. -/
def Colours.rgb565 : Colours := { black := 0x0000, white := 0xffff, grey := 0x7bef }

/-- Values of the update-mode and feature constants used where a concrete
instance is evaluated (no update would be 0). -/
def Constants.pdls : Constants :=
  { UPDATE_FAST := 0x02, UPDATE_PARTIAL := 0x03, UPDATE_GLOBAL := 0x01, FEATURE_FAST := 0x01 }

/-- What the driver does to the outside world, in program order. -/
inductive Event where
  /-- Call `b_sendIndexData(index, data, size)`: the payload is the `size` bytes read at `data`. -/
  | sendIndexData (index : Nat) (data : List Nat)
  /-- Call `b_sendCommand8(command)`. -/
  | sendCommand8 (command : Nat)
  /-- Call `b_waitBusy()`. -/
  | waitBusy
  /-- Call `digitalWrite(_pin.panelCS, HIGH)`. -/
  | panelCS_HIGH
  /-- Call `Serial.println(text)`. -/
  | println (text : String)
  /-- Call `delay(ms)`. -/
  | delay (ms : Nat)
  deriving DecidableEq, Repr

/-- The file-scope table `index00_data` (PSR), the only file-scope table that is
written after start-up (by `COG_getUserData`). -/
structure Globals where
  index00_data : Nat × Nat
  deriving DecidableEq, Repr

/-- Start-up value `uint8_t index00_data[] = {0xff, 0x8f}`. -/
def Globals.startup : Globals := ⟨(0xff, 0x8f)⟩

/-- Table `uint8_t indexE5_data[] = {0x19}`: temperature 25 °C. -/
def indexE5_data : Nat := 0x19

/-- Table `uint8_t indexE0_data[] = {0x02}`: activate temperature. -/
def indexE0_data : Nat := 0x02

/-- Table `uint8_t index50a_data[] = {0x27}`. -/
def index50a_data : Nat := 0x27

/-- Table `uint8_t index50b_data[] = {0x07}`. -/
def index50b_data : Nat := 0x07

/-- Table `uint8_t index50c_data[] = {0x07}`. -/
def index50c_data : Nat := 0x07

/-- Arduino `bitRead(value, bit)`: `((value) >> (bit)) & 0x01`. -/
def bitRead (value bit : Nat) : Nat := (value >>> bit) &&& 0x01

/-- Arduino `bitSet(value, bit)`: `value |= (1UL << bit)`, stored into a `uint8_t`. -/
def bitSet (value bit : Nat) : Nat := (value ||| (1 <<< bit)) % 256

/-- Arduino `bitClear(value, bit)`: `value &= ~(1UL << bit)`, stored into a `uint8_t`. -/
def bitClear (value bit : Nat) : Nat :=
  (value &&& (0xFFFFFFFF ^^^ ((1 <<< bit) % 2 ^ 32))) % 256

/-- C `memset(p + off, value, n)` on the buffer `p`: `n` byte stores. -/
def memset (buf : List Nat) (off value n : Nat) : List Nat :=
  (List.range n).foldl (fun b i => b.set (off + i) value) buf

/-- C `memcpy(p + dst, p + src, n)` inside the buffer `p`: `n` byte copies. -/
def memcpy (buf : List Nat) (dst src n : Nat) : List Nat :=
  (List.range n).foldl (fun b i => b.set (dst + i) (b.getD (src + i) 0)) buf

/-- Member variables of `Screen_EPD_EXT3_Fast` (own and inherited) that the
modelled functions read or write. `_newImage = []` stands for the null pointer. -/
structure Screen_EPD_EXT3_Fast where
  _eScreen_EPD_EXT3 : Nat
  _codeExtra : Nat
  _codeSize : Nat
  _codeType : Nat
  _screenColourBits : Nat
  _screenSizeV : Nat
  _screenSizeH : Nat
  _screenDiagonal : Nat
  _bufferDepth : Nat
  _bufferSizeV : Nat
  _bufferSizeH : Nat
  _pageColourSize : Nat
  _frameSize : Nat
  _newImage : List Nat
  _orientation : Nat
  _penSolid : Bool
  _invert : Bool
  _flag50 : Bool
  deriving DecidableEq, Repr

namespace Screen_EPD_EXT3_Fast

/-- Constructor `Screen_EPD_EXT3_Fast(eScreen_EPD_EXT3, board)`: stores the screen
code and a null frame-buffer pointer; `raw` holds the members it leaves unset. -/
def new (raw : Screen_EPD_EXT3_Fast) (eScreen_EPD_EXT3 : Nat) : Screen_EPD_EXT3_Fast :=
  { raw with _eScreen_EPD_EXT3 := eScreen_EPD_EXT3, _newImage := [] }

/-- Model of `COG_getUserData`: PSR bytes and `_flag50` from the low 16 bits of the code. -/
def COG_getUserData (g : Globals) (s : Screen_EPD_EXT3_Fast) : Globals × Screen_EPD_EXT3_Fast :=
  let _codeSizeType := s._eScreen_EPD_EXT3 &&& 0xffff
  if _codeSizeType = 0x150C ∨ _codeSizeType = 0x210E ∨ _codeSizeType = 0x260C then
    ({ g with index00_data := (0xcf, 0x02) }, { s with _flag50 := true })
  else if _codeSizeType = 0x2709 then
    ({ g with index00_data := (0xcf, 0x8d) }, { s with _flag50 := false })
  else if _codeSizeType = 0x2809 then
    ({ g with index00_data := (0xcf, 0x8d) }, { s with _flag50 := false })
  else if _codeSizeType = 0x370C then
    ({ g with index00_data := (0xcf, 0x8f) }, { s with _flag50 := true })
  else if _codeSizeType = 0x410D then
    ({ g with index00_data := (0x0f, 0x0e) }, { s with _flag50 := false })
  else if _codeSizeType = 0x430C then
    ({ g with index00_data := (0x0f, 0x0e) }, { s with _flag50 := true })
  else if _codeSizeType = 0x580B then
    (g, s)
  else
    (g, s)

/-- Model of `_setOrientation`. -/
def _setOrientation (s : Screen_EPD_EXT3_Fast) (orientation : Nat) : Screen_EPD_EXT3_Fast :=
  { s with _orientation := orientation % 4 }

/-- Modelled from the spec: the inherited `setOrientation(o)`, whose body is not
part of these sources; it configures the orientation, through the hook
`_setOrientation` that the class has to provide. -/
def setOrientation (s : Screen_EPD_EXT3_Fast) (orientation : Nat) : Screen_EPD_EXT3_Fast :=
  _setOrientation s orientation

/-- Model of `_orientCoordinates`: the error flag (`false` = success) and the
values left in the reference parameters `x` and `y`. -/
def _orientCoordinates (s : Screen_EPD_EXT3_Fast) (x y : Nat) : Bool × Nat × Nat :=
  if s._orientation = 3 then
    if x < s._screenSizeV ∧ y < s._screenSizeH then
      (false, s._screenSizeV - 1 - x, y)
    else (true, x, y)
  else if s._orientation = 2 then
    if x < s._screenSizeH ∧ y < s._screenSizeV then
      (false, s._screenSizeV - 1 - y, s._screenSizeH - 1 - x)
    else (true, x, y)
  else if s._orientation = 1 then
    if x < s._screenSizeV ∧ y < s._screenSizeH then
      (false, x, s._screenSizeH - 1 - y)
    else (true, x, y)
  else
    if x < s._screenSizeH ∧ y < s._screenSizeV then
      (false, y, x)
    else (true, x, y)

/-- Model of `_getZ`: index of the byte in `_newImage`. -/
def _getZ (s : Screen_EPD_EXT3_Fast) (x1 y1 : Nat) : Nat :=
  x1 * s._bufferSizeH + (y1 >>> 3)

/-- Model of `_getB`: bit inside the byte. -/
def _getB (_s : Screen_EPD_EXT3_Fast) (_x1 y1 : Nat) : Nat :=
  7 - (y1 % 8)

/-- Model of `_setPoint`. -/
def _setPoint (myColours : Colours) (s : Screen_EPD_EXT3_Fast) (x1 y1 colour : Nat) :
    Screen_EPD_EXT3_Fast :=
  let r := _orientCoordinates s x1 y1
  if r.1 then s
  else
    let x1 := r.2.1
    let y1 := r.2.2
    let flagOdd : Bool := (x1 + y1) % 2 == 0
    let colour :=
      if colour = myColours.grey then
        (if flagOdd then myColours.black else myColours.white)
      else colour
    let z1 := _getZ s x1 y1
    let b1 := _getB s x1 y1
    if Bool.xor (colour == myColours.white) s._invert then
      { s with _newImage := s._newImage.set z1 (bitClear (s._newImage.getD z1 0) b1) }
    else if Bool.xor (colour == myColours.black) s._invert then
      { s with _newImage := s._newImage.set z1 (bitSet (s._newImage.getD z1 0) b1) }
    else s

/-- Model of `_getPoint`. -/
def _getPoint (myColours : Colours) (s : Screen_EPD_EXT3_Fast) (x1 y1 : Nat) : Nat :=
  let r := _orientCoordinates s x1 y1
  if r.1 then 0
  else
    let x1 := r.2.1
    let y1 := r.2.2
    let z1 := _getZ s x1 y1
    let b1 := _getB s x1 y1
    let _value := bitRead (s._newImage.getD z1 0) b1
    let _value := (_value <<< 4) % 256
    let _value := _value &&& 0b11110000
    if _value = 0x10 then myColours.black else myColours.white

/-- One row of the grey pattern written by `clear`: the inner loop over `j`. -/
def clearGreyRow (s : Screen_EPD_EXT3_Fast) (i : Nat) (buf : List Nat) : List Nat :=
  let pattern := if i % 2 ≠ 0 then 0b10101010 else 0b01010101
  (List.range s._bufferSizeH).foldl (fun b j => b.set (i * s._bufferSizeH + j) pattern) buf

/-- Model of `clear(colour)`. -/
def clear (myColours : Colours) (s : Screen_EPD_EXT3_Fast) (colour : Nat) :
    Screen_EPD_EXT3_Fast :=
  if colour = myColours.grey then
    { s with _newImage :=
        (List.range s._bufferSizeV).foldl (fun b i => clearGreyRow s i b) s._newImage }
  else if Bool.xor (colour == myColours.white) s._invert then
    { s with _newImage := memset s._newImage 0 0x00 s._pageColourSize }
  else
    { s with _newImage := memset s._newImage 0 0xff s._pageColourSize }

/-- First statements of `begin`: the three bytes of the screen code. -/
def begin_codes (s : Screen_EPD_EXT3_Fast) : Screen_EPD_EXT3_Fast :=
  { s with
    _codeExtra := (s._eScreen_EPD_EXT3 >>> 16) &&& 0xff
    _codeSize := (s._eScreen_EPD_EXT3 >>> 8) &&& 0xff
    _codeType := s._eScreen_EPD_EXT3 &&& 0xff
    _screenColourBits := 2 }

/-- The size table of `begin`: `switch (_codeSize)`, whose default case sets nothing. -/
def begin_sizes (s : Screen_EPD_EXT3_Fast) : Screen_EPD_EXT3_Fast :=
  if s._codeSize = 0x15 then
    { s with _screenSizeV := 152, _screenSizeH := 152, _screenDiagonal := 154 }
  else if s._codeSize = 0x21 then
    { s with _screenSizeV := 212, _screenSizeH := 104, _screenDiagonal := 213 }
  else if s._codeSize = 0x26 then
    { s with _screenSizeV := 296, _screenSizeH := 152, _screenDiagonal := 266 }
  else if s._codeSize = 0x27 then
    { s with _screenSizeV := 264, _screenSizeH := 176, _screenDiagonal := 271 }
  else if s._codeSize = 0x28 then
    { s with _screenSizeV := 296, _screenSizeH := 128, _screenDiagonal := 287 }
  else if s._codeSize = 0x37 then
    { s with _screenSizeV := 416, _screenSizeH := 240, _screenDiagonal := 370 }
  else if s._codeSize = 0x41 then
    { s with _screenSizeV := 300, _screenSizeH := 400, _screenDiagonal := 417 }
  else if s._codeSize = 0x43 then
    { s with _screenSizeV := 480, _screenSizeH := 176, _screenDiagonal := 437 }
  else if s._codeSize = 0x56 then
    { s with _screenSizeV := 600, _screenSizeH := 448, _screenDiagonal := 565 }
  else if s._codeSize = 0x58 then
    { s with _screenSizeV := 720, _screenSizeH := 256, _screenDiagonal := 581 }
  else if s._codeSize = 0x74 then
    { s with _screenSizeV := 800, _screenSizeH := 480, _screenDiagonal := 741 }
  else s

/-- Buffer sizing of `begin`: `_bufferDepth`, `_bufferSizeV`, `_bufferSizeH`,
`_pageColourSize` and the `switch` that sets `_frameSize`. -/
def begin_buffer (s : Screen_EPD_EXT3_Fast) : Screen_EPD_EXT3_Fast :=
  let s := { s with
    _bufferDepth := s._screenColourBits
    _bufferSizeV := s._screenSizeV
    _bufferSizeH := s._screenSizeH / 8 }
  let s := { s with _pageColourSize := s._bufferSizeV * s._bufferSizeH }
  if s._codeSize = 0x96 ∨ s._codeSize = 0xB9 then
    { s with _frameSize := s._pageColourSize / 2 }
  else
    { s with _frameSize := s._pageColourSize }

/-- Allocation of the frame buffer in `begin`: `new uint8_t[...]` when the
pointer is null, then `memset` of the whole buffer. -/
def begin_allocate (s : Screen_EPD_EXT3_Fast) : Screen_EPD_EXT3_Fast :=
  let s :=
    if s._newImage = [] then
      { s with _newImage := List.replicate (s._pageColourSize * s._bufferDepth) 0 }
    else s
  { s with _newImage := memset s._newImage 0 0x00 (s._pageColourSize * s._bufferDepth) }

/-- Model of `begin`, as far as the modelled members go: the board, pin, SPI and
reset calls, the inherited `hV_Screen_Buffer::begin()`, the font selection and
the serial report are left out. -/
def begin (myColours : Colours) (g : Globals) (s : Screen_EPD_EXT3_Fast) :
    Globals × Screen_EPD_EXT3_Fast :=
  let s := begin_allocate (begin_buffer (begin_sizes (begin_codes s)))
  let r := COG_getUserData g s
  let s := setOrientation r.2 0
  let s := { s with _penSolid := false, _invert := false }
  (r.1, clear myColours s myColours.white)

/-- Model of `COG_initial`. -/
def COG_initial (k : Constants) (g : Globals) (s : Screen_EPD_EXT3_Fast) (updateMode : Nat) :
    List Event :=
  let indexE0_work := indexE0_data
  let fast : Bool := (s._codeExtra &&& k.FEATURE_FAST != 0) && (updateMode != k.UPDATE_GLOBAL)
  let indexE5_work := if fast then indexE5_data ||| 0x40 else indexE5_data
  let index00_work :=
    if fast then [g.index00_data.1 ||| 0x10, g.index00_data.2 ||| 0x02]
    else [g.index00_data.1, g.index00_data.2]
  [Event.sendIndexData 0x00 [0x0e], Event.waitBusy,
   Event.sendIndexData 0xe5 [indexE5_work],
   Event.sendIndexData 0xe0 [indexE0_work],
   Event.sendIndexData 0x00 index00_work]
  ++ (if fast then [Event.sendIndexData 0x50 [index50c_data]] else [])
  ++ (if fast && s._flag50 then [Event.sendIndexData 0x50 [index50a_data]] else [])

/-- Model of `COG_sendImageDataFast`: `nextBuffer` is at offset 0 of `_newImage`
and `previousBuffer` at offset `_pageColourSize`. -/
def COG_sendImageDataFast (s : Screen_EPD_EXT3_Fast) : Screen_EPD_EXT3_Fast × List Event :=
  let nextBuffer := 0
  let previousBuffer := s._pageColourSize
  ({ s with _newImage := memcpy s._newImage previousBuffer nextBuffer s._frameSize },
   [Event.sendIndexData 0x10 ((s._newImage.drop previousBuffer).take s._frameSize),
    Event.sendIndexData 0x13 ((s._newImage.drop nextBuffer).take s._frameSize)])

/-- Model of `COG_update`. -/
def COG_update (k : Constants) (s : Screen_EPD_EXT3_Fast) (updateMode : Nat) : List Event :=
  (if (s._codeExtra &&& k.FEATURE_FAST != 0) && (updateMode != k.UPDATE_GLOBAL) && s._flag50 then
    [Event.sendIndexData 0x50 [index50b_data]] else [])
  ++ [Event.sendCommand8 0x04, Event.panelCS_HIGH, Event.waitBusy,
      Event.sendCommand8 0x12, Event.panelCS_HIGH, Event.waitBusy]

/-- Model of `COG_powerOff`. -/
def COG_powerOff : List Event :=
  [Event.sendCommand8 0x02, Event.panelCS_HIGH, Event.waitBusy]

/-- Model of `_flushFast`. -/
def _flushFast (k : Constants) (g : Globals) (s : Screen_EPD_EXT3_Fast) :
    Screen_EPD_EXT3_Fast × List Event :=
  let t1 := COG_initial k g s k.UPDATE_FAST
  let r := COG_sendImageDataFast s
  let t3 := COG_update k r.1 k.UPDATE_FAST
  (r.1, t1 ++ r.2 ++ t3 ++ COG_powerOff)

/-- Model of `flushMode`: the returned mode, the state and the events. -/
def flushMode (k : Constants) (checkTemperatureMode : Nat → Nat) (g : Globals)
    (s : Screen_EPD_EXT3_Fast) (updateMode : Nat) : Nat × Screen_EPD_EXT3_Fast × List Event :=
  let updateMode := checkTemperatureMode updateMode
  if updateMode = k.UPDATE_FAST ∨ updateMode = k.UPDATE_PARTIAL ∨ updateMode = k.UPDATE_GLOBAL then
    (updateMode, _flushFast k g s)
  else
    (updateMode, s, [Event.println "* PDLS - UPDATE_NONE invoked"])

/-- Model of `flush`. -/
def flush (k : Constants) (checkTemperatureMode : Nat → Nat) (g : Globals)
    (s : Screen_EPD_EXT3_Fast) : Screen_EPD_EXT3_Fast × List Event :=
  (flushMode k checkTemperatureMode g s k.UPDATE_FAST).2

/-- Model of `regenerate`. -/
def regenerate (myColours : Colours) (k : Constants) (checkTemperatureMode : Nat → Nat)
    (g : Globals) (s : Screen_EPD_EXT3_Fast) : Screen_EPD_EXT3_Fast × List Event :=
  let s := clear myColours s myColours.black
  let r1 := flush k checkTemperatureMode g s
  let s := clear myColours r1.1 myColours.white
  let r2 := flush k checkTemperatureMode g s
  (r2.1, r1.2 ++ [Event.delay 100] ++ r2.2 ++ [Event.delay 100])

/-- The sizes for which the size table of `begin` has a case. -/
def supportedSize (codeSize : Nat) : Prop :=
  codeSize ∈ [0x15, 0x21, 0x26, 0x27, 0x28, 0x37, 0x41, 0x43, 0x56, 0x58, 0x74]

instance (codeSize : Nat) : Decidable (supportedSize codeSize) := by
  unfold supportedSize; infer_instance

/-- The `_codeSize` byte of a screen code, as `begin` extracts it. -/
def codeSizeOf (eScreen_EPD_EXT3 : Nat) : Nat := (eScreen_EPD_EXT3 >>> 8) &&& 0xff

/-- A driver in use: constructed for the code `e`, begun, then brought to the
orientation `o` by `_setOrientation`, with the frame-buffer content `buf` and
the invert flag `inv`. -/
def inUse (myColours : Colours) (g : Globals) (raw : Screen_EPD_EXT3_Fast) (e : Nat)
    (buf : List Nat) (o : Nat) (inv : Bool) : Screen_EPD_EXT3_Fast :=
  _setOrientation { (begin myColours g (new raw e)).2 with _newImage := buf, _invert := inv } o

/-- Bytes per plane of the driver for the code `e`: `_pageColourSize` after `begin`. -/
def planeSize (myColours : Colours) (g : Globals) (raw : Screen_EPD_EXT3_Fast) (e : Nat) : Nat :=
  (begin myColours g (new raw e)).2._pageColourSize

/-- The "next" plane: the `_pageColourSize` bytes at `nextBuffer = _newImage`. -/
def nextPlane (s : Screen_EPD_EXT3_Fast) : List Nat :=
  s._newImage.take s._pageColourSize

/-- The "previous" plane: the `_pageColourSize` bytes at
`previousBuffer = _newImage + _pageColourSize`. -/
def previousPlane (s : Screen_EPD_EXT3_Fast) : List Nat :=
  (s._newImage.drop s._pageColourSize).take s._pageColourSize

/-- Logical bounds of the current orientation: the test made by `_orientCoordinates`. -/
def inBounds (s : Screen_EPD_EXT3_Fast) (x y : Nat) : Prop :=
  if s._orientation = 1 ∨ s._orientation = 3 then x < s._screenSizeV ∧ y < s._screenSizeH
  else x < s._screenSizeH ∧ y < s._screenSizeV

instance (s : Screen_EPD_EXT3_Fast) (x y : Nat) : Decidable (inBounds s x y) := by
  unfold inBounds; infer_instance

/-- The cycle that the four phases make when all are run with the mode
`updateMode`: Configure, Transfer, Refresh, Power-off. `_flushFast` is compared
with it. -/
def cycleWithMode (k : Constants) (g : Globals) (s : Screen_EPD_EXT3_Fast) (updateMode : Nat) :
    List Event :=
  COG_initial k g s updateMode ++ (COG_sendImageDataFast s).2
    ++ COG_update k (COG_sendImageDataFast s).1 updateMode ++ COG_powerOff

/-- The commands and busy-waits of a trace: what goes to the panel controller,
without the chip-select writes, the serial output and the delays. -/
def commandTrace (t : List Event) : List Event :=
  t.filter fun ev =>
    match ev with
    | Event.sendIndexData _ _ => true
    | Event.sendCommand8 _ => true
    | Event.waitBusy => true
    | _ => false

/-- The command index or command code that an event sends to the panel, if any. -/
def commandIndex : Event → Option Nat
  | Event.sendIndexData index _ => some index
  | Event.sendCommand8 command => some command
  | _ => none

/-- An object whose members are all zero, for the members the constructor leaves unset. -/
def blank : Screen_EPD_EXT3_Fast :=
  { _eScreen_EPD_EXT3 := 0, _codeExtra := 0, _codeSize := 0, _codeType := 0,
    _screenColourBits := 0, _screenSizeV := 0, _screenSizeH := 0, _screenDiagonal := 0,
    _bufferDepth := 0, _bufferSizeV := 0, _bufferSizeH := 0, _pageColourSize := 0,
    _frameSize := 0, _newImage := [], _orientation := 0, _penSolid := false,
    _invert := false, _flag50 := false }

/-- The Configure trace as the specification words it for Fast mode on a
fast-capable profile without the alternate voltage table, every send being
followed by a busy-wait: soft-reset, temperature with 0x40 set, activate
temperature, PSR with 0x10 / 0x02 set, one Vcom byte. `COG_initial` is compared
with it. -/
def configureTraceAsWorded (g : Globals) : List Event :=
  [Event.sendIndexData 0x00 [0x0e], Event.waitBusy,
   Event.sendIndexData 0xe5 [0x19 ||| 0x40], Event.waitBusy,
   Event.sendIndexData 0xe0 [0x02], Event.waitBusy,
   Event.sendIndexData 0x00 [g.index00_data.1 ||| 0x10, g.index00_data.2 ||| 0x02],
   Event.waitBusy,
   Event.sendIndexData 0x50 [0x07], Event.waitBusy]

/-- The indices of `_newImage` that `_setPoint` reads or writes, in program
order: none when `_orientCoordinates` reports an error (early `return`) or when
neither polarity test holds, otherwise `z1` read and written by `bitClear` or
`bitSet`. -/
def _setPoint_accesses (myColours : Colours) (s : Screen_EPD_EXT3_Fast) (x1 y1 colour : Nat) :
    List Nat :=
  let r := _orientCoordinates s x1 y1
  if r.1 then []
  else
    let x1 := r.2.1
    let y1 := r.2.2
    let flagOdd : Bool := (x1 + y1) % 2 == 0
    let colour :=
      if colour = myColours.grey then
        (if flagOdd then myColours.black else myColours.white)
      else colour
    let z1 := _getZ s x1 y1
    if Bool.xor (colour == myColours.white) s._invert then [z1, z1]
    else if Bool.xor (colour == myColours.black) s._invert then [z1, z1]
    else []

/-- Facts about the geometry members that hold after `begin` on a supported size. -/
structure Geometry (s : Screen_EPD_EXT3_Fast) : Prop where
  rowBytes : s._screenSizeH = 8 * s._bufferSizeH
  evenV : s._screenSizeV % 2 = 0
  bufV : s._bufferSizeV = s._screenSizeV
  page : s._pageColourSize = s._screenSizeV * s._bufferSizeH
  frame : s._frameSize = s._pageColourSize
  len : s._newImage.length = 2 * s._pageColourSize

/-! ## Auxiliary lemmas -/


theorem bitRead_eq (v b : Nat) : bitRead v b = if v.testBit b then 1 else 0 := by
  unfold bitRead
  rw [Nat.and_one_is_mod]
  by_cases h : v.testBit b
  · simp only [h, if_true]
    rw [Nat.testBit_to_div_mod] at h
    simpa [Nat.shiftRight_eq_div_pow] using h
  · simp only [h]
    rw [Nat.testBit_to_div_mod] at h
    simp [Nat.shiftRight_eq_div_pow] at h ⊢
    omega

theorem testBit_bitSet (v b i : Nat) (hi : i < 8) :
    (bitSet v b).testBit i = (v.testBit i || decide (b = i)) := by
  unfold bitSet
  rw [show (256 : Nat) = 2 ^ 8 from rfl, Nat.testBit_mod_two_pow, Nat.testBit_or,
    Nat.one_shiftLeft, Nat.testBit_two_pow]
  simp [hi]

theorem testBit_bitClear (v b i : Nat) (hi : i < 8) (hb : b < 8) :
    (bitClear v b).testBit i = (v.testBit i && !decide (b = i)) := by
  unfold bitClear
  have h32 : (1 <<< b) % 2 ^ 32 = 2 ^ b := by
    rw [Nat.one_shiftLeft]
    exact Nat.mod_eq_of_lt (Nat.pow_lt_pow_right (by decide) (by omega))
  rw [h32, show (256 : Nat) = 2 ^ 8 from rfl, Nat.testBit_mod_two_pow, Nat.testBit_and,
    Nat.testBit_xor, Nat.testBit_two_pow,
    show (0xFFFFFFFF : Nat) = 2 ^ 32 - 1 from rfl, Nat.testBit_two_pow_sub_one]
  have : i < 32 := by omega
  simp [hi, this]


theorem getD_set_same (l : List Nat) (i v : Nat) (h : i < l.length) :
    (l.set i v).getD i 0 = v := by
  simp [List.getD_eq_getElem?_getD, List.getElem?_set, h]

theorem getD_set_ne (l : List Nat) (i j v : Nat) (h : i ≠ j) :
    (l.set i v).getD j 0 = l.getD j 0 := by
  simp [List.getD_eq_getElem?_getD, List.getElem?_set, h]

theorem COG_getUserData_snd (g : Globals) (s : Screen_EPD_EXT3_Fast) :
    (COG_getUserData g s).2 = { s with _flag50 := (COG_getUserData g s).2._flag50 } := by
  unfold COG_getUserData
  simp only []
  split_ifs <;> rfl

theorem clear_eq (c : Colours) (s : Screen_EPD_EXT3_Fast) (colour : Nat) :
    clear c s colour = { s with _newImage := (clear c s colour)._newImage } := by
  unfold clear
  split_ifs <;> rfl

theorem _setPoint_eq (c : Colours) (s : Screen_EPD_EXT3_Fast) (x y colour : Nat) :
    _setPoint c s x y colour = { s with _newImage := (_setPoint c s x y colour)._newImage } := by
  unfold _setPoint
  simp only []
  split_ifs <;> rfl

theorem length_memset (buf : List Nat) (off v n : Nat) :
    (memset buf off v n).length = buf.length := by
  unfold memset
  induction n generalizing buf with
  | zero => simp
  | succ n ih => simp [List.range_succ, List.foldl_append, ih]


theorem length_foldl_set {α : Type} (l : List α) (idx : α → Nat) (val : List Nat → α → Nat)
    (buf : List Nat) :
    (l.foldl (fun b i => b.set (idx i) (val b i)) buf).length = buf.length := by
  induction l generalizing buf with
  | nil => rfl
  | cons a l ih => simp [List.foldl_cons, ih]

theorem length_memcpy (buf : List Nat) (dst src n : Nat) :
    (memcpy buf dst src n).length = buf.length :=
  length_foldl_set (List.range n) (fun i => dst + i) (fun b i => b.getD (src + i) 0) buf

theorem length_clearGreyRow (s : Screen_EPD_EXT3_Fast) (i : Nat) (buf : List Nat) :
    (clearGreyRow s i buf).length = buf.length :=
  length_foldl_set (List.range s._bufferSizeH) (fun j => i * s._bufferSizeH + j) _ buf

theorem length_foldl_rows (s : Screen_EPD_EXT3_Fast) (l : List Nat) (buf : List Nat) :
    (l.foldl (fun b i => clearGreyRow s i b) buf).length = buf.length := by
  induction l generalizing buf with
  | nil => rfl
  | cons a l ih => rw [List.foldl_cons, ih, length_clearGreyRow]

theorem length_clear (c : Colours) (s : Screen_EPD_EXT3_Fast) (colour : Nat) :
    (clear c s colour)._newImage.length = s._newImage.length := by
  unfold clear
  split_ifs
  · exact length_foldl_rows s _ _
  · exact length_memset _ _ _ _
  · exact length_memset _ _ _ _

theorem clear_screenSizeH (c : Colours) (s : Screen_EPD_EXT3_Fast) (colour : Nat) :
    (clear c s colour)._screenSizeH = s._screenSizeH := by rw [clear_eq]

theorem clear_screenSizeV (c : Colours) (s : Screen_EPD_EXT3_Fast) (colour : Nat) :
    (clear c s colour)._screenSizeV = s._screenSizeV := by rw [clear_eq]

theorem clear_bufferSizeH (c : Colours) (s : Screen_EPD_EXT3_Fast) (colour : Nat) :
    (clear c s colour)._bufferSizeH = s._bufferSizeH := by rw [clear_eq]

theorem clear_bufferSizeV (c : Colours) (s : Screen_EPD_EXT3_Fast) (colour : Nat) :
    (clear c s colour)._bufferSizeV = s._bufferSizeV := by rw [clear_eq]

theorem clear_pageColourSize (c : Colours) (s : Screen_EPD_EXT3_Fast) (colour : Nat) :
    (clear c s colour)._pageColourSize = s._pageColourSize := by rw [clear_eq]

theorem clear_frameSize (c : Colours) (s : Screen_EPD_EXT3_Fast) (colour : Nat) :
    (clear c s colour)._frameSize = s._frameSize := by rw [clear_eq]

theorem begin_sizes_spec (s : Screen_EPD_EXT3_Fast) :
    ∃ V H D : Nat,
      begin_sizes s = { s with _screenSizeV := V, _screenSizeH := H, _screenDiagonal := D } ∧
      (supportedSize s._codeSize → H % 8 = 0 ∧ V % 2 = 0) := by
  unfold begin_sizes
  by_cases h0 : s._codeSize = 0x15
  · rw [if_pos h0]; exact ⟨_, _, _, rfl, fun _ => by decide⟩
  rw [if_neg h0]
  by_cases h1 : s._codeSize = 0x21
  · rw [if_pos h1]; exact ⟨_, _, _, rfl, fun _ => by decide⟩
  rw [if_neg h1]
  by_cases h2 : s._codeSize = 0x26
  · rw [if_pos h2]; exact ⟨_, _, _, rfl, fun _ => by decide⟩
  rw [if_neg h2]
  by_cases h3 : s._codeSize = 0x27
  · rw [if_pos h3]; exact ⟨_, _, _, rfl, fun _ => by decide⟩
  rw [if_neg h3]
  by_cases h4 : s._codeSize = 0x28
  · rw [if_pos h4]; exact ⟨_, _, _, rfl, fun _ => by decide⟩
  rw [if_neg h4]
  by_cases h5 : s._codeSize = 0x37
  · rw [if_pos h5]; exact ⟨_, _, _, rfl, fun _ => by decide⟩
  rw [if_neg h5]
  by_cases h6 : s._codeSize = 0x41
  · rw [if_pos h6]; exact ⟨_, _, _, rfl, fun _ => by decide⟩
  rw [if_neg h6]
  by_cases h7 : s._codeSize = 0x43
  · rw [if_pos h7]; exact ⟨_, _, _, rfl, fun _ => by decide⟩
  rw [if_neg h7]
  by_cases h8 : s._codeSize = 0x56
  · rw [if_pos h8]; exact ⟨_, _, _, rfl, fun _ => by decide⟩
  rw [if_neg h8]
  by_cases h9 : s._codeSize = 0x58
  · rw [if_pos h9]; exact ⟨_, _, _, rfl, fun _ => by decide⟩
  rw [if_neg h9]
  by_cases h10 : s._codeSize = 0x74
  · rw [if_pos h10]; exact ⟨_, _, _, rfl, fun _ => by decide⟩
  rw [if_neg h10]
  refine ⟨s._screenSizeV, s._screenSizeH, s._screenDiagonal, rfl, fun hs => ?_⟩
  unfold supportedSize at hs
  simp only [List.mem_cons, List.mem_singleton, List.not_mem_nil, or_false] at hs
  omega

theorem begin_sizes_eq (s : Screen_EPD_EXT3_Fast) :
    begin_sizes s = { s with
      _screenSizeV := (begin_sizes s)._screenSizeV
      _screenSizeH := (begin_sizes s)._screenSizeH
      _screenDiagonal := (begin_sizes s)._screenDiagonal } := by
  obtain ⟨V, H, D, h, -⟩ := begin_sizes_spec s
  rw [h]

theorem begin_sizes_supported (s : Screen_EPD_EXT3_Fast) (hs : supportedSize s._codeSize) :
    (begin_sizes s)._screenSizeH % 8 = 0 ∧ (begin_sizes s)._screenSizeV % 2 = 0 := by
  obtain ⟨V, H, D, h, h2⟩ := begin_sizes_spec s
  rw [h]
  exact h2 hs

theorem begin_buffer_eq (s : Screen_EPD_EXT3_Fast) :
    begin_buffer s = { s with
      _bufferDepth := s._screenColourBits
      _bufferSizeV := s._screenSizeV
      _bufferSizeH := s._screenSizeH / 8
      _pageColourSize := s._screenSizeV * (s._screenSizeH / 8)
      _frameSize := (begin_buffer s)._frameSize } := by
  unfold begin_buffer
  simp only []
  split_ifs <;> rfl

theorem begin_buffer_frameSize (s : Screen_EPD_EXT3_Fast) (h : supportedSize s._codeSize) :
    (begin_buffer s)._frameSize = s._screenSizeV * (s._screenSizeH / 8) := by
  unfold supportedSize at h
  simp only [List.mem_cons, List.mem_singleton, List.not_mem_nil, or_false] at h
  unfold begin_buffer
  rcases h with h | h | h | h | h | h | h | h | h | h | h <;> simp [h]

theorem begin_allocate_eq (s : Screen_EPD_EXT3_Fast) :
    begin_allocate s = { s with _newImage := (begin_allocate s)._newImage } := by
  unfold begin_allocate
  simp only []
  split_ifs <;> rfl

theorem begin_allocate_length (s : Screen_EPD_EXT3_Fast) (h : s._newImage = []) :
    (begin_allocate s)._newImage.length = s._pageColourSize * s._bufferDepth := by
  unfold begin_allocate
  simp [h, length_memset]

theorem Geometry.of_fields {s t : Screen_EPD_EXT3_Fast} (h : Geometry s)
    (hV : t._screenSizeV = s._screenSizeV) (hH : t._screenSizeH = s._screenSizeH)
    (hbV : t._bufferSizeV = s._bufferSizeV) (hbH : t._bufferSizeH = s._bufferSizeH)
    (hp : t._pageColourSize = s._pageColourSize) (hf : t._frameSize = s._frameSize)
    (hl : t._newImage.length = s._newImage.length) : Geometry t := by
  constructor
  · rw [hH, hbH]; exact h.rowBytes
  · rw [hV]; exact h.evenV
  · rw [hbV, hV]; exact h.bufV
  · rw [hp, hV, hbH]; exact h.page
  · rw [hf, hp]; exact h.frame
  · rw [hl, hp]; exact h.len

theorem Geometry.clear {s : Screen_EPD_EXT3_Fast} (h : Geometry s) (c : Colours) (colour : Nat) :
    Geometry (clear c s colour) :=
  h.of_fields (clear_screenSizeV c s colour) (clear_screenSizeH c s colour)
    (clear_bufferSizeV c s colour) (clear_bufferSizeH c s colour)
    (clear_pageColourSize c s colour) (clear_frameSize c s colour) (length_clear c s colour)

theorem Geometry.getUserData {s : Screen_EPD_EXT3_Fast} (h : Geometry s) (g : Globals) :
    Geometry (COG_getUserData g s).2 := by
  generalize hf : (COG_getUserData g s).2._flag50 = f
  have e := COG_getUserData_snd g s
  rw [hf] at e
  rw [e]
  exact h.of_fields rfl rfl rfl rfl rfl rfl rfl

theorem begin_allocate_geometry (s : Screen_EPD_EXT3_Fast)
    (hs : supportedSize (codeSizeOf s._eScreen_EPD_EXT3))
    (hnull : s._newImage = []) :
    Geometry (begin_allocate (begin_buffer (begin_sizes (begin_codes s)))) := by
  obtain ⟨V, H, D, h1, h1'⟩ := begin_sizes_spec (begin_codes s)
  obtain ⟨h8, h2⟩ := h1' hs
  have hs2 : supportedSize (begin_sizes (begin_codes s))._codeSize := by
    rw [h1]; exact hs
  have hf := begin_buffer_frameSize _ hs2
  have hb := begin_buffer_eq (begin_sizes (begin_codes s))
  generalize (begin_buffer (begin_sizes (begin_codes s)))._frameSize = frame at hf hb
  have hl := begin_allocate_length (begin_buffer (begin_sizes (begin_codes s)))
  have ha := begin_allocate_eq (begin_buffer (begin_sizes (begin_codes s)))
  generalize (begin_allocate (begin_buffer (begin_sizes (begin_codes s))))._newImage = img at hl ha
  rw [hb, h1] at hl
  rw [ha, hb, h1]
  rw [h1] at hf
  have hl := hl hnull
  constructor
  · show H = 8 * (H / 8)
    omega
  · exact h2
  · rfl
  · rfl
  · exact hf
  · rw [hl]
    show V * (H / 8) * 2 = 2 * (V * (H / 8))
    omega

theorem begin_geometry (c : Colours) (g : Globals) (raw : Screen_EPD_EXT3_Fast) (e : Nat)
    (h : supportedSize (codeSizeOf e)) :
    Geometry (begin c g (new raw e)).2 := by
  have hA := begin_allocate_geometry (new raw e) h rfl
  unfold begin
  simp only []
  generalize begin_allocate (begin_buffer (begin_sizes (begin_codes (new raw e)))) = A at hA
  have hB := hA.getUserData g
  generalize (COG_getUserData g A).2 = B at hB
  apply Geometry.clear
  exact hB.of_fields rfl rfl rfl rfl rfl rfl rfl

theorem inUse_geometry (c : Colours) (g : Globals) (raw : Screen_EPD_EXT3_Fast) (e : Nat)
    (buf : List Nat) (o : Nat) (inv : Bool)
    (h : supportedSize (codeSizeOf e)) (hbuf : buf.length = 2 * planeSize c g raw e) :
    Geometry (inUse c g raw e buf o inv) := by
  have hB := begin_geometry c g raw e h
  unfold planeSize at hbuf
  unfold inUse
  generalize (begin c g (new raw e)).2 = B at hB hbuf
  exact ⟨hB.rowBytes, hB.evenV, hB.bufV, hB.page, hB.frame, hbuf⟩

theorem orient_inBounds (s : Screen_EPD_EXT3_Fast) (x y : Nat) (h : inBounds s x y) :
    (_orientCoordinates s x y).1 = false ∧
    (_orientCoordinates s x y).2.1 < s._screenSizeV ∧
    (_orientCoordinates s x y).2.2 < s._screenSizeH := by
  unfold inBounds at h
  unfold _orientCoordinates
  split_ifs at h ⊢ <;> simp_all <;> omega

theorem address_inPlane {s : Screen_EPD_EXT3_Fast} (hg : Geometry s) (x1 y1 : Nat)
    (hx : x1 < s._screenSizeV) (hy : y1 < s._screenSizeH) :
    _getZ s x1 y1 < s._pageColourSize ∧ _getB s x1 y1 < 8 := by
  unfold _getZ _getB
  rw [Nat.shiftRight_eq_div_pow, hg.page]
  have h8 := hg.rowBytes
  have h1 : y1 / 2 ^ 3 < s._bufferSizeH := by
    rw [Nat.div_lt_iff_lt_mul (by decide)]
    omega
  have h2 : (x1 + 1) * s._bufferSizeH ≤ s._screenSizeV * s._bufferSizeH :=
    Nat.mul_le_mul_right _ hx
  rw [Nat.add_mul, Nat.one_mul] at h2
  constructor <;> omega

/-- Value of `_getPoint` at an in-bounds pixel, from the addressed bit. -/
theorem _getPoint_bit (c : Colours) (s : Screen_EPD_EXT3_Fast) (x y : Nat)
    (h : inBounds s x y) :
    _getPoint c s x y =
      if (s._newImage.getD (_getZ s (_orientCoordinates s x y).2.1 (_orientCoordinates s x y).2.2)
            0).testBit (_getB s (_orientCoordinates s x y).2.1 (_orientCoordinates s x y).2.2)
      then c.black else c.white := by
  unfold _getPoint
  simp only [(orient_inBounds s x y h).1, bitRead_eq]
  by_cases hb : (s._newImage.getD (_getZ s (_orientCoordinates s x y).2.1
      (_orientCoordinates s x y).2.2) 0).testBit
      (_getB s (_orientCoordinates s x y).2.1 (_orientCoordinates s x y).2.2) = true
  · simp only [hb, if_true, Bool.false_eq_true, if_false]
    exact if_pos (by decide)
  · simp only [hb, if_true, Bool.false_eq_true, if_false]
    exact if_neg (by decide)

/-- The colour that `_setPoint` writes for `colour` at the oriented pixel `(x1, y1)`. -/
theorem _setPoint_image (c : Colours) (s : Screen_EPD_EXT3_Fast) (x y colour : Nat)
    (h : inBounds s x y) (z b col : Nat)
    (hz : z = _getZ s (_orientCoordinates s x y).2.1 (_orientCoordinates s x y).2.2)
    (hb : b = _getB s (_orientCoordinates s x y).2.1 (_orientCoordinates s x y).2.2)
    (hcol : col = if colour = c.grey then
        (if ((_orientCoordinates s x y).2.1 + (_orientCoordinates s x y).2.2) % 2 = 0
          then c.black else c.white) else colour) :
    (_setPoint c s x y colour)._newImage =
      if Bool.xor (col == c.white) s._invert then
        s._newImage.set z (bitClear (s._newImage.getD z 0) b)
      else if Bool.xor (col == c.black) s._invert then
        s._newImage.set z (bitSet (s._newImage.getD z 0) b)
      else s._newImage := by
  subst hz hb hcol
  unfold _setPoint
  simp only [(orient_inBounds s x y h).1]
  split_ifs <;> simp_all

/-- Reading back the pixel just written: the colour written decides, through the
two polarity tests of `_setPoint`; the read itself does not look at `_invert`. -/
theorem _getPoint_setPoint (c : Colours) (s : Screen_EPD_EXT3_Fast) (x y colour : Nat)
    (hg : Geometry s) (h : inBounds s x y) (col : Nat)
    (hcol : col = if colour = c.grey then
        (if ((_orientCoordinates s x y).2.1 + (_orientCoordinates s x y).2.2) % 2 = 0
          then c.black else c.white) else colour) :
    _getPoint c (_setPoint c s x y colour) x y =
      if Bool.xor (col == c.white) s._invert then c.white
      else if Bool.xor (col == c.black) s._invert then c.black
      else _getPoint c s x y := by
  obtain ⟨-, hx, hy⟩ := orient_inBounds s x y h
  obtain ⟨hz, hb⟩ := address_inPlane hg _ _ hx hy
  have hlen : _getZ s (_orientCoordinates s x y).2.1 (_orientCoordinates s x y).2.2
      < s._newImage.length := by
    rw [hg.len]; omega
  have himg := _setPoint_image c s x y colour h _ _ col rfl rfl hcol
  rw [_setPoint_eq]
  generalize (_setPoint c s x y colour)._newImage = img at himg
  have hget := _getPoint_bit c { s with _newImage := img } x y h
  rw [hget, _getPoint_bit c s x y h]
  change (if (img.getD (_getZ s (_orientCoordinates s x y).2.1 (_orientCoordinates s x y).2.2)
            0).testBit (_getB s (_orientCoordinates s x y).2.1 (_orientCoordinates s x y).2.2)
      then c.black else c.white) = _
  rw [himg]
  split_ifs with h1 h2 h3 h4 h5 <;>
    simp_all [getD_set_same, testBit_bitClear, testBit_bitSet]

theorem orient_parity {s : Screen_EPD_EXT3_Fast} (hg : Geometry s) (ho : s._orientation < 4)
    (x y : Nat) (h : inBounds s x y) :
    ((_orientCoordinates s x y).2.1 + (_orientCoordinates s x y).2.2) % 2
      = (x + y + s._orientation) % 2 := by
  have h8 := hg.rowBytes
  have h2 := hg.evenV
  unfold inBounds at h
  unfold _orientCoordinates
  split_ifs at h ⊢ <;> simp_all <;> omega

/-- Reading back a grey write: black exactly when the oriented `x1 + y1` is even and
`_invert` is off, or odd and `_invert` is on. -/
theorem _getPoint_setPoint_grey (c : Colours) (s : Screen_EPD_EXT3_Fast) (x y : Nat)
    (hcol : c.Distinct) (hg : Geometry s) (ho : s._orientation < 4) (h : inBounds s x y) :
    _getPoint c (_setPoint c s x y c.grey) x y =
      if ((x + y + s._orientation) % 2 = 0) ↔ s._invert = false then c.black else c.white := by
  obtain ⟨hbw, hgb, hgw⟩ := hcol
  rw [_getPoint_setPoint c s x y c.grey hg h _ rfl, orient_parity hg ho x y h]
  by_cases hp : (x + y + s._orientation) % 2 = 0 <;> cases hi : s._invert <;>
    simp [hp, hbw, Ne.symm hbw]

/-- Reading back a black or white write when `_invert` is on: the other colour. -/
theorem _getPoint_setPoint_inverted (c : Colours) (s : Screen_EPD_EXT3_Fast) (x y : Nat)
    (hcol : c.Distinct) (hg : Geometry s) (hinv : s._invert = true) (h : inBounds s x y) :
    _getPoint c (_setPoint c s x y c.white) x y = c.black ∧
    _getPoint c (_setPoint c s x y c.black) x y = c.white := by
  obtain ⟨hbw, hgb, hgw⟩ := hcol
  rw [_getPoint_setPoint c s x y c.white hg h _ rfl,
    _getPoint_setPoint c s x y c.black hg h _ rfl, hinv]
  simp [hbw, Ne.symm hbw, Ne.symm hgb, Ne.symm hgw]

theorem inUse_orientation_lt (c : Colours) (g : Globals) (raw : Screen_EPD_EXT3_Fast) (e : Nat)
    (buf : List Nat) (o : Nat) (inv : Bool) : (inUse c g raw e buf o inv)._orientation < 4 :=
  Nat.mod_lt o (by decide)

/-! ## Pixel round trips -/

/-- C1: with the invert flag false, on every supported screen size, in every
orientation and at every logical (x, y) inside the bounds of that orientation,
`_setPoint(x, y, c)` with `c` black or white followed by `_getPoint(x, y)`
returns `c`. -/
theorem C1_setPoint_getPoint_roundtrip (myColours : Colours) (g : Globals)
    (raw : Screen_EPD_EXT3_Fast) (e : Nat) (buf : List Nat) (o x y colour : Nat)
    (hcol : myColours.Distinct)
    (hsize : supportedSize (codeSizeOf e))
    (hbuf : buf.length = 2 * planeSize myColours g raw e)
    (hxy : inBounds (inUse myColours g raw e buf o false) x y)
    (hc : colour = myColours.black ∨ colour = myColours.white) :
    _getPoint myColours
      (_setPoint myColours (inUse myColours g raw e buf o false) x y colour) x y = colour := by
  have hg := inUse_geometry myColours g raw e buf o false hsize hbuf
  obtain ⟨hbw, hgb, hgw⟩ := hcol
  have hinv : (inUse myColours g raw e buf o false)._invert = false := rfl
  rw [_getPoint_setPoint myColours _ x y colour hg hxy _ rfl, hinv]
  rcases hc with hc | hc
  · subst hc
    simp [hbw, Ne.symm hgb]
  · subst hc
    simp [Ne.symm hgw]

/-- Witness of C1: a black pixel at (10, 20) of the 1.54" screen, orientation 1. -/
theorem C1_setPoint_getPoint_roundtrip_witness :
    _getPoint Colours.rgb565
      (_setPoint Colours.rgb565
        (inUse Colours.rgb565 Globals.startup blank 0x01150C (List.replicate 5776 0) 1 false)
        10 20 Colours.rgb565.black) 10 20 = Colours.rgb565.black :=
  C1_setPoint_getPoint_roundtrip Colours.rgb565 Globals.startup blank 0x01150C
    (List.replicate 5776 0) 1 10 20 Colours.rgb565.black (by decide) (by decide)
    (by rw [List.length_replicate]; decide) (by decide) (Or.inl rfl)

/-- C9, at the failing input: with the invert flag true, on the 1.54" screen in
orientation 0, a white pixel written at (0, 0) reads back black and a black
pixel reads back white: `_getPoint` does not apply the invert flag. -/
theorem C9_invert_readback_swapped :
    _getPoint Colours.rgb565
      (_setPoint Colours.rgb565
        (inUse Colours.rgb565 Globals.startup blank 0x01150C (List.replicate 5776 0) 0 true)
        0 0 Colours.rgb565.white) 0 0 = Colours.rgb565.black ∧
    _getPoint Colours.rgb565
      (_setPoint Colours.rgb565
        (inUse Colours.rgb565 Globals.startup blank 0x01150C (List.replicate 5776 0) 0 true)
        0 0 Colours.rgb565.black) 0 0 = Colours.rgb565.white :=
  _getPoint_setPoint_inverted Colours.rgb565 _ 0 0 (by decide)
    (inUse_geometry _ _ _ _ _ _ _ (by decide) (by rw [List.length_replicate]; decide))
    rfl (by decide)

/-- C10, refuted as stated: on the 1.54" screen, grey written at the same logical
(0, 0) reads back black in orientation 0 and white in orientation 1, although
the logical x + y is the same. -/
theorem C10_same_parity_different_colour :
    (0 + 0) % 2 = (0 + 0) % 2 ∧
    inBounds (inUse Colours.rgb565 Globals.startup blank 0x01150C (List.replicate 5776 0) 0 false)
      0 0 ∧
    inBounds (inUse Colours.rgb565 Globals.startup blank 0x01150C (List.replicate 5776 0) 1 false)
      0 0 ∧
    _getPoint Colours.rgb565
      (_setPoint Colours.rgb565
        (inUse Colours.rgb565 Globals.startup blank 0x01150C (List.replicate 5776 0) 0 false)
        0 0 Colours.rgb565.grey) 0 0 ≠
    _getPoint Colours.rgb565
      (_setPoint Colours.rgb565
        (inUse Colours.rgb565 Globals.startup blank 0x01150C (List.replicate 5776 0) 1 false)
        0 0 Colours.rgb565.grey) 0 0 := by
  have hg : ∀ o, Geometry
      (inUse Colours.rgb565 Globals.startup blank 0x01150C (List.replicate 5776 0) o false) :=
    fun o => inUse_geometry _ _ _ _ _ _ _ (by decide) (by rw [List.length_replicate]; decide)
  refine ⟨rfl, by decide, by decide, ?_⟩
  rw [_getPoint_setPoint_grey Colours.rgb565 _ 0 0 (by decide) (hg 0)
      (inUse_orientation_lt _ _ _ _ _ _ _) (by decide),
    _getPoint_setPoint_grey Colours.rgb565 _ 0 0 (by decide) (hg 1)
      (inUse_orientation_lt _ _ _ _ _ _ _) (by decide)]
  decide

/-- C10, amended: on every supported screen size, in every orientation and at every
in-bounds logical (x, y), grey written by `_setPoint` reads back black or white,
and which of the two is determined by the parity of x + y + orientation (the
parity of the oriented coordinates): two grey writes, made with the same invert
flag, read back the same colour exactly when their x + y + orientation have the
same parity. -/
theorem C10_grey_dither_by_oriented_parity (myColours : Colours) (g : Globals)
    (raw : Screen_EPD_EXT3_Fast) (e : Nat) (inv : Bool)
    (buf₁ buf₂ : List Nat) (o₁ o₂ x₁ y₁ x₂ y₂ : Nat)
    (hcol : myColours.Distinct)
    (hsize : supportedSize (codeSizeOf e))
    (ho₁ : o₁ < 4) (ho₂ : o₂ < 4)
    (hbuf₁ : buf₁.length = 2 * planeSize myColours g raw e)
    (hbuf₂ : buf₂.length = 2 * planeSize myColours g raw e)
    (hxy₁ : inBounds (inUse myColours g raw e buf₁ o₁ inv) x₁ y₁)
    (hxy₂ : inBounds (inUse myColours g raw e buf₂ o₂ inv) x₂ y₂) :
    (_getPoint myColours
        (_setPoint myColours (inUse myColours g raw e buf₁ o₁ inv) x₁ y₁ myColours.grey) x₁ y₁
        = myColours.black ∨
      _getPoint myColours
        (_setPoint myColours (inUse myColours g raw e buf₁ o₁ inv) x₁ y₁ myColours.grey) x₁ y₁
        = myColours.white) ∧
    (_getPoint myColours
        (_setPoint myColours (inUse myColours g raw e buf₁ o₁ inv) x₁ y₁ myColours.grey) x₁ y₁
      = _getPoint myColours
        (_setPoint myColours (inUse myColours g raw e buf₂ o₂ inv) x₂ y₂ myColours.grey) x₂ y₂
      ↔ (x₁ + y₁ + o₁) % 2 = (x₂ + y₂ + o₂) % 2) := by
  have hg₁ := inUse_geometry myColours g raw e buf₁ o₁ inv hsize hbuf₁
  have hg₂ := inUse_geometry myColours g raw e buf₂ o₂ inv hsize hbuf₂
  have e₁ : (inUse myColours g raw e buf₁ o₁ inv)._orientation = o₁ := Nat.mod_eq_of_lt ho₁
  have e₂ : (inUse myColours g raw e buf₂ o₂ inv)._orientation = o₂ := Nat.mod_eq_of_lt ho₂
  have i₁ : (inUse myColours g raw e buf₁ o₁ inv)._invert = inv := rfl
  have i₂ : (inUse myColours g raw e buf₂ o₂ inv)._invert = inv := rfl
  rw [_getPoint_setPoint_grey myColours _ x₁ y₁ hcol hg₁ (inUse_orientation_lt _ _ _ _ _ _ _) hxy₁,
    _getPoint_setPoint_grey myColours _ x₂ y₂ hcol hg₂ (inUse_orientation_lt _ _ _ _ _ _ _) hxy₂,
    e₁, e₂, i₁, i₂]
  obtain ⟨hbw, -, -⟩ := hcol
  have hm₁ : (x₁ + y₁ + o₁) % 2 = 0 ∨ (x₁ + y₁ + o₁) % 2 = 1 := by omega
  have hm₂ : (x₂ + y₂ + o₂) % 2 = 0 ∨ (x₂ + y₂ + o₂) % 2 = 1 := by omega
  rcases hm₁ with hm₁ | hm₁ <;> rcases hm₂ with hm₂ | hm₂ <;> cases inv <;>
    simp [hm₁, hm₂, hbw, Ne.symm hbw]

/-- Witness of C10 (amended): (3, 4) in orientation 1 and (5, 7) in orientation 2
of the 2.13" screen. -/
theorem C10_grey_dither_by_oriented_parity_witness :
    (_getPoint Colours.rgb565
        (_setPoint Colours.rgb565
          (inUse Colours.rgb565 Globals.startup blank 0x01210E (List.replicate 5512 0) 1 false)
          3 4 Colours.rgb565.grey) 3 4 = Colours.rgb565.black ∨
      _getPoint Colours.rgb565
        (_setPoint Colours.rgb565
          (inUse Colours.rgb565 Globals.startup blank 0x01210E (List.replicate 5512 0) 1 false)
          3 4 Colours.rgb565.grey) 3 4 = Colours.rgb565.white) ∧
    (_getPoint Colours.rgb565
        (_setPoint Colours.rgb565
          (inUse Colours.rgb565 Globals.startup blank 0x01210E (List.replicate 5512 0) 1 false)
          3 4 Colours.rgb565.grey) 3 4
      = _getPoint Colours.rgb565
        (_setPoint Colours.rgb565
          (inUse Colours.rgb565 Globals.startup blank 0x01210E (List.replicate 5512 255) 2 false)
          5 7 Colours.rgb565.grey) 5 7
      ↔ (3 + 4 + 1) % 2 = (5 + 7 + 2) % 2) :=
  C10_grey_dither_by_oriented_parity Colours.rgb565 Globals.startup blank 0x01210E false
    (List.replicate 5512 0) (List.replicate 5512 255) 1 2 3 4 5 7 (by decide) (by decide)
    (by decide) (by decide) (by rw [List.length_replicate]; decide)
    (by rw [List.length_replicate]; decide) (by decide) (by decide)

/-! ## Writes stay inside the next plane -/

theorem drop_foldl_set {α : Type} (l : List α) (idx : α → Nat) (val : List Nat → α → Nat)
    (n : Nat) (h : ∀ i ∈ l, idx i < n) (buf : List Nat) :
    (l.foldl (fun b i => b.set (idx i) (val b i)) buf).drop n = buf.drop n := by
  induction l generalizing buf with
  | nil => rfl
  | cons a l ih =>
    rw [List.foldl_cons, ih (fun i hi => h i (List.mem_cons_of_mem _ hi)),
      List.drop_set_of_lt _ _ (h a (List.mem_cons_self _ _))]

theorem drop_memset (buf : List Nat) (v n : Nat) : (memset buf 0 v n).drop n = buf.drop n :=
  drop_foldl_set (List.range n) (fun i => 0 + i) (fun _ _ => v) n
    (fun i hi => by have := List.mem_range.1 hi; show 0 + i < n; omega) buf

theorem drop_clearGreyRow {s : Screen_EPD_EXT3_Fast} (hg : Geometry s) (i : Nat)
    (hi : i < s._bufferSizeV) (buf : List Nat) :
    (clearGreyRow s i buf).drop s._pageColourSize = buf.drop s._pageColourSize := by
  refine drop_foldl_set (List.range s._bufferSizeH) (fun j => i * s._bufferSizeH + j) _ _ ?_ buf
  intro j hj
  have hj := List.mem_range.1 hj
  have h2 : (i + 1) * s._bufferSizeH ≤ s._screenSizeV * s._bufferSizeH :=
    Nat.mul_le_mul_right _ (by rw [← hg.bufV]; exact hi)
  rw [Nat.add_mul, Nat.one_mul] at h2
  rw [hg.page]
  show i * s._bufferSizeH + j < _
  omega

theorem drop_foldl_rows {s : Screen_EPD_EXT3_Fast} (hg : Geometry s) (l : List Nat)
    (h : ∀ i ∈ l, i < s._bufferSizeV) (buf : List Nat) :
    (l.foldl (fun b i => clearGreyRow s i b) buf).drop s._pageColourSize
      = buf.drop s._pageColourSize := by
  induction l generalizing buf with
  | nil => rfl
  | cons a l ih =>
    rw [List.foldl_cons, ih (fun i hi => h i (List.mem_cons_of_mem _ hi)),
      drop_clearGreyRow hg a (h a (List.mem_cons_self _ _))]

theorem drop_clear (c : Colours) {s : Screen_EPD_EXT3_Fast} (hg : Geometry s) (colour : Nat) :
    (clear c s colour)._newImage.drop s._pageColourSize = s._newImage.drop s._pageColourSize := by
  unfold clear
  split_ifs
  · exact drop_foldl_rows hg _ (fun i hi => List.mem_range.1 hi) _
  · exact drop_memset _ _ _
  · exact drop_memset _ _ _

theorem orient_ok (s : Screen_EPD_EXT3_Fast) (x y : Nat)
    (h : (_orientCoordinates s x y).1 = false) :
    (_orientCoordinates s x y).2.1 < s._screenSizeV ∧
    (_orientCoordinates s x y).2.2 < s._screenSizeH := by
  unfold _orientCoordinates at h ⊢
  split_ifs at h ⊢ <;> simp_all <;> omega

theorem _setPoint_cases (c : Colours) (s : Screen_EPD_EXT3_Fast) (x y colour : Nat) :
    (_setPoint c s x y colour)._newImage = s._newImage ∨
    ∃ v, (_orientCoordinates s x y).1 = false ∧
      (_setPoint c s x y colour)._newImage =
        s._newImage.set (_getZ s (_orientCoordinates s x y).2.1 (_orientCoordinates s x y).2.2) v := by
  unfold _setPoint
  simp only []
  by_cases h : (_orientCoordinates s x y).1 = true
  · rw [if_pos h]; exact Or.inl rfl
  · rw [if_neg h]
    have h' : (_orientCoordinates s x y).1 = false := by simpa using h
    split_ifs <;> first | exact Or.inl rfl | exact Or.inr ⟨_, h', rfl⟩

theorem drop_setPoint (c : Colours) {s : Screen_EPD_EXT3_Fast} (hg : Geometry s)
    (x y colour : Nat) :
    (_setPoint c s x y colour)._newImage.drop s._pageColourSize
      = s._newImage.drop s._pageColourSize := by
  rcases _setPoint_cases c s x y colour with h | ⟨v, h, hv⟩
  · rw [h]
  · obtain ⟨hx, hy⟩ := orient_ok s x y h
    obtain ⟨hz, -⟩ := address_inPlane hg _ _ hx hy
    rw [hv, List.drop_set_of_lt _ _ hz]

theorem length_setPoint (c : Colours) (s : Screen_EPD_EXT3_Fast) (x y colour : Nat) :
    (_setPoint c s x y colour)._newImage.length = s._newImage.length := by
  rcases _setPoint_cases c s x y colour with h | ⟨v, -, hv⟩
  · rw [h]
  · rw [hv, List.length_set]

/-- C3: on every supported screen size, for every orientation, invert flag,
coordinate pair and colour, `_setPoint` and `clear` write only below byte offset
planeSize: every byte from offset planeSize on, hence the whole previous plane,
is left as it was, and the buffer keeps its length. -/
theorem C3_pixel_writes_keep_previous_plane (myColours : Colours) (g : Globals)
    (raw : Screen_EPD_EXT3_Fast) (e : Nat) (buf : List Nat) (o : Nat) (inv : Bool)
    (x y colour : Nat)
    (hsize : supportedSize (codeSizeOf e))
    (hbuf : buf.length = 2 * planeSize myColours g raw e) :
    ((_setPoint myColours (inUse myColours g raw e buf o inv) x y colour)._newImage.drop
        (planeSize myColours g raw e) = buf.drop (planeSize myColours g raw e) ∧
      previousPlane (_setPoint myColours (inUse myColours g raw e buf o inv) x y colour)
        = previousPlane (inUse myColours g raw e buf o inv) ∧
      (_setPoint myColours (inUse myColours g raw e buf o inv) x y colour)._newImage.length
        = buf.length) ∧
    ((clear myColours (inUse myColours g raw e buf o inv) colour)._newImage.drop
        (planeSize myColours g raw e) = buf.drop (planeSize myColours g raw e) ∧
      previousPlane (clear myColours (inUse myColours g raw e buf o inv) colour)
        = previousPlane (inUse myColours g raw e buf o inv) ∧
      (clear myColours (inUse myColours g raw e buf o inv) colour)._newImage.length
        = buf.length) := by
  have hg := inUse_geometry myColours g raw e buf o inv hsize hbuf
  have hp : (inUse myColours g raw e buf o inv)._pageColourSize = planeSize myColours g raw e :=
    rfl
  have hi : (inUse myColours g raw e buf o inv)._newImage = buf := rfl
  have h1 := drop_setPoint myColours hg x y colour
  have h2 := drop_clear myColours hg colour
  have l2 := length_clear myColours (inUse myColours g raw e buf o inv) colour
  rw [hp, hi] at h1 h2
  rw [hi] at l2
  refine ⟨⟨h1, ?_, ?_⟩, ⟨h2, ?_, l2⟩⟩
  · unfold previousPlane
    rw [_setPoint_eq]
    show List.take _ (List.drop (planeSize myColours g raw e) _) = _
    rw [h1]
    rfl
  · rw [length_setPoint, hi]
  · unfold previousPlane
    rw [clear_pageColourSize]
    show List.take _ (List.drop (planeSize myColours g raw e) _) = _
    rw [h2]
    rfl

/-- Witness of C3: a grey pixel and a grey clear on the 2.71" screen, invert on. -/
theorem C3_pixel_writes_keep_previous_plane_witness :
    ((_setPoint Colours.rgb565
          (inUse Colours.rgb565 Globals.startup blank 0x012709 (List.replicate 11616 7) 3 true)
          5 9 Colours.rgb565.grey)._newImage.drop
        (planeSize Colours.rgb565 Globals.startup blank 0x012709)
        = (List.replicate 11616 7).drop (planeSize Colours.rgb565 Globals.startup blank 0x012709) ∧
      previousPlane (_setPoint Colours.rgb565
          (inUse Colours.rgb565 Globals.startup blank 0x012709 (List.replicate 11616 7) 3 true)
          5 9 Colours.rgb565.grey)
        = previousPlane
          (inUse Colours.rgb565 Globals.startup blank 0x012709 (List.replicate 11616 7) 3 true) ∧
      (_setPoint Colours.rgb565
          (inUse Colours.rgb565 Globals.startup blank 0x012709 (List.replicate 11616 7) 3 true)
          5 9 Colours.rgb565.grey)._newImage.length = (List.replicate 11616 7).length) ∧
    ((clear Colours.rgb565
          (inUse Colours.rgb565 Globals.startup blank 0x012709 (List.replicate 11616 7) 3 true)
          Colours.rgb565.grey)._newImage.drop
        (planeSize Colours.rgb565 Globals.startup blank 0x012709)
        = (List.replicate 11616 7).drop (planeSize Colours.rgb565 Globals.startup blank 0x012709) ∧
      previousPlane (clear Colours.rgb565
          (inUse Colours.rgb565 Globals.startup blank 0x012709 (List.replicate 11616 7) 3 true)
          Colours.rgb565.grey)
        = previousPlane
          (inUse Colours.rgb565 Globals.startup blank 0x012709 (List.replicate 11616 7) 3 true) ∧
      (clear Colours.rgb565
          (inUse Colours.rgb565 Globals.startup blank 0x012709 (List.replicate 11616 7) 3 true)
          Colours.rgb565.grey)._newImage.length = (List.replicate 11616 7).length) :=
  C3_pixel_writes_keep_previous_plane Colours.rgb565 Globals.startup blank 0x012709
    (List.replicate 11616 7) 3 true 5 9 Colours.rgb565.grey (by decide)
    (by rw [List.length_replicate]; decide)

/-! ## The flush cycle -/

theorem memcpy_succ (buf : List Nat) (dst src n : Nat) :
    memcpy buf dst src (n + 1) =
      (memcpy buf dst src n).set (dst + n) ((memcpy buf dst src n).getD (src + n) 0) := by
  unfold memcpy
  rw [List.range_succ, List.foldl_append]
  rfl

theorem getElem?_memcpy (buf : List Nat) (dst src n : Nat) (hsep : src + n ≤ dst)
    (hlen : dst + n ≤ buf.length) (j : Nat) :
    (memcpy buf dst src n)[j]? =
      if dst ≤ j ∧ j < dst + n then buf[src + (j - dst)]? else buf[j]? := by
  induction n generalizing j with
  | zero =>
    have : ¬ (dst ≤ j ∧ j < dst + 0) := by omega
    rw [if_neg this]
    rfl
  | succ n ih =>
    have ih' := fun j => ih (by omega) (by omega) j
    have hsrc : (memcpy buf dst src n).getD (src + n) 0 = (buf[src + n]?).getD 0 := by
      rw [List.getD_eq_getElem?_getD, ih' (src + n), if_neg (by omega)]
    rw [memcpy_succ, List.getElem?_set, length_memcpy, hsrc]
    by_cases hj : dst + n = j
    · subst hj
      have h1 : src + n < buf.length := by omega
      rw [if_pos rfl, if_pos (by omega), if_pos (by omega)]
      have h2 : src + (dst + n - dst) = src + n := by omega
      rw [h2, List.getElem?_eq_getElem h1]
      rfl
    · rw [if_neg hj, ih' j]
      by_cases hc : dst ≤ j ∧ j < dst + n
      · rw [if_pos hc, if_pos (by omega)]
      · rw [if_neg hc, if_neg (by omega)]

theorem COG_sendImageDataFast_eq (s : Screen_EPD_EXT3_Fast) :
    (COG_sendImageDataFast s).1 =
      { s with _newImage := memcpy s._newImage s._pageColourSize 0 s._frameSize } := rfl

/-- After the transfer the previous plane is the old next plane, and the next
plane is as before. -/
theorem COG_sendImageDataFast_planes {s : Screen_EPD_EXT3_Fast} (hg : Geometry s) :
    previousPlane (COG_sendImageDataFast s).1 = nextPlane s ∧
    nextPlane (COG_sendImageDataFast s).1 = nextPlane s := by
  have hf := hg.frame
  have hl := hg.len
  have key := getElem?_memcpy s._newImage s._pageColourSize 0 s._pageColourSize
    (by omega) (by omega)
  unfold previousPlane nextPlane
  rw [COG_sendImageDataFast_eq, hf]
  constructor
  · apply List.ext_getElem?
    intro j
    show (List.take s._pageColourSize (List.drop s._pageColourSize
      (memcpy s._newImage s._pageColourSize 0 s._pageColourSize)))[j]? = _
    rw [List.getElem?_take, List.getElem?_take, List.getElem?_drop, key]
    by_cases hj : j < s._pageColourSize
    · rw [if_pos hj, if_pos hj, if_pos (by omega)]
      congr 1
      omega
    · rw [if_neg hj, if_neg hj]
  · apply List.ext_getElem?
    intro j
    show (List.take s._pageColourSize
      (memcpy s._newImage s._pageColourSize 0 s._pageColourSize))[j]? = _
    rw [List.getElem?_take, List.getElem?_take, key]
    by_cases hj : j < s._pageColourSize
    · rw [if_pos hj, if_pos hj, if_neg (by omega)]
    · rw [if_neg hj, if_neg hj]

theorem _flushFast_state (k : Constants) (g : Globals) (s : Screen_EPD_EXT3_Fast) :
    (_flushFast k g s).1 = (COG_sendImageDataFast s).1 := rfl

theorem _flushFast_trace (k : Constants) (g : Globals) (s : Screen_EPD_EXT3_Fast) :
    (_flushFast k g s).2 = cycleWithMode k g s k.UPDATE_FAST := rfl

theorem flushMode_run (k : Constants) (ctm : Nat → Nat) (g : Globals)
    (s : Screen_EPD_EXT3_Fast) (m : Nat)
    (h : ctm m = k.UPDATE_FAST ∨ ctm m = k.UPDATE_PARTIAL ∨ ctm m = k.UPDATE_GLOBAL) :
    flushMode k ctm g s m = (ctm m, _flushFast k g s) := by
  unfold flushMode
  simp only []
  rw [if_pos h]

theorem flushMode_skip (k : Constants) (ctm : Nat → Nat) (g : Globals)
    (s : Screen_EPD_EXT3_Fast) (m : Nat)
    (h : ¬ (ctm m = k.UPDATE_FAST ∨ ctm m = k.UPDATE_PARTIAL ∨ ctm m = k.UPDATE_GLOBAL)) :
    flushMode k ctm g s m = (ctm m, s, [Event.println "* PDLS - UPDATE_NONE invoked"]) := by
  unfold flushMode
  simp only []
  rw [if_neg h]

theorem COG_initial_fast (k : Constants) (g : Globals) (s : Screen_EPD_EXT3_Fast) (m : Nat)
    (hf : s._codeExtra &&& k.FEATURE_FAST ≠ 0) (hm : m ≠ k.UPDATE_GLOBAL) :
    COG_initial k g s m =
      [Event.sendIndexData 0x00 [0x0e], Event.waitBusy,
       Event.sendIndexData 0xe5 [0x59],
       Event.sendIndexData 0xe0 [0x02],
       Event.sendIndexData 0x00 [g.index00_data.1 ||| 0x10, g.index00_data.2 ||| 0x02],
       Event.sendIndexData 0x50 [0x07]]
      ++ (if s._flag50 then [Event.sendIndexData 0x50 [0x27]] else []) := by
  unfold COG_initial
  have h59 : indexE5_data ||| 0x40 = 0x59 := by decide
  have hfast : ((s._codeExtra &&& k.FEATURE_FAST != 0) && (m != k.UPDATE_GLOBAL)) = true := by
    simp [hf, hm]
  simp only [hfast, if_true, Bool.true_and, h59, indexE0_data, index50c_data, index50a_data]
  cases s._flag50 <;> rfl

theorem COG_initial_common (k : Constants) (g : Globals) (s : Screen_EPD_EXT3_Fast) (m : Nat)
    (h : s._codeExtra &&& k.FEATURE_FAST = 0 ∨ m = k.UPDATE_GLOBAL) :
    COG_initial k g s m =
      [Event.sendIndexData 0x00 [0x0e], Event.waitBusy,
       Event.sendIndexData 0xe5 [0x19],
       Event.sendIndexData 0xe0 [0x02],
       Event.sendIndexData 0x00 [g.index00_data.1, g.index00_data.2]] := by
  unfold COG_initial
  have hfast : ((s._codeExtra &&& k.FEATURE_FAST != 0) && (m != k.UPDATE_GLOBAL)) = false := by
    rcases h with h | h <;> simp [h]
  simp only [hfast, Bool.false_and, Bool.false_eq_true, if_false, indexE5_data, indexE0_data,
    List.append_nil]

/-- C2, refuted as stated: when `checkTemperatureMode` answers a mode that is none
of Fast, Partial and Global (here 0), `flush()` returns without running a cycle
and the previous plane (all 0x00) is not the next plane (all 0xff). -/
theorem C2_flush_without_cycle_keeps_previous :
    previousPlane
        (flush Constants.pdls (fun _ => 0) Globals.startup
          (inUse Colours.rgb565 Globals.startup blank 0x01150C
            (List.replicate 2888 0xff ++ List.replicate 2888 0x00) 0 false)).1
      ≠ nextPlane
        (inUse Colours.rgb565 Globals.startup blank 0x01150C
          (List.replicate 2888 0xff ++ List.replicate 2888 0x00) 0 false) := by
  have hs : (flush Constants.pdls (fun _ => 0) Globals.startup
      (inUse Colours.rgb565 Globals.startup blank 0x01150C
        (List.replicate 2888 0xff ++ List.replicate 2888 0x00) 0 false)).1
      = inUse Colours.rgb565 Globals.startup blank 0x01150C
        (List.replicate 2888 0xff ++ List.replicate 2888 0x00) 0 false := by
    unfold flush
    rw [flushMode_skip _ _ _ _ _ (by decide)]
  have hp : (inUse Colours.rgb565 Globals.startup blank 0x01150C
      (List.replicate 2888 0xff ++ List.replicate 2888 0x00) 0 false)._pageColourSize = 2888 := by
    decide
  rw [hs]
  unfold previousPlane nextPlane
  rw [hp]
  show List.take 2888 (List.drop 2888 (List.replicate 2888 0xff ++ List.replicate 2888 0x00))
    ≠ List.take 2888 (List.replicate 2888 0xff ++ List.replicate 2888 0x00)
  rw [List.drop_left' (List.length_replicate _ _), List.take_left' (List.length_replicate _ _),
    List.take_of_length_le (by rw [List.length_replicate])]
  intro h
  rw [List.replicate_inj] at h
  omega

/-- C2, amended: when the mode applied for `flush()`, `checkTemperatureMode(UPDATE_FAST)`,
is one of Fast, Partial and Global, then on every supported screen and for every
buffer content, after `flush()` the previous plane equals byte for byte the next
plane as it stood before the call, and the next plane is unchanged. -/
theorem C2_flush_commits_next_plane (myColours : Colours) (k : Constants)
    (checkTemperatureMode : Nat → Nat) (g g' : Globals)
    (raw : Screen_EPD_EXT3_Fast) (e : Nat) (buf : List Nat) (o : Nat) (inv : Bool)
    (hsize : supportedSize (codeSizeOf e))
    (hbuf : buf.length = 2 * planeSize myColours g raw e)
    (hmode : checkTemperatureMode k.UPDATE_FAST = k.UPDATE_FAST ∨
      checkTemperatureMode k.UPDATE_FAST = k.UPDATE_PARTIAL ∨
      checkTemperatureMode k.UPDATE_FAST = k.UPDATE_GLOBAL) :
    previousPlane (flush k checkTemperatureMode g' (inUse myColours g raw e buf o inv)).1
      = nextPlane (inUse myColours g raw e buf o inv) ∧
    nextPlane (flush k checkTemperatureMode g' (inUse myColours g raw e buf o inv)).1
      = nextPlane (inUse myColours g raw e buf o inv) := by
  have hg := inUse_geometry myColours g raw e buf o inv hsize hbuf
  unfold flush
  rw [flushMode_run _ _ _ _ _ hmode]
  exact COG_sendImageDataFast_planes hg

/-- Witness of C2 (amended): the 1.54" screen with a black next plane over a
white previous plane, the mode being left as requested. -/
theorem C2_flush_commits_next_plane_witness :
    previousPlane
        (flush Constants.pdls id Globals.startup
          (inUse Colours.rgb565 Globals.startup blank 0x01150C
            (List.replicate 2888 0xff ++ List.replicate 2888 0x00) 0 false)).1
      = nextPlane
        (inUse Colours.rgb565 Globals.startup blank 0x01150C
          (List.replicate 2888 0xff ++ List.replicate 2888 0x00) 0 false) ∧
    nextPlane
        (flush Constants.pdls id Globals.startup
          (inUse Colours.rgb565 Globals.startup blank 0x01150C
            (List.replicate 2888 0xff ++ List.replicate 2888 0x00) 0 false)).1
      = nextPlane
        (inUse Colours.rgb565 Globals.startup blank 0x01150C
          (List.replicate 2888 0xff ++ List.replicate 2888 0x00) 0 false) :=
  C2_flush_commits_next_plane Colours.rgb565 Constants.pdls id Globals.startup Globals.startup
    blank 0x01150C (List.replicate 2888 0xff ++ List.replicate 2888 0x00) 0 false
    (by decide)
    (by rw [List.length_append, List.length_replicate, List.length_replicate]; decide)
    (Or.inl rfl)

theorem commandTrace_append (a b : List Event) :
    commandTrace (a ++ b) = commandTrace a ++ commandTrace b := by
  unfold commandTrace
  exact List.filter_append _ _

theorem commandTrace_COG_initial (k : Constants) (g : Globals) (s : Screen_EPD_EXT3_Fast)
    (m : Nat) : commandTrace (COG_initial k g s m) = COG_initial k g s m := by
  unfold COG_initial commandTrace
  simp only []
  split_ifs <;> rfl

/-- C4: every flush cycle runs its four phases in order and to completion. The
commands and busy-waits of `_flushFast` start with the soft-reset 0x00 [0x0e];
after the rest of Configure come the 0x10 data and then the 0x13 data; after at
most Vcom sends come Power-On 0x04, busy-wait, Display-Refresh 0x12, busy-wait,
and the trace ends with Power-Off (command 0x02) and a busy-wait. `_flushFast`
is a total function, so no path returns without that ending. -/
theorem C4_flush_cycle_ends_with_power_off (k : Constants) (g : Globals)
    (s : Screen_EPD_EXT3_Fast) :
    ∃ configure vcom : List Event,
      commandTrace (_flushFast k g s).2 =
        [Event.sendIndexData 0x00 [0x0e]] ++ configure
        ++ [Event.sendIndexData 0x10 ((s._newImage.drop s._pageColourSize).take s._frameSize),
            Event.sendIndexData 0x13 (s._newImage.take s._frameSize)]
        ++ vcom
        ++ [Event.sendCommand8 0x04, Event.waitBusy, Event.sendCommand8 0x12, Event.waitBusy]
        ++ [Event.sendCommand8 0x02, Event.waitBusy] ∧
      (∀ ev ∈ configure, ev = Event.waitBusy ∨
        ∃ index data, index ∈ [0xe5, 0xe0, 0x00, 0x50] ∧ ev = Event.sendIndexData index data) ∧
      (∀ ev ∈ vcom, ∃ data, ev = Event.sendIndexData 0x50 data) := by
  obtain ⟨tl, htl, hmem⟩ : ∃ tl, COG_initial k g s k.UPDATE_FAST
      = Event.sendIndexData 0x00 [0x0e] :: tl ∧
      (∀ ev ∈ tl, ev = Event.waitBusy ∨
        ∃ index data, index ∈ [0xe5, 0xe0, 0x00, 0x50] ∧ ev = Event.sendIndexData index data) := by
    refine ⟨(COG_initial k g s k.UPDATE_FAST).tail, ?_, ?_⟩
    · unfold COG_initial
      rfl
    · intro ev hev
      unfold COG_initial at hev
      simp only [] at hev
      split_ifs at hev <;>
        simp only [List.cons_append, List.nil_append, List.append_nil, List.tail_cons,
          List.mem_cons, List.mem_singleton, List.not_mem_nil, or_false] at hev <;>
        rcases hev with rfl | rfl | rfl | rfl | rfl | rfl <;>
        first
          | exact Or.inl rfl
          | exact Or.inr ⟨_, _, by simp, rfl⟩
  refine ⟨tl,
    if (s._codeExtra &&& k.FEATURE_FAST != 0) && (k.UPDATE_FAST != k.UPDATE_GLOBAL) && s._flag50
      then [Event.sendIndexData 0x50 [index50b_data]] else [], ?_, hmem, ?_⟩
  · rw [_flushFast_trace]
    unfold cycleWithMode
    rw [commandTrace_append, commandTrace_append, commandTrace_append, commandTrace_COG_initial,
      htl]
    unfold COG_update COG_powerOff COG_sendImageDataFast commandTrace
    simp only [List.drop_zero]
    split_ifs <;>
      simp only [List.filter, List.append_assoc, List.cons_append, List.nil_append]
  · intro ev hev
    split_ifs at hev
    · simp only [List.mem_singleton] at hev
      exact ⟨_, hev⟩
    · simp at hev

/-- C5: in the Transfer phase, on every supported screen, the payload sent under
index 0x10 is the previous plane and the payload sent under index 0x13 is the
next plane, both as they stood before the call, each exactly frameSize bytes long,
with frameSize = planeSize; the copy is made after both sends, so afterwards the
previous plane is the next plane that was sent under 0x13. -/
theorem C5_transfer_sends_previous_then_next (myColours : Colours) (g : Globals)
    (raw : Screen_EPD_EXT3_Fast) (e : Nat) (buf : List Nat) (o : Nat) (inv : Bool)
    (hsize : supportedSize (codeSizeOf e))
    (hbuf : buf.length = 2 * planeSize myColours g raw e) :
    (COG_sendImageDataFast (inUse myColours g raw e buf o inv)).2 =
      [Event.sendIndexData 0x10 (previousPlane (inUse myColours g raw e buf o inv)),
       Event.sendIndexData 0x13 (nextPlane (inUse myColours g raw e buf o inv))] ∧
    (inUse myColours g raw e buf o inv)._frameSize = planeSize myColours g raw e ∧
    (previousPlane (inUse myColours g raw e buf o inv)).length
      = (inUse myColours g raw e buf o inv)._frameSize ∧
    (nextPlane (inUse myColours g raw e buf o inv)).length
      = (inUse myColours g raw e buf o inv)._frameSize ∧
    previousPlane (COG_sendImageDataFast (inUse myColours g raw e buf o inv)).1
      = nextPlane (inUse myColours g raw e buf o inv) := by
  have hg := inUse_geometry myColours g raw e buf o inv hsize hbuf
  have hf := hg.frame
  have hl := hg.len
  refine ⟨?_, hf, ?_, ?_, (COG_sendImageDataFast_planes hg).1⟩
  · unfold COG_sendImageDataFast previousPlane nextPlane
    simp only [List.drop_zero, hf]
  · unfold previousPlane
    rw [List.length_take, List.length_drop, hf, hl]
    omega
  · unfold nextPlane
    rw [List.length_take, hf, hl]
    omega

/-- Witness of C5: the 3.70" screen, whose planes have 12480 bytes. -/
theorem C5_transfer_sends_previous_then_next_witness :
    (COG_sendImageDataFast
        (inUse Colours.rgb565 Globals.startup blank 0x01370C (List.replicate 24960 0) 2 false)).2 =
      [Event.sendIndexData 0x10 (previousPlane
          (inUse Colours.rgb565 Globals.startup blank 0x01370C (List.replicate 24960 0) 2 false)),
       Event.sendIndexData 0x13 (nextPlane
          (inUse Colours.rgb565 Globals.startup blank 0x01370C (List.replicate 24960 0) 2 false))] ∧
    (inUse Colours.rgb565 Globals.startup blank 0x01370C (List.replicate 24960 0) 2 false)._frameSize
      = planeSize Colours.rgb565 Globals.startup blank 0x01370C ∧
    (previousPlane
        (inUse Colours.rgb565 Globals.startup blank 0x01370C (List.replicate 24960 0) 2 false)).length
      = (inUse Colours.rgb565 Globals.startup blank 0x01370C
          (List.replicate 24960 0) 2 false)._frameSize ∧
    (nextPlane
        (inUse Colours.rgb565 Globals.startup blank 0x01370C (List.replicate 24960 0) 2 false)).length
      = (inUse Colours.rgb565 Globals.startup blank 0x01370C
          (List.replicate 24960 0) 2 false)._frameSize ∧
    previousPlane (COG_sendImageDataFast
        (inUse Colours.rgb565 Globals.startup blank 0x01370C (List.replicate 24960 0) 2 false)).1
      = nextPlane
        (inUse Colours.rgb565 Globals.startup blank 0x01370C (List.replicate 24960 0) 2 false) :=
  C5_transfer_sends_previous_then_next Colours.rgb565 Globals.startup blank 0x01370C
    (List.replicate 24960 0) 2 false (by decide) (by rw [List.length_replicate]; decide)

theorem fast_cycle_ne_global_cycle (k : Constants) (g : Globals) (s : Screen_EPD_EXT3_Fast)
    (hf : s._codeExtra &&& k.FEATURE_FAST ≠ 0) (hm : k.UPDATE_FAST ≠ k.UPDATE_GLOBAL) :
    cycleWithMode k g s k.UPDATE_FAST ≠ cycleWithMode k g s k.UPDATE_GLOBAL ∧
    Event.sendIndexData 0x50 [0x07] ∈ cycleWithMode k g s k.UPDATE_FAST ∧
    Event.sendIndexData 0xe5 [0x59] ∈ cycleWithMode k g s k.UPDATE_FAST := by
  unfold cycleWithMode
  rw [COG_initial_fast _ _ _ _ hf hm, COG_initial_common _ _ _ _ (Or.inr rfl)]
  refine ⟨?_, by simp, by simp⟩
  intro h
  have h2 := congrArg (fun l => l[2]?) h
  simp at h2

/-- C6, refuted as stated: on the fast-capable 1.54" screen, with the requested
mode left unchanged, a Global request does not run the cycle of Global mode: the
trace differs from it and holds a Vcom (0x50) command and the temperature byte
0x59 with bit 0x40 set. -/
theorem C6_global_request_runs_fast_cycle :
    (flushMode Constants.pdls id (begin Colours.rgb565 Globals.startup (new blank 0x01150C)).1
        (inUse Colours.rgb565 Globals.startup blank 0x01150C (List.replicate 5776 0) 0 false)
        Constants.pdls.UPDATE_GLOBAL).2.2
      ≠ cycleWithMode Constants.pdls (begin Colours.rgb565 Globals.startup (new blank 0x01150C)).1
        (inUse Colours.rgb565 Globals.startup blank 0x01150C (List.replicate 5776 0) 0 false)
        Constants.pdls.UPDATE_GLOBAL ∧
    Event.sendIndexData 0x50 [0x07] ∈
      (flushMode Constants.pdls id (begin Colours.rgb565 Globals.startup (new blank 0x01150C)).1
        (inUse Colours.rgb565 Globals.startup blank 0x01150C (List.replicate 5776 0) 0 false)
        Constants.pdls.UPDATE_GLOBAL).2.2 ∧
    Event.sendIndexData 0xe5 [0x59] ∈
      (flushMode Constants.pdls id (begin Colours.rgb565 Globals.startup (new blank 0x01150C)).1
        (inUse Colours.rgb565 Globals.startup blank 0x01150C (List.replicate 5776 0) 0 false)
        Constants.pdls.UPDATE_GLOBAL).2.2 := by
  rw [flushMode_run _ _ _ _ _ (Or.inr (Or.inr rfl)), _flushFast_trace]
  exact fast_cycle_ne_global_cycle _ _ _ (by decide) (by decide)

/-- C6, amended: `flushMode(m)` returns the applied mode m' = `checkTemperatureMode(m)`,
and for every m' in Fast, Partial, Global the trace it emits is that of Configure,
Transfer, Refresh, Power-off run with mode Fast, whatever m' is; so on a
fast-capable profile a Global request still sends the Vcom (0x50) command and the
temperature and PSR bytes with the fast-update bits set. -/
theorem C6_flushMode_runs_fast_cycle (k : Constants) (checkTemperatureMode : Nat → Nat)
    (g : Globals) (s : Screen_EPD_EXT3_Fast) (m : Nat)
    (hmode : checkTemperatureMode m = k.UPDATE_FAST ∨
      checkTemperatureMode m = k.UPDATE_PARTIAL ∨
      checkTemperatureMode m = k.UPDATE_GLOBAL) :
    (flushMode k checkTemperatureMode g s m).1 = checkTemperatureMode m ∧
    (flushMode k checkTemperatureMode g s m).2.2 = cycleWithMode k g s k.UPDATE_FAST ∧
    (s._codeExtra &&& k.FEATURE_FAST ≠ 0 → k.UPDATE_FAST ≠ k.UPDATE_GLOBAL →
      Event.sendIndexData 0x50 [0x07] ∈ (flushMode k checkTemperatureMode g s m).2.2 ∧
      Event.sendIndexData 0xe5 [0x19 ||| 0x40] ∈ (flushMode k checkTemperatureMode g s m).2.2 ∧
      Event.sendIndexData 0x00 [g.index00_data.1 ||| 0x10, g.index00_data.2 ||| 0x02]
        ∈ (flushMode k checkTemperatureMode g s m).2.2) := by
  rw [flushMode_run _ _ _ _ _ hmode]
  refine ⟨rfl, rfl, fun hf hm => ?_⟩
  rw [_flushFast_trace]
  unfold cycleWithMode
  rw [COG_initial_fast _ _ _ _ hf hm]
  refine ⟨by simp, by simp, by simp⟩

/-- Witness of C6 (amended): a Global request on the fast-capable 1.54" screen. -/
theorem C6_flushMode_runs_fast_cycle_witness :
    (flushMode Constants.pdls id Globals.startup
      (inUse Colours.rgb565 Globals.startup blank 0x01150C (List.replicate 5776 0) 0 false)
      Constants.pdls.UPDATE_GLOBAL).1 = id Constants.pdls.UPDATE_GLOBAL ∧
    (flushMode Constants.pdls id Globals.startup
      (inUse Colours.rgb565 Globals.startup blank 0x01150C (List.replicate 5776 0) 0 false)
      Constants.pdls.UPDATE_GLOBAL).2.2
      = cycleWithMode Constants.pdls Globals.startup
        (inUse Colours.rgb565 Globals.startup blank 0x01150C (List.replicate 5776 0) 0 false)
        Constants.pdls.UPDATE_FAST :=
  ⟨(C6_flushMode_runs_fast_cycle Constants.pdls id Globals.startup
      (inUse Colours.rgb565 Globals.startup blank 0x01150C (List.replicate 5776 0) 0 false)
      Constants.pdls.UPDATE_GLOBAL (Or.inr (Or.inr rfl))).1,
   (C6_flushMode_runs_fast_cycle Constants.pdls id Globals.startup
      (inUse Colours.rgb565 Globals.startup blank 0x01150C (List.replicate 5776 0) 0 false)
      Constants.pdls.UPDATE_GLOBAL (Or.inr (Or.inr rfl))).2.1⟩

/-- C7, refuted as stated: on the fast-capable 2.71" screen (no alternate voltage
table), in Fast mode, the Configure trace is not the worded one: only the
soft-reset is followed by a busy-wait, and the trace has 6 events, not 10. -/
theorem C7_configure_has_one_busy_wait :
    (inUse Colours.rgb565 Globals.startup blank 0x012709 (List.replicate 11616 0) 0
        false)._codeExtra &&& Constants.pdls.FEATURE_FAST ≠ 0 ∧
    (inUse Colours.rgb565 Globals.startup blank 0x012709 (List.replicate 11616 0) 0
        false)._flag50 = false ∧
    COG_initial Constants.pdls (begin Colours.rgb565 Globals.startup (new blank 0x012709)).1
        (inUse Colours.rgb565 Globals.startup blank 0x012709 (List.replicate 11616 0) 0 false)
        Constants.pdls.UPDATE_FAST
      ≠ configureTraceAsWorded (begin Colours.rgb565 Globals.startup (new blank 0x012709)).1 ∧
    (COG_initial Constants.pdls (begin Colours.rgb565 Globals.startup (new blank 0x012709)).1
        (inUse Colours.rgb565 Globals.startup blank 0x012709 (List.replicate 11616 0) 0 false)
        Constants.pdls.UPDATE_FAST).count Event.waitBusy = 1 := by
  have hf : (inUse Colours.rgb565 Globals.startup blank 0x012709 (List.replicate 11616 0) 0
        false)._codeExtra &&& Constants.pdls.FEATURE_FAST ≠ 0 := by decide
  have h50 : (inUse Colours.rgb565 Globals.startup blank 0x012709 (List.replicate 11616 0) 0
        false)._flag50 = false := by decide
  refine ⟨hf, h50, ?_, ?_⟩
  · rw [COG_initial_fast _ _ _ _ hf (by decide), h50]
    intro h
    have hl := congrArg List.length h
    revert hl
    decide
  · rw [COG_initial_fast _ _ _ _ hf (by decide), h50]
    decide

/-- C7, amended: for a fast-capable profile without the alternate voltage table,
in Fast mode, `COG_initial` emits exactly: soft-reset 0x00 [0x0e], busy-wait,
temperature 0xe5 [0x59] (0x19 with bit 0x40 set), activate-temperature 0xe0 [0x02],
PSR 0x00 with bits 0x10 / 0x02 OR'd in, one Vcom 0x50 [0x07]; only the soft-reset
is followed by a busy-wait and nothing else is sent. -/
theorem C7_configure_trace_fast (k : Constants) (g : Globals) (s : Screen_EPD_EXT3_Fast)
    (hfast : s._codeExtra &&& k.FEATURE_FAST ≠ 0) (halt : s._flag50 = false)
    (hmode : k.UPDATE_FAST ≠ k.UPDATE_GLOBAL) :
    COG_initial k g s k.UPDATE_FAST =
      [Event.sendIndexData 0x00 [0x0e], Event.waitBusy,
       Event.sendIndexData 0xe5 [0x19 ||| 0x40],
       Event.sendIndexData 0xe0 [0x02],
       Event.sendIndexData 0x00 [g.index00_data.1 ||| 0x10, g.index00_data.2 ||| 0x02],
       Event.sendIndexData 0x50 [0x07]] := by
  rw [COG_initial_fast _ _ _ _ hfast hmode, halt]
  rfl

/-- Witness of C7 (amended): the 2.71" screen, whose PSR bytes are 0xcf, 0x8d. -/
theorem C7_configure_trace_fast_witness :
    COG_initial Constants.pdls (begin Colours.rgb565 Globals.startup (new blank 0x012709)).1
        (inUse Colours.rgb565 Globals.startup blank 0x012709 (List.replicate 11616 0) 0 false)
        Constants.pdls.UPDATE_FAST =
      [Event.sendIndexData 0x00 [0x0e], Event.waitBusy,
       Event.sendIndexData 0xe5 [0x19 ||| 0x40],
       Event.sendIndexData 0xe0 [0x02],
       Event.sendIndexData 0x00
         [(begin Colours.rgb565 Globals.startup (new blank 0x012709)).1.index00_data.1 ||| 0x10,
          (begin Colours.rgb565 Globals.startup (new blank 0x012709)).1.index00_data.2 ||| 0x02],
       Event.sendIndexData 0x50 [0x07]] :=
  C7_configure_trace_fast Constants.pdls _ _ (by decide) (by decide) (by decide)

theorem commandIndex_cycle (k : Constants) (g : Globals) (s : Screen_EPD_EXT3_Fast) (m : Nat)
    (ev : Event) (hev : ev ∈ cycleWithMode k g s m) (i : Nat) (hi : commandIndex ev = some i) :
    i ∈ [0x00, 0x02, 0x04, 0x10, 0x12, 0x13, 0x50, 0xE0, 0xE5] := by
  unfold cycleWithMode COG_initial COG_sendImageDataFast COG_update COG_powerOff at hev
  simp only [List.mem_append, List.mem_cons, List.mem_singleton, List.not_mem_nil,
    or_false] at hev
  rcases hev with ((h | h) | h) | h
  · rcases h with (h | h) | h
    · rcases h with rfl | rfl | rfl | rfl | rfl <;> simp_all [commandIndex]
    · split_ifs at h <;> simp_all [commandIndex]
    · split_ifs at h <;> simp_all [commandIndex]
  · rcases h with rfl | rfl <;> simp_all [commandIndex]
  · rcases h with h | h
    · split_ifs at h <;> simp_all [commandIndex]
    · rcases h with rfl | rfl | rfl | rfl | rfl | rfl <;> simp_all [commandIndex]
  · rcases h with rfl | rfl | rfl <;> simp_all [commandIndex]

/-- C8, refuted as stated: the flush cycle of the 1.54" screen sends the command
0x02 (Power-Off), which is not in the worded set. -/
theorem C8_power_off_code_outside_worded_set :
    Event.sendCommand8 0x02 ∈
      (_flushFast Constants.pdls Globals.startup
        (inUse Colours.rgb565 Globals.startup blank 0x01150C (List.replicate 5776 0) 0 false)).2 ∧
    commandIndex (Event.sendCommand8 0x02) = some 0x02 ∧
    0x02 ∉ [0x00, 0x04, 0x10, 0x12, 0x13, 0x50, 0xE0, 0xE5] := by
  refine ⟨?_, rfl, by decide⟩
  rw [_flushFast_trace]
  unfold cycleWithMode COG_powerOff
  exact List.mem_append_right _ (List.mem_cons_self _ _)

/-- C8, amended: every command index or command code that a flush cycle
(Configure, Transfer, Refresh, Power-off, in any mode and for any profile flags)
sends to the panel belongs to the set 0x00, 0x02, 0x04, 0x10, 0x12, 0x13, 0x50,
0xE0, 0xE5: the worded set and the Power-Off code 0x02. -/
theorem C8_command_codes_of_a_cycle (k : Constants) (g : Globals) (s : Screen_EPD_EXT3_Fast)
    (m : Nat) (ev : Event) (i : Nat)
    (hev : ev ∈ (_flushFast k g s).2 ∨ ev ∈ cycleWithMode k g s m)
    (hi : commandIndex ev = some i) :
    i ∈ [0x00, 0x02, 0x04, 0x10, 0x12, 0x13, 0x50, 0xE0, 0xE5] := by
  rcases hev with hev | hev
  · rw [_flushFast_trace] at hev
    exact commandIndex_cycle k g s _ ev hev i hi
  · exact commandIndex_cycle k g s m ev hev i hi

/-- Witness of C8 (amended): the Power-Off command of a Global-mode cycle on the
1.54" screen. -/
theorem C8_command_codes_of_a_cycle_witness :
    commandIndex (Event.sendCommand8 0x02) = some 0x02 ∧
    0x02 ∈ [0x00, 0x02, 0x04, 0x10, 0x12, 0x13, 0x50, 0xE0, 0xE5] :=
  ⟨rfl, C8_command_codes_of_a_cycle Constants.pdls Globals.startup
    (inUse Colours.rgb565 Globals.startup blank 0x01150C (List.replicate 5776 0) 0 false)
    Constants.pdls.UPDATE_GLOBAL (Event.sendCommand8 0x02) 0x02
    (Or.inr (by
      unfold cycleWithMode COG_powerOff
      exact List.mem_append_right _ (List.mem_cons_self _ _)))
    rfl⟩

/-! ## Out-of-bounds coordinates -/

theorem orient_outOfBounds (s : Screen_EPD_EXT3_Fast) (x y : Nat) (h : ¬ inBounds s x y) :
    (_orientCoordinates s x y).1 = true := by
  unfold inBounds at h
  unfold _orientCoordinates
  split_ifs at h ⊢ <;> simp_all

/-- C11: for every orientation and every logical (x, y) outside the bounds of
that orientation, `_setPoint(x, y, colour)` is a no-op: the driver state, with
the whole buffer (both planes), is returned unchanged, and no byte of the
buffer is read or written. -/
theorem C11_setPoint_out_of_bounds_noop (myColours : Colours) (s : Screen_EPD_EXT3_Fast)
    (x y colour : Nat) (hout : ¬ inBounds s x y) :
    _setPoint myColours s x y colour = s ∧
    previousPlane (_setPoint myColours s x y colour) = previousPlane s ∧
    nextPlane (_setPoint myColours s x y colour) = nextPlane s ∧
    _setPoint_accesses myColours s x y colour = [] := by
  have h := orient_outOfBounds s x y hout
  have hs : _setPoint myColours s x y colour = s := by
    unfold _setPoint
    simp only [h, if_true]
  refine ⟨hs, by rw [hs], by rw [hs], ?_⟩
  unfold _setPoint_accesses
  simp only [h, if_true]

/-- Witness of C11: (152, 0) on the 1.54" screen, whose sides have 152 pixels,
in orientation 3. -/
theorem C11_setPoint_out_of_bounds_noop_witness :
    _setPoint Colours.rgb565
        (inUse Colours.rgb565 Globals.startup blank 0x01150C (List.replicate 5776 0) 3 false)
        152 0 Colours.rgb565.black
      = inUse Colours.rgb565 Globals.startup blank 0x01150C (List.replicate 5776 0) 3 false ∧
    _setPoint_accesses Colours.rgb565
        (inUse Colours.rgb565 Globals.startup blank 0x01150C (List.replicate 5776 0) 3 false)
        152 0 Colours.rgb565.black = [] :=
  ⟨(C11_setPoint_out_of_bounds_noop Colours.rgb565
      (inUse Colours.rgb565 Globals.startup blank 0x01150C (List.replicate 5776 0) 3 false)
      152 0 Colours.rgb565.black (by decide)).1,
   (C11_setPoint_out_of_bounds_noop Colours.rgb565
      (inUse Colours.rgb565 Globals.startup blank 0x01150C (List.replicate 5776 0) 3 false)
      152 0 Colours.rgb565.black (by decide)).2.2.2⟩

theorem _getPoint_outOfBounds (c : Colours) (s : Screen_EPD_EXT3_Fast) (x y : Nat)
    (h : ¬ inBounds s x y) : _getPoint c s x y = 0 := by
  unfold _getPoint
  simp only [orient_outOfBounds s x y h, if_true]

theorem getD_replicate_same (n i v : Nat) (hv : v = 0 ∨ i < n) :
    (List.replicate n v).getD i 0 = v := by
  rw [List.getD_eq_getElem?_getD, List.getElem?_replicate]
  split_ifs with h
  · rfl
  · rcases hv with hv | hv
    · rw [hv]; rfl
    · exact absurd hv h

theorem _getPoint_clear_bit (c : Colours) (s : Screen_EPD_EXT3_Fast) (x y : Nat)
    (h : inBounds s x y)
    (hz : s._newImage.getD
      (_getZ s (_orientCoordinates s x y).2.1 (_orientCoordinates s x y).2.2) 0 = 0) :
    _getPoint c s x y = c.white := by
  rw [_getPoint_bit c s x y h, hz, Nat.zero_testBit]
  rfl

/-- C12, refuted as stated: with the RGB 5-6-5 colour values, `_getPoint` at
(0, 152), outside the 1.54" screen in orientation 0, returns 0, which is the
value of black and not the value of white that an in-bounds pixel with a clear
bit reads as. -/
theorem C12_out_of_bounds_read_is_not_white :
    ¬ inBounds
        (inUse Colours.rgb565 Globals.startup blank 0x01150C (List.replicate 5776 0) 0 false)
        0 152 ∧
    _getPoint Colours.rgb565
        (inUse Colours.rgb565 Globals.startup blank 0x01150C (List.replicate 5776 0) 0 false)
        0 152 ≠ Colours.rgb565.white ∧
    _getPoint Colours.rgb565
        (inUse Colours.rgb565 Globals.startup blank 0x01150C (List.replicate 5776 0) 0 false)
        0 152 = Colours.rgb565.black ∧
    inBounds
        (inUse Colours.rgb565 Globals.startup blank 0x01150C (List.replicate 5776 0) 0 false)
        0 0 ∧
    _getPoint Colours.rgb565
        (inUse Colours.rgb565 Globals.startup blank 0x01150C (List.replicate 5776 0) 0 false)
        0 0 = Colours.rgb565.white := by
  have hout : ¬ inBounds
      (inUse Colours.rgb565 Globals.startup blank 0x01150C (List.replicate 5776 0) 0 false)
      0 152 := by decide
  have hin : inBounds
      (inUse Colours.rgb565 Globals.startup blank 0x01150C (List.replicate 5776 0) 0 false)
      0 0 := by decide
  refine ⟨hout, ?_, ?_, hin, ?_⟩
  · rw [_getPoint_outOfBounds _ _ _ _ hout]
    decide
  · rw [_getPoint_outOfBounds _ _ _ _ hout]
    rfl
  · exact _getPoint_clear_bit _ _ _ _ hin (getD_replicate_same _ _ _ (Or.inl rfl))

/-- C12, amended: for every orientation and every logical (x, y) outside the
bounds of that orientation, `_getPoint(x, y)` returns the literal 0, whatever
the buffer holds; this is the value of white, which an in-bounds pixel with a
clear bit reads as, exactly when the colour constant white is 0. -/
theorem C12_getPoint_out_of_bounds_returns_zero (myColours : Colours)
    (s : Screen_EPD_EXT3_Fast) (x y : Nat) (hout : ¬ inBounds s x y) :
    _getPoint myColours s x y = 0 ∧
    (_getPoint myColours s x y = myColours.white ↔ myColours.white = 0) := by
  rw [_getPoint_outOfBounds myColours s x y hout]
  exact ⟨rfl, eq_comm⟩

/-- Witness of C12 (amended): (300, 5) on the 2.13" screen in orientation 1. -/
theorem C12_getPoint_out_of_bounds_returns_zero_witness :
    _getPoint Colours.rgb565
        (inUse Colours.rgb565 Globals.startup blank 0x01210E (List.replicate 5512 255) 1 false)
        300 5 = 0 :=
  (C12_getPoint_out_of_bounds_returns_zero Colours.rgb565
    (inUse Colours.rgb565 Globals.startup blank 0x01210E (List.replicate 5512 255) 1 false)
    300 5 (by decide)).1

/-! ## Modes, Refresh and the shared PSR table -/

/-- C16: when the applied mode returned by `checkTemperatureMode` is none of Fast,
Partial and Global, `flushMode` sends no command and no data to the panel and
performs no busy-wait (its only event is the serial message), leaves the driver
state with both planes unchanged, and returns that mode. -/
theorem C16_flushMode_without_update (k : Constants) (checkTemperatureMode : Nat → Nat)
    (g : Globals) (s : Screen_EPD_EXT3_Fast) (m : Nat)
    (hnone : ¬ (checkTemperatureMode m = k.UPDATE_FAST ∨
      checkTemperatureMode m = k.UPDATE_PARTIAL ∨
      checkTemperatureMode m = k.UPDATE_GLOBAL)) :
    (flushMode k checkTemperatureMode g s m).1 = checkTemperatureMode m ∧
    (flushMode k checkTemperatureMode g s m).2.1 = s ∧
    (flushMode k checkTemperatureMode g s m).2.2
      = [Event.println "* PDLS - UPDATE_NONE invoked"] ∧
    commandTrace (flushMode k checkTemperatureMode g s m).2.2 = [] := by
  rw [flushMode_skip k checkTemperatureMode g s m hnone]
  exact ⟨rfl, rfl, rfl, rfl⟩

/-- Witness of C16: the mode 0 answered for a Fast request on the 1.54" screen. -/
theorem C16_flushMode_without_update_witness :
    (flushMode Constants.pdls (fun _ => 0) Globals.startup
      (inUse Colours.rgb565 Globals.startup blank 0x01150C (List.replicate 5776 9) 0 false)
      Constants.pdls.UPDATE_FAST).1 = 0 ∧
    (flushMode Constants.pdls (fun _ => 0) Globals.startup
      (inUse Colours.rgb565 Globals.startup blank 0x01150C (List.replicate 5776 9) 0 false)
      Constants.pdls.UPDATE_FAST).2.1
      = inUse Colours.rgb565 Globals.startup blank 0x01150C (List.replicate 5776 9) 0 false ∧
    (flushMode Constants.pdls (fun _ => 0) Globals.startup
      (inUse Colours.rgb565 Globals.startup blank 0x01150C (List.replicate 5776 9) 0 false)
      Constants.pdls.UPDATE_FAST).2.2 = [Event.println "* PDLS - UPDATE_NONE invoked"] ∧
    commandTrace (flushMode Constants.pdls (fun _ => 0) Globals.startup
      (inUse Colours.rgb565 Globals.startup blank 0x01150C (List.replicate 5776 9) 0 false)
      Constants.pdls.UPDATE_FAST).2.2 = [] :=
  C16_flushMode_without_update Constants.pdls (fun _ => 0) Globals.startup
    (inUse Colours.rgb565 Globals.startup blank 0x01150C (List.replicate 5776 9) 0 false)
    Constants.pdls.UPDATE_FAST (by decide)

theorem COG_update_fast (k : Constants) (s : Screen_EPD_EXT3_Fast) (m : Nat)
    (hf : s._codeExtra &&& k.FEATURE_FAST ≠ 0) (hm : m ≠ k.UPDATE_GLOBAL) :
    COG_update k s m =
      (if s._flag50 then [Event.sendIndexData 0x50 [0x07]] else [])
      ++ [Event.sendCommand8 0x04, Event.panelCS_HIGH, Event.waitBusy,
          Event.sendCommand8 0x12, Event.panelCS_HIGH, Event.waitBusy] := by
  unfold COG_update
  have hfast : ((s._codeExtra &&& k.FEATURE_FAST != 0) && (m != k.UPDATE_GLOBAL)) = true := by
    simp [hf, hm]
  simp only [hfast, Bool.true_and, index50b_data]

/-- C17, refuted as stated: on the fast-capable 2.71" screen in Fast mode the
Refresh phase sends no Vcom command at all (`_flag50` is false there); and on the
1.54" screen, where it sends one, its byte 0x07 is a Vcom byte that Configure
has sent too. -/
theorem C17_refresh_vcom_needs_flag50 :
    (inUse Colours.rgb565 Globals.startup blank 0x012709 (List.replicate 11616 0) 0
        false)._codeExtra &&& Constants.pdls.FEATURE_FAST ≠ 0 ∧
    Constants.pdls.UPDATE_FAST ≠ Constants.pdls.UPDATE_GLOBAL ∧
    COG_update Constants.pdls
        (inUse Colours.rgb565 Globals.startup blank 0x012709 (List.replicate 11616 0) 0 false)
        Constants.pdls.UPDATE_FAST
      = [Event.sendCommand8 0x04, Event.panelCS_HIGH, Event.waitBusy,
         Event.sendCommand8 0x12, Event.panelCS_HIGH, Event.waitBusy] ∧
    COG_update Constants.pdls
        (inUse Colours.rgb565 Globals.startup blank 0x01150C (List.replicate 5776 0) 0 false)
        Constants.pdls.UPDATE_FAST
      = [Event.sendIndexData 0x50 [0x07],
         Event.sendCommand8 0x04, Event.panelCS_HIGH, Event.waitBusy,
         Event.sendCommand8 0x12, Event.panelCS_HIGH, Event.waitBusy] ∧
    Event.sendIndexData 0x50 [0x07] ∈
      COG_initial Constants.pdls Globals.startup
        (inUse Colours.rgb565 Globals.startup blank 0x01150C (List.replicate 5776 0) 0 false)
        Constants.pdls.UPDATE_FAST := by
  have h1 : (inUse Colours.rgb565 Globals.startup blank 0x012709 (List.replicate 11616 0) 0
      false)._flag50 = false := by decide
  have h2 : (inUse Colours.rgb565 Globals.startup blank 0x01150C (List.replicate 5776 0) 0
      false)._flag50 = true := by decide
  refine ⟨by decide, by decide, ?_, ?_, ?_⟩
  · rw [COG_update_fast _ _ _ (by decide) (by decide), h1]
    rfl
  · rw [COG_update_fast _ _ _ (by decide) (by decide), h2]
    rfl
  · rw [COG_initial_fast _ _ _ _ (by decide) (by decide), h2]
    decide

/-- C17, amended: in the Refresh phase (`COG_update`), whenever the profile is
fastCapable, the mode is not Global and the alternate-voltage flag `_flag50` is
set, one Vcom command 0x50 [0x07] is sent before Power-On; its byte is the byte of
the first Vcom of Configure and differs from the alternate Vcom byte 0x27 that
Configure sends last for such a profile. When `_flag50` is clear the Refresh phase
sends no Vcom command. Then Power-On (0x04), busy-wait, Display-Refresh (0x12),
busy-wait follow in that order. -/
theorem C17_refresh_phase_trace (k : Constants) (g : Globals) (s : Screen_EPD_EXT3_Fast)
    (m : Nat) (hfast : s._codeExtra &&& k.FEATURE_FAST ≠ 0) (hmode : m ≠ k.UPDATE_GLOBAL) :
    commandTrace (COG_update k s m) =
      (if s._flag50 then [Event.sendIndexData 0x50 [0x07]] else [])
      ++ [Event.sendCommand8 0x04, Event.waitBusy, Event.sendCommand8 0x12, Event.waitBusy] ∧
    (s._flag50 = true →
      Event.sendIndexData 0x50 [0x07] ∈ COG_initial k g s m ∧
      (COG_initial k g s m).getLast? = some (Event.sendIndexData 0x50 [0x27]) ∧
      Event.sendIndexData 0x50 [0x07] ≠ Event.sendIndexData 0x50 [0x27]) := by
  rw [COG_update_fast k s m hfast hmode, COG_initial_fast k g s m hfast hmode]
  constructor
  · cases s._flag50 <;> rfl
  · intro h50
    rw [h50]
    refine ⟨by simp, rfl, by decide⟩

/-- Witness of C17 (amended): Fast mode on the 3.70" screen, whose `_flag50` is set. -/
theorem C17_refresh_phase_trace_witness :
    commandTrace (COG_update Constants.pdls
        (inUse Colours.rgb565 Globals.startup blank 0x01370C (List.replicate 24960 0) 0 false)
        Constants.pdls.UPDATE_FAST) =
      (if (inUse Colours.rgb565 Globals.startup blank 0x01370C (List.replicate 24960 0) 0
          false)._flag50 then [Event.sendIndexData 0x50 [0x07]] else [])
      ++ [Event.sendCommand8 0x04, Event.waitBusy, Event.sendCommand8 0x12, Event.waitBusy] :=
  (C17_refresh_phase_trace Constants.pdls Globals.startup
    (inUse Colours.rgb565 Globals.startup blank 0x01370C (List.replicate 24960 0) 0 false)
    Constants.pdls.UPDATE_FAST (by decide) (by decide)).1

/-- C20, at the failing input: the 2.71" instance is resolved first, then a
1.54" instance. Alone, the 2.71" instance sends the PSR bytes of its own model
(0xcf | 0x10, 0x8d | 0x02); after the other instance was resolved it sends the
PSR bytes of the 1.54" model (0xcf | 0x10, 0x02 | 0x02), because `index00_data`
is one file-scope table that `COG_getUserData` overwrites. -/
theorem C20_psr_table_shared_between_instances :
    Event.sendIndexData 0x00 [0xdf, 0x8f] ∈
      COG_initial Constants.pdls
        (begin Colours.rgb565 Globals.startup (new blank 0x012709)).1
        (inUse Colours.rgb565 Globals.startup blank 0x012709 (List.replicate 11616 0) 0 false)
        Constants.pdls.UPDATE_FAST ∧
    Event.sendIndexData 0x00 [0xdf, 0x02] ∈
      COG_initial Constants.pdls
        (begin Colours.rgb565
          (begin Colours.rgb565 Globals.startup (new blank 0x012709)).1
          (new blank 0x01150C)).1
        (inUse Colours.rgb565 Globals.startup blank 0x012709 (List.replicate 11616 0) 0 false)
        Constants.pdls.UPDATE_FAST ∧
    Event.sendIndexData 0x00 [0xdf, 0x8f] ∉
      COG_initial Constants.pdls
        (begin Colours.rgb565
          (begin Colours.rgb565 Globals.startup (new blank 0x012709)).1
          (new blank 0x01150C)).1
        (inUse Colours.rgb565 Globals.startup blank 0x012709 (List.replicate 11616 0) 0 false)
        Constants.pdls.UPDATE_FAST := by
  have hA : (begin Colours.rgb565 Globals.startup (new blank 0x012709)).1
      = ⟨(0xcf, 0x8d)⟩ := by decide
  have hB : (begin Colours.rgb565 (begin Colours.rgb565 Globals.startup (new blank 0x012709)).1
      (new blank 0x01150C)).1 = ⟨(0xcf, 0x02)⟩ := by decide
  have h50 : (inUse Colours.rgb565 Globals.startup blank 0x012709 (List.replicate 11616 0) 0
      false)._flag50 = false := by decide
  rw [hB, hA, COG_initial_fast _ _ _ _ (by decide) (by decide),
    COG_initial_fast _ _ _ _ (by decide) (by decide), h50]
  refine ⟨?_, ?_, ?_⟩ <;> decide

/-! ## The state left by `begin` -/

/-- The state left by `begin`: the sizing of `begin_buffer`, with a frame
buffer, orientation 0, both flags off and the `_flag50` of `COG_getUserData`. -/
theorem begin_snd_eq (c : Colours) (g : Globals) (s : Screen_EPD_EXT3_Fast) :
    (begin c g s).2 =
      { begin_buffer (begin_sizes (begin_codes s)) with
        _newImage := (begin c g s).2._newImage
        _orientation := 0
        _penSolid := false
        _invert := false
        _flag50 := (begin c g s).2._flag50 } := by
  have h : ∀ P : Screen_EPD_EXT3_Fast,
      clear c { _setOrientation (COG_getUserData g (begin_allocate P)).2 0 with
          _penSolid := false, _invert := false } c.white =
        { P with
          _newImage := (clear c { _setOrientation (COG_getUserData g (begin_allocate P)).2 0 with
            _penSolid := false, _invert := false } c.white)._newImage
          _orientation := 0
          _penSolid := false
          _invert := false
          _flag50 := (clear c { _setOrientation (COG_getUserData g (begin_allocate P)).2 0 with
            _penSolid := false, _invert := false } c.white)._flag50 } := by
    intro P
    generalize hA : begin_allocate P = A
    have hA' := begin_allocate_eq P
    rw [hA] at hA'
    generalize hU : (COG_getUserData g A).2 = U
    have hU' := COG_getUserData_snd g A
    rw [hU] at hU'
    generalize hC : clear c { _setOrientation U 0 with _penSolid := false, _invert := false }
      c.white = C
    have hC' := clear_eq c { _setOrientation U 0 with _penSolid := false, _invert := false }
      c.white
    rw [hC] at hC'
    rw [hC', hU', hA']
    rfl
  exact h (begin_buffer (begin_sizes (begin_codes s)))

/-! ## Buffer contents after `memset` and `clear` -/

theorem getElem?_foldl_set_const {α : Type} (l : List α) (idx : α → Nat) (v : Nat)
    (buf : List Nat) (z : Nat) :
    (l.foldl (fun b i => b.set (idx i) v) buf)[z]? =
      if (∃ i ∈ l, idx i = z) ∧ z < buf.length then some v else buf[z]? := by
  induction l generalizing buf with
  | nil => simp
  | cons a l ih =>
    rw [List.foldl_cons, ih, List.length_set, List.getElem?_set]
    simp only [List.mem_cons, exists_eq_or_imp]
    by_cases hz : z < buf.length
    · by_cases ha : idx a = z
      · by_cases hl : ∃ i ∈ l, idx i = z
        · simp only [hl, hz, ha, and_self, if_true, or_true]
        · simp only [hl, hz, ha, false_and, if_false, if_true, true_or, and_self]
      · by_cases hl : ∃ i ∈ l, idx i = z
        · simp only [hl, hz, ha, and_self, if_true, or_true]
        · simp only [hl, hz, ha, false_and, if_false, false_or]
    · have hn : buf[z]? = none := List.getElem?_eq_none (by omega)
      simp only [hz, and_false, if_false, hn]
      split_ifs <;> first | rfl | omega

theorem getElem?_memset (buf : List Nat) (v n z : Nat) :
    (memset buf 0 v n)[z]? = if z < n ∧ z < buf.length then some v else buf[z]? := by
  unfold memset
  rw [getElem?_foldl_set_const (List.range n) (fun i => 0 + i) v buf z]
  by_cases h : z < n
  · have : ∃ i ∈ List.range n, (fun i => 0 + i) i = z :=
      ⟨z, List.mem_range.2 h, Nat.zero_add z⟩
    by_cases hz : z < buf.length
    · rw [if_pos ⟨this, hz⟩, if_pos ⟨h, hz⟩]
    · rw [if_neg (fun h => hz h.2), if_neg (fun h => hz h.2)]
  · have : ¬ ∃ i ∈ List.range n, (fun i => 0 + i) i = z := by
      rintro ⟨i, hi, hiz⟩
      have := List.mem_range.1 hi
      have : 0 + i = z := hiz
      omega
    rw [if_neg (fun h => this h.1), if_neg (fun hh => h hh.1)]

theorem take_memset (buf : List Nat) (v n : Nat) (h : n ≤ buf.length) :
    (memset buf 0 v n).take n = List.replicate n v := by
  apply List.ext_getElem?
  intro z
  rw [List.getElem?_take, getElem?_memset, List.getElem?_replicate]
  by_cases hz : z < n
  · rw [if_pos hz, if_pos ⟨hz, by omega⟩, if_pos hz]
  · rw [if_neg hz, if_neg hz]

theorem memset_replicate (m v n : Nat) :
    memset (List.replicate m v) 0 v n = List.replicate m v := by
  apply List.ext_getElem?
  intro z
  rw [getElem?_memset, List.getElem?_replicate, List.length_replicate]
  by_cases hz : z < m
  · rw [if_pos hz]
    split_ifs <;> rfl
  · rw [if_neg hz, if_neg (fun h => hz h.2)]

/-- The byte written by `clear` for a colour that is not grey. -/
theorem clear_solid (c : Colours) (s : Screen_EPD_EXT3_Fast) (colour : Nat)
    (h : colour ≠ c.grey) :
    (clear c s colour)._newImage =
      memset s._newImage 0 (if Bool.xor (colour == c.white) s._invert then 0x00 else 0xff)
        s._pageColourSize := by
  unfold clear
  rw [if_neg h]
  split_ifs <;> rfl

/-- The byte pattern of row `i` in the grey branch of `clear`. -/
theorem getElem?_clearGreyRow (s : Screen_EPD_EXT3_Fast) (i : Nat) (buf : List Nat) (z : Nat) :
    (clearGreyRow s i buf)[z]? =
      if (i * s._bufferSizeH ≤ z ∧ z < (i + 1) * s._bufferSizeH) ∧ z < buf.length then
        some (if i % 2 ≠ 0 then 0b10101010 else 0b01010101)
      else buf[z]? := by
  unfold clearGreyRow
  simp only []
  rw [getElem?_foldl_set_const (List.range s._bufferSizeH) (fun j => i * s._bufferSizeH + j)]
  have hiff : (∃ j ∈ List.range s._bufferSizeH, (fun j => i * s._bufferSizeH + j) j = z) ↔
      (i * s._bufferSizeH ≤ z ∧ z < (i + 1) * s._bufferSizeH) := by
    rw [Nat.add_mul, Nat.one_mul]
    constructor
    · rintro ⟨j, hj, hjz⟩
      have := List.mem_range.1 hj
      have : i * s._bufferSizeH + j = z := hjz
      omega
    · rintro ⟨h1, h2⟩
      exact ⟨z - i * s._bufferSizeH, List.mem_range.2 (by omega), by
        show i * s._bufferSizeH + (z - i * s._bufferSizeH) = z
        omega⟩
  by_cases hc : (i * s._bufferSizeH ≤ z ∧ z < (i + 1) * s._bufferSizeH) ∧ z < buf.length
  · rw [if_pos hc, if_pos ⟨hiff.2 hc.1, hc.2⟩]
  · rw [if_neg hc, if_neg (fun h => hc ⟨hiff.1 h.1, h.2⟩)]

theorem getElem?_clearGreyRows (s : Screen_EPD_EXT3_Fast) (n : Nat) (buf : List Nat) (z : Nat) :
    ((List.range n).foldl (fun b i => clearGreyRow s i b) buf)[z]? =
      if z < n * s._bufferSizeH ∧ z < buf.length then
        some (if (z / s._bufferSizeH) % 2 ≠ 0 then 0b10101010 else 0b01010101)
      else buf[z]? := by
  induction n with
  | zero =>
    have h0 : ¬ (z < 0 * s._bufferSizeH ∧ z < buf.length) := by omega
    rw [if_neg h0]
    rfl
  | succ n ih =>
    rw [List.range_succ, List.foldl_append]
    show (clearGreyRow s n ((List.range n).foldl (fun b i => clearGreyRow s i b) buf))[z]? = _
    rw [getElem?_clearGreyRow, length_foldl_rows, ih]
    have hmul : (n + 1) * s._bufferSizeH = n * s._bufferSizeH + s._bufferSizeH := by
      rw [Nat.add_mul, Nat.one_mul]
    by_cases hz : z < buf.length
    · by_cases hrow : n * s._bufferSizeH ≤ z ∧ z < (n + 1) * s._bufferSizeH
      · have hdiv : z / s._bufferSizeH = n := Nat.div_eq_of_lt_le hrow.1 hrow.2
        have h2 : z < (n + 1) * s._bufferSizeH ∧ z < buf.length := ⟨hrow.2, hz⟩
        simp only [hrow, hz, and_self, if_true, hdiv]
      · by_cases hlow : z < n * s._bufferSizeH
        · have c0 : ¬ ((n * s._bufferSizeH ≤ z ∧ z < (n + 1) * s._bufferSizeH) ∧
              z < buf.length) := fun h => hrow h.1
          have c1 : z < n * s._bufferSizeH ∧ z < buf.length := ⟨hlow, hz⟩
          have c2 : z < (n + 1) * s._bufferSizeH ∧ z < buf.length := ⟨by omega, hz⟩
          rw [if_neg c0, if_pos c1, if_pos c2]
        · have c0 : ¬ ((n * s._bufferSizeH ≤ z ∧ z < (n + 1) * s._bufferSizeH) ∧
              z < buf.length) := fun h => hrow h.1
          have c1 : ¬ (z < n * s._bufferSizeH ∧ z < buf.length) := fun h => hlow h.1
          have c2 : ¬ (z < (n + 1) * s._bufferSizeH ∧ z < buf.length) := fun h => by omega
          rw [if_neg c0, if_neg c1, if_neg c2]
    · simp only [hz, and_false, if_false]

theorem inUse_invert (c : Colours) (g : Globals) (raw : Screen_EPD_EXT3_Fast) (e : Nat)
    (buf : List Nat) (o : Nat) (inv : Bool) : (inUse c g raw e buf o inv)._invert = inv := rfl

theorem inUse_newImage (c : Colours) (g : Globals) (raw : Screen_EPD_EXT3_Fast) (e : Nat)
    (buf : List Nat) (o : Nat) (inv : Bool) : (inUse c g raw e buf o inv)._newImage = buf := rfl

theorem inUse_pageColourSize (c : Colours) (g : Globals) (raw : Screen_EPD_EXT3_Fast) (e : Nat)
    (buf : List Nat) (o : Nat) (inv : Bool) :
    (inUse c g raw e buf o inv)._pageColourSize = planeSize c g raw e := rfl

/-- The next plane after `clear` with a colour that is not grey. -/
theorem nextPlane_clear_solid (c : Colours) {s : Screen_EPD_EXT3_Fast} (hg : Geometry s)
    (colour : Nat) (h : colour ≠ c.grey) :
    nextPlane (clear c s colour) =
      List.replicate s._pageColourSize
        (if Bool.xor (colour == c.white) s._invert then 0x00 else 0xff) := by
  unfold nextPlane
  rw [clear_pageColourSize, clear_solid c s colour h]
  exact take_memset _ _ _ (by rw [hg.len]; omega)

/-- The bytes of the next plane after `clear` with grey, row by row. -/
theorem getD_clear_grey (c : Colours) {s : Screen_EPD_EXT3_Fast} (hg : Geometry s)
    (i j : Nat) (hi : i < s._bufferSizeV) (hj : j < s._bufferSizeH) :
    (clear c s c.grey)._newImage.getD (i * s._bufferSizeH + j) 0 =
      if i % 2 = 0 then 0b01010101 else 0b10101010 := by
  have himg : (clear c s c.grey)._newImage =
      (List.range s._bufferSizeV).foldl (fun b i => clearGreyRow s i b) s._newImage := by
    unfold clear
    rw [if_pos rfl]
  have h1 : (i + 1) * s._bufferSizeH ≤ s._bufferSizeV * s._bufferSizeH :=
    Nat.mul_le_mul_right _ hi
  have hmul : (i + 1) * s._bufferSizeH = i * s._bufferSizeH + s._bufferSizeH := by
    rw [Nat.add_mul, Nat.one_mul]
  have hlen := hg.len
  have hpage := hg.page
  rw [← hg.bufV] at hpage
  have hdiv : (i * s._bufferSizeH + j) / s._bufferSizeH = i :=
    Nat.div_eq_of_lt_le (by omega) (by omega)
  have c1 : i * s._bufferSizeH + j < s._bufferSizeV * s._bufferSizeH ∧
      i * s._bufferSizeH + j < s._newImage.length := ⟨by omega, by omega⟩
  rw [himg, List.getD_eq_getElem?_getD, getElem?_clearGreyRows, if_pos c1, hdiv]
  by_cases hp : i % 2 = 0
  · simp [hp]
  · simp [hp]

/-- C14: `clear(colour)` sets every byte of the next plane and nothing else. For
white it writes 0x00 when invert is false and 0xFF when invert is true, for
black the opposite byte, and for grey the checkerboard row by row: every byte
of an even buffer row is 01010101 and every byte of an odd buffer row is
10101010. The bytes from offset planeSize on, the buffer length and the other
members of the driver are unchanged. -/
theorem C14_clear_fills_next_plane (myColours : Colours) (g : Globals)
    (raw : Screen_EPD_EXT3_Fast) (e : Nat) (buf : List Nat) (o : Nat) (inv : Bool)
    (hcol : myColours.Distinct)
    (hsize : supportedSize (codeSizeOf e))
    (hbuf : buf.length = 2 * planeSize myColours g raw e) :
    nextPlane (clear myColours (inUse myColours g raw e buf o inv) myColours.white)
      = List.replicate (planeSize myColours g raw e) (if inv then 0xff else 0x00) ∧
    nextPlane (clear myColours (inUse myColours g raw e buf o inv) myColours.black)
      = List.replicate (planeSize myColours g raw e) (if inv then 0x00 else 0xff) ∧
    (∀ i j, i < (inUse myColours g raw e buf o inv)._bufferSizeV →
      j < (inUse myColours g raw e buf o inv)._bufferSizeH →
      (nextPlane (clear myColours (inUse myColours g raw e buf o inv) myColours.grey)).getD
          (i * (inUse myColours g raw e buf o inv)._bufferSizeH + j) 0
        = if i % 2 = 0 then 0b01010101 else 0b10101010) ∧
    (inUse myColours g raw e buf o inv)._bufferSizeV
        * (inUse myColours g raw e buf o inv)._bufferSizeH = planeSize myColours g raw e ∧
    (∀ colour,
      clear myColours (inUse myColours g raw e buf o inv) colour =
        { inUse myColours g raw e buf o inv with
          _newImage := (clear myColours (inUse myColours g raw e buf o inv) colour)._newImage } ∧
      (clear myColours (inUse myColours g raw e buf o inv) colour)._newImage.drop
          (planeSize myColours g raw e) = buf.drop (planeSize myColours g raw e) ∧
      (clear myColours (inUse myColours g raw e buf o inv) colour)._newImage.length
        = buf.length) := by
  have hg := inUse_geometry myColours g raw e buf o inv hsize hbuf
  obtain ⟨hbw, hgb, hgw⟩ := hcol
  have hpage : (inUse myColours g raw e buf o inv)._bufferSizeV
      * (inUse myColours g raw e buf o inv)._bufferSizeH = planeSize myColours g raw e := by
    rw [hg.bufV, ← hg.page]
    rfl
  refine ⟨?_, ?_, ?_, hpage, ?_⟩
  · rw [nextPlane_clear_solid myColours hg _ (Ne.symm hgw), inUse_invert, inUse_pageColourSize]
    cases inv <;> simp
  · rw [nextPlane_clear_solid myColours hg _ (Ne.symm hgb), inUse_invert, inUse_pageColourSize]
    cases inv <;> simp [hbw]
  · intro i j hi hj
    have h1 : (i + 1) * (inUse myColours g raw e buf o inv)._bufferSizeH ≤
        (inUse myColours g raw e buf o inv)._bufferSizeV
          * (inUse myColours g raw e buf o inv)._bufferSizeH := Nat.mul_le_mul_right _ hi
    rw [Nat.add_mul, Nat.one_mul, hpage] at h1
    unfold nextPlane
    rw [clear_pageColourSize, inUse_pageColourSize, List.getD_eq_getElem?_getD,
      List.getElem?_take, if_pos (by omega), ← List.getD_eq_getElem?_getD]
    exact getD_clear_grey myColours hg i j hi hj
  · intro colour
    refine ⟨clear_eq _ _ _, ?_, ?_⟩
    · have h := drop_clear myColours hg colour
      rw [inUse_pageColourSize, inUse_newImage] at h
      exact h
    · rw [length_clear, inUse_newImage]

/-- Witness of C14: the 2.87" screen with invert on. -/
theorem C14_clear_fills_next_plane_witness :
    nextPlane (clear Colours.rgb565
        (inUse Colours.rgb565 Globals.startup blank 0x012809 (List.replicate 9472 3) 0 true)
        Colours.rgb565.white)
      = List.replicate (planeSize Colours.rgb565 Globals.startup blank 0x012809)
          (if true then 0xff else 0x00) ∧
    nextPlane (clear Colours.rgb565
        (inUse Colours.rgb565 Globals.startup blank 0x012809 (List.replicate 9472 3) 0 true)
        Colours.rgb565.black)
      = List.replicate (planeSize Colours.rgb565 Globals.startup blank 0x012809)
          (if true then 0x00 else 0xff) :=
  ⟨(C14_clear_fills_next_plane Colours.rgb565 Globals.startup blank 0x012809
      (List.replicate 9472 3) 0 true (by decide) (by decide)
      (by rw [List.length_replicate]; decide)).1,
   (C14_clear_fills_next_plane Colours.rgb565 Globals.startup blank 0x012809
      (List.replicate 9472 3) 0 true (by decide) (by decide)
      (by rw [List.length_replicate]; decide)).2.1⟩

/-- Reading an in-bounds pixel after `clear` with a colour that is not grey:
black when the plane was filled with 0xff, white when it was filled with 0x00. -/
theorem _getPoint_clear_solid (c : Colours) {s : Screen_EPD_EXT3_Fast} (hg : Geometry s)
    (colour x y : Nat) (hc : colour ≠ c.grey) (h : inBounds s x y) :
    _getPoint c (clear c s colour) x y =
      if Bool.xor (colour == c.white) s._invert then c.white else c.black := by
  obtain ⟨-, hx, hy⟩ := orient_inBounds s x y h
  obtain ⟨hz, hb⟩ := address_inPlane hg _ _ hx hy
  have himg := clear_solid c s colour hc
  have hlen := hg.len
  rw [clear_eq]
  generalize (clear c s colour)._newImage = img at himg
  have hget := _getPoint_bit c { s with _newImage := img } x y h
  rw [hget]
  change (if (img.getD (_getZ s (_orientCoordinates s x y).2.1 (_orientCoordinates s x y).2.2)
            0).testBit (_getB s (_orientCoordinates s x y).2.1 (_orientCoordinates s x y).2.2)
      then c.black else c.white) = _
  have c1 : _getZ s (_orientCoordinates s x y).2.1 (_orientCoordinates s x y).2.2
        < s._pageColourSize ∧
      _getZ s (_orientCoordinates s x y).2.1 (_orientCoordinates s x y).2.2
        < s._newImage.length := ⟨hz, by omega⟩
  rw [himg, List.getD_eq_getElem?_getD, getElem?_memset, if_pos c1]
  have hff : Nat.testBit 0xff
      (_getB s (_orientCoordinates s x y).2.1 (_orientCoordinates s x y).2.2) = true := by
    rw [show (0xff : Nat) = 2 ^ 8 - 1 from rfl, Nat.testBit_two_pow_sub_one]
    exact decide_eq_true hb
  cases hv : Bool.xor (colour == c.white) s._invert
  · simp only [Option.getD_some, Bool.false_eq_true, if_false, hff, if_true]
  · simp only [Option.getD_some, if_true, Nat.zero_testBit, Bool.false_eq_true, if_false]

/-- After `clear(white)` then `clear(black)` an in-bounds pixel reads black when
`_invert` is off and white when it is on. -/
theorem _getPoint_clear_white_black (c : Colours) {s : Screen_EPD_EXT3_Fast} (hg : Geometry s)
    (hcol : c.Distinct) (x y : Nat) (h : inBounds s x y) :
    _getPoint c (clear c (clear c s c.white) c.black) x y =
      if s._invert then c.white else c.black := by
  obtain ⟨hbw, hgb, -⟩ := hcol
  have hin : inBounds (clear c s c.white) x y := by
    rw [clear_eq]
    exact h
  have hinv : (clear c s c.white)._invert = s._invert := by rw [clear_eq]
  rw [_getPoint_clear_solid c (hg.clear c c.white) c.black x y (Ne.symm hgb) hin, hinv]
  cases s._invert <;> simp [hbw]

/-- C13, at the failing input: with the invert flag true, on the 1.54" screen in
orientation 0, after `clear(white)` then `clear(black)` the in-bounds pixel
(0, 0) reads white: `clear` applies the invert flag and `_getPoint` does not. -/
theorem C13_clear_black_reads_white_under_invert :
    inBounds
      (inUse Colours.rgb565 Globals.startup blank 0x01150C (List.replicate 5776 0) 0 true) 0 0 ∧
    _getPoint Colours.rgb565
      (clear Colours.rgb565
        (clear Colours.rgb565
          (inUse Colours.rgb565 Globals.startup blank 0x01150C (List.replicate 5776 0) 0 true)
          Colours.rgb565.white)
        Colours.rgb565.black) 0 0 = Colours.rgb565.white ∧
    _getPoint Colours.rgb565
      (clear Colours.rgb565
        (clear Colours.rgb565
          (inUse Colours.rgb565 Globals.startup blank 0x01150C (List.replicate 5776 0) 0 false)
          Colours.rgb565.white)
        Colours.rgb565.black) 0 0 = Colours.rgb565.black := by
  refine ⟨by decide, ?_, ?_⟩
  · rw [_getPoint_clear_white_black Colours.rgb565
      (inUse_geometry _ _ _ _ _ _ _ (by decide) (by rw [List.length_replicate]; decide))
      (by decide) 0 0 (by decide)]
    rfl
  · rw [_getPoint_clear_white_black Colours.rgb565
      (inUse_geometry _ _ _ _ _ _ _ (by decide) (by rw [List.length_replicate]; decide))
      (by decide) 0 0 (by decide)]
    rfl

/-! ## `begin`: geometry, buffer and unrecognised codes -/

theorem begin_sizes_unsupported (s : Screen_EPD_EXT3_Fast) (h : ¬ supportedSize s._codeSize) :
    begin_sizes s = s := by
  unfold supportedSize at h
  simp only [List.mem_cons, List.mem_singleton, List.not_mem_nil, or_false, not_or] at h
  obtain ⟨h0, h1, h2, h3, h4, h5, h6, h7, h8, h9, h10⟩ := h
  unfold begin_sizes
  rw [if_neg h0, if_neg h1, if_neg h2, if_neg h3, if_neg h4, if_neg h5, if_neg h6, if_neg h7,
    if_neg h8, if_neg h9, if_neg h10]

/-- Members of the state left by `begin`, from the size table `begin_sizes`. -/
theorem begin_fields (c : Colours) (g : Globals) (s : Screen_EPD_EXT3_Fast) :
    (begin c g s).2._screenSizeV = (begin_sizes (begin_codes s))._screenSizeV ∧
    (begin c g s).2._screenSizeH = (begin_sizes (begin_codes s))._screenSizeH ∧
    (begin c g s).2._bufferSizeV = (begin_sizes (begin_codes s))._screenSizeV ∧
    (begin c g s).2._bufferSizeH = (begin_sizes (begin_codes s))._screenSizeH / 8 ∧
    (begin c g s).2._pageColourSize =
      (begin_sizes (begin_codes s))._screenSizeV * ((begin_sizes (begin_codes s))._screenSizeH / 8) ∧
    (begin c g s).2._frameSize = (begin_buffer (begin_sizes (begin_codes s)))._frameSize ∧
    (begin c g s).2._bufferDepth = 2 ∧
    (begin c g s).2._codeExtra = (s._eScreen_EPD_EXT3 >>> 16) &&& 0xff ∧
    (begin c g s).2._codeSize = codeSizeOf s._eScreen_EPD_EXT3 ∧
    (begin c g s).2._orientation = 0 ∧
    (begin c g s).2._invert = false := by
  obtain ⟨V, H, D, hP, -⟩ := begin_sizes_spec (begin_codes s)
  have hQ := begin_buffer_eq (begin_sizes (begin_codes s))
  have hB := begin_snd_eq c g s
  generalize (begin c g s).2._newImage = img at hB
  generalize (begin c g s).2._flag50 = f50 at hB
  generalize (begin_buffer (begin_sizes (begin_codes s)))._frameSize = frame at hQ ⊢
  rw [hQ] at hB
  rw [hB, hP]
  exact ⟨rfl, rfl, rfl, rfl, rfl, rfl, rfl, rfl, rfl, rfl, rfl⟩

theorem begin_buffer_newImage (s : Screen_EPD_EXT3_Fast) :
    (begin_buffer (begin_sizes (begin_codes s)))._newImage = s._newImage ∧
    (begin_buffer (begin_sizes (begin_codes s)))._eScreen_EPD_EXT3 = s._eScreen_EPD_EXT3 ∧
    (begin_buffer (begin_sizes (begin_codes s)))._flag50 = s._flag50 ∧
    (begin_buffer (begin_sizes (begin_codes s)))._bufferDepth = 2 := by
  obtain ⟨V, H, D, hP, -⟩ := begin_sizes_spec (begin_codes s)
  have hQ := begin_buffer_eq (begin_sizes (begin_codes s))
  generalize (begin_buffer (begin_sizes (begin_codes s)))._frameSize = frame at hQ
  rw [hQ, hP]
  exact ⟨rfl, rfl, rfl, rfl⟩

/-- The frame buffer left by `begin` on a fresh object: all zero. -/
theorem begin_newImage (c : Colours) (g : Globals) (s : Screen_EPD_EXT3_Fast)
    (hnull : s._newImage = []) (hwg : c.white ≠ c.grey) :
    (begin c g s).2._newImage =
      List.replicate ((begin c g s).2._pageColourSize * 2) 0 := by
  have hp : (begin c g s).2._pageColourSize
      = (begin_buffer (begin_sizes (begin_codes s)))._pageColourSize := by
    rw [(begin_fields c g s).2.2.2.2.1, begin_buffer_eq]
  rw [hp]
  obtain ⟨hQi, -, -, hQd⟩ := begin_buffer_newImage s
  rw [hnull] at hQi
  unfold begin
  simp only []
  generalize begin_buffer (begin_sizes (begin_codes s)) = Q at hQi hQd
  have hA : (begin_allocate Q)._newImage = List.replicate (Q._pageColourSize * 2) 0 := by
    unfold begin_allocate
    simp only [hQi, if_true, hQd]
    exact memset_replicate _ _ _
  have hAe := begin_allocate_eq Q
  generalize (begin_allocate Q)._newImage = imgA at hA hAe
  rw [clear_solid c _ c.white hwg, hAe]
  have hU := COG_getUserData_snd g { Q with _newImage := imgA }
  generalize (COG_getUserData g { Q with _newImage := imgA }).2._flag50 = f50 at hU
  rw [hU]
  show memset imgA 0 _ _ = _
  rw [hA]
  simp only [beq_self_eq_true, Bool.xor_false, if_true]
  exact memset_replicate _ _ _

/-- C18: after `begin()` on any supported screen code, bufferRowBytes is
sizeH / 8, planeSize is sizeV * bufferRowBytes, frameSize is planeSize, the
frame buffer has length 2 * planeSize and every one of its bytes is zero, the
orientation is 0 and the invert flag is false. -/
theorem C18_begin_geometry_and_zero_buffer (myColours : Colours) (g : Globals)
    (raw : Screen_EPD_EXT3_Fast) (e : Nat)
    (hcol : myColours.Distinct)
    (hsize : supportedSize (codeSizeOf e)) :
    (begin myColours g (new raw e)).2._bufferSizeH
      = (begin myColours g (new raw e)).2._screenSizeH / 8 ∧
    (begin myColours g (new raw e)).2._pageColourSize
      = (begin myColours g (new raw e)).2._screenSizeV
        * (begin myColours g (new raw e)).2._bufferSizeH ∧
    (begin myColours g (new raw e)).2._frameSize
      = (begin myColours g (new raw e)).2._pageColourSize ∧
    (begin myColours g (new raw e)).2._newImage.length
      = 2 * (begin myColours g (new raw e)).2._pageColourSize ∧
    (∀ i, i < 2 * (begin myColours g (new raw e)).2._pageColourSize →
      (begin myColours g (new raw e)).2._newImage[i]? = some 0) ∧
    (begin myColours g (new raw e)).2._orientation = 0 ∧
    (begin myColours g (new raw e)).2._invert = false := by
  have hg := begin_geometry myColours g raw e hsize
  obtain ⟨hV, hH, -, hbH, -, -, -, -, -, ho, hi⟩ := begin_fields myColours g (new raw e)
  have himg := begin_newImage myColours g (new raw e) rfl (Ne.symm hcol.2.2)
  refine ⟨by rw [hbH, hH], hg.page, hg.frame, hg.len, ?_, ho, hi⟩
  intro i hlt
  rw [himg, List.getElem?_replicate, if_pos (by omega)]

/-- Witness of C18: the 4.37" screen, 480 x 176 pixels, planes of 10560 bytes. -/
theorem C18_begin_geometry_and_zero_buffer_witness :
    (begin Colours.rgb565 Globals.startup (new blank 0x01430C)).2._bufferSizeH
      = (begin Colours.rgb565 Globals.startup (new blank 0x01430C)).2._screenSizeH / 8 ∧
    (begin Colours.rgb565 Globals.startup (new blank 0x01430C)).2._pageColourSize
      = (begin Colours.rgb565 Globals.startup (new blank 0x01430C)).2._screenSizeV
        * (begin Colours.rgb565 Globals.startup (new blank 0x01430C)).2._bufferSizeH ∧
    (begin Colours.rgb565 Globals.startup (new blank 0x01430C)).2._frameSize
      = (begin Colours.rgb565 Globals.startup (new blank 0x01430C)).2._pageColourSize ∧
    (begin Colours.rgb565 Globals.startup (new blank 0x01430C)).2._newImage.length
      = 2 * (begin Colours.rgb565 Globals.startup (new blank 0x01430C)).2._pageColourSize ∧
    (∀ i, i < 2 * (begin Colours.rgb565 Globals.startup (new blank 0x01430C)).2._pageColourSize →
      (begin Colours.rgb565 Globals.startup (new blank 0x01430C)).2._newImage[i]? = some 0) ∧
    (begin Colours.rgb565 Globals.startup (new blank 0x01430C)).2._orientation = 0 ∧
    (begin Colours.rgb565 Globals.startup (new blank 0x01430C)).2._invert = false :=
  C18_begin_geometry_and_zero_buffer Colours.rgb565 Globals.startup blank 0x01430C
    (by decide) (by decide)

theorem COG_getUserData_unrecognised (g : Globals) (s : Screen_EPD_EXT3_Fast)
    (h : ¬ supportedSize (codeSizeOf s._eScreen_EPD_EXT3)) : COG_getUserData g s = (g, s) := by
  unfold supportedSize codeSizeOf at h
  simp only [List.mem_cons, List.mem_singleton, List.not_mem_nil, or_false, not_or] at h
  have hlow : s._eScreen_EPD_EXT3 &&& 0xffff = s._eScreen_EPD_EXT3 % 2 ^ 16 :=
    Nat.and_pow_two_sub_one_eq_mod _ 16
  have hsize : (s._eScreen_EPD_EXT3 >>> 8) &&& 0xff = s._eScreen_EPD_EXT3 / 2 ^ 8 % 2 ^ 8 := by
    rw [Nat.shiftRight_eq_div_pow]
    exact Nat.and_pow_two_sub_one_eq_mod _ 8
  rw [hsize] at h
  unfold COG_getUserData
  simp only []
  rw [hlow]
  have e1 : ¬ (s._eScreen_EPD_EXT3 % 2 ^ 16 = 0x150C ∨ s._eScreen_EPD_EXT3 % 2 ^ 16 = 0x210E ∨
      s._eScreen_EPD_EXT3 % 2 ^ 16 = 0x260C) := by omega
  have e2 : ¬ s._eScreen_EPD_EXT3 % 2 ^ 16 = 0x2709 := by omega
  have e3 : ¬ s._eScreen_EPD_EXT3 % 2 ^ 16 = 0x2809 := by omega
  have e4 : ¬ s._eScreen_EPD_EXT3 % 2 ^ 16 = 0x370C := by omega
  have e5 : ¬ s._eScreen_EPD_EXT3 % 2 ^ 16 = 0x410D := by omega
  have e6 : ¬ s._eScreen_EPD_EXT3 % 2 ^ 16 = 0x430C := by omega
  rw [if_neg e1, if_neg e2, if_neg e3, if_neg e4, if_neg e5, if_neg e6]
  split_ifs <;> rfl

/-- What `COG_getUserData` leaves, inside `begin`: it is run on a state that has
the screen code and the `_flag50` of the object. -/
theorem begin_getUserData (c : Colours) (g : Globals) (s : Screen_EPD_EXT3_Fast) :
    ∃ t : Screen_EPD_EXT3_Fast,
      t._eScreen_EPD_EXT3 = s._eScreen_EPD_EXT3 ∧ t._flag50 = s._flag50 ∧
      (begin c g s).1 = (COG_getUserData g t).1 ∧
      (begin c g s).2._flag50 = (COG_getUserData g t).2._flag50 := by
  obtain ⟨-, hQe, hQf, -⟩ := begin_buffer_newImage s
  refine ⟨begin_allocate (begin_buffer (begin_sizes (begin_codes s))), ?_, ?_, rfl, ?_⟩
  · rw [begin_allocate_eq]
    exact hQe
  · rw [begin_allocate_eq]
    exact hQf
  · unfold begin
    simp only []
    rw [clear_eq]
    rfl

/-- C19, refuted as stated: the code 0x01FF00 has a size byte (0xFF) that is
not one of the recognised models, yet after `begin` the fast-capable flag is
set: it is a bit of the code's extra byte. -/
theorem C19_unrecognised_code_can_be_fast_capable :
    ¬ supportedSize (codeSizeOf 0x01FF00) ∧
    (begin Colours.rgb565 Globals.startup (new blank 0x01FF00)).2._codeExtra
      &&& Constants.pdls.FEATURE_FAST ≠ 0 := by
  refine ⟨by decide, ?_⟩
  rw [(begin_fields Colours.rgb565 Globals.startup (new blank 0x01FF00)).2.2.2.2.2.2.2.1]
  decide

/-- C19, amended: for every screen code whose size byte is not in the size
table of `begin`, `begin` assigns no geometry: sizeV and sizeH keep the values
the members had before (zero for a zero-initialised object), bufferRowBytes is
sizeH / 8, planeSize is sizeV * bufferRowBytes and frameSize is planeSize
(planeSize / 2 for the size bytes 0x96 and 0xB9), so that all of them are zero
when sizeV and sizeH were zero. The fast-capable flag is the `FEATURE_FAST` bit of
the code's extra byte, whatever the size byte is; `_flag50` and the PSR table
keep their previous values. No operation fails. -/
theorem C19_unrecognised_code_keeps_members (myColours : Colours) (k : Constants)
    (g : Globals) (raw : Screen_EPD_EXT3_Fast) (e : Nat)
    (hsize : ¬ supportedSize (codeSizeOf e)) :
    (begin myColours g (new raw e)).2._screenSizeV = raw._screenSizeV ∧
    (begin myColours g (new raw e)).2._screenSizeH = raw._screenSizeH ∧
    (begin myColours g (new raw e)).2._bufferSizeH = raw._screenSizeH / 8 ∧
    (begin myColours g (new raw e)).2._pageColourSize
      = raw._screenSizeV * (raw._screenSizeH / 8) ∧
    (begin myColours g (new raw e)).2._frameSize
      = (if codeSizeOf e = 0x96 ∨ codeSizeOf e = 0xB9
          then raw._screenSizeV * (raw._screenSizeH / 8) / 2
          else raw._screenSizeV * (raw._screenSizeH / 8)) ∧
    (raw._screenSizeV = 0 → raw._screenSizeH = 0 →
      (begin myColours g (new raw e)).2._screenSizeV = 0 ∧
      (begin myColours g (new raw e)).2._screenSizeH = 0 ∧
      (begin myColours g (new raw e)).2._bufferSizeH = 0 ∧
      (begin myColours g (new raw e)).2._pageColourSize = 0 ∧
      (begin myColours g (new raw e)).2._frameSize = 0) ∧
    ((begin myColours g (new raw e)).2._codeExtra &&& k.FEATURE_FAST
      = ((e >>> 16) &&& 0xff) &&& k.FEATURE_FAST) ∧
    (begin myColours g (new raw e)).2._flag50 = raw._flag50 ∧
    (begin myColours g (new raw e)).1 = g := by
  obtain ⟨hV, hH, -, hbH, hp, hf, -, hx, -, -, -⟩ := begin_fields myColours g (new raw e)
  have hP : begin_sizes (begin_codes (new raw e)) = begin_codes (new raw e) :=
    begin_sizes_unsupported _ hsize
  rw [hP] at hV hH hbH hp hf
  have hf' : (begin myColours g (new raw e)).2._frameSize
      = (if codeSizeOf e = 0x96 ∨ codeSizeOf e = 0xB9
          then raw._screenSizeV * (raw._screenSizeH / 8) / 2
          else raw._screenSizeV * (raw._screenSizeH / 8)) := by
    rw [hf]
    unfold begin_buffer
    simp only []
    split_ifs with h1 h2 h2
    · rfl
    · exact absurd h1 h2
    · exact absurd h2 h1
    · rfl
  obtain ⟨t, hte, htf, hg1, hg2⟩ := begin_getUserData myColours g (new raw e)
  have hu := COG_getUserData_unrecognised g t (by rw [hte]; exact hsize)
  rw [hu] at hg1 hg2
  refine ⟨hV, hH, hbH, hp, hf', ?_, by rw [hx]; rfl, by rw [hg2, htf]; rfl, hg1⟩
  intro h0 h1
  have hV0 : (begin_codes (new raw e))._screenSizeV = 0 := h0
  have hH0 : (begin_codes (new raw e))._screenSizeH = 0 := h1
  rw [hf', hV, hH, hbH, hp, hV0, hH0, h0, h1]
  simp

/-- Witness of C19 (amended): the code 0x01FF00 on an object whose members are zero. -/
theorem C19_unrecognised_code_keeps_members_witness :
    (begin Colours.rgb565 Globals.startup (new blank 0x01FF00)).2._screenSizeV = 0 ∧
    (begin Colours.rgb565 Globals.startup (new blank 0x01FF00)).2._screenSizeH = 0 ∧
    (begin Colours.rgb565 Globals.startup (new blank 0x01FF00)).2._bufferSizeH = 0 ∧
    (begin Colours.rgb565 Globals.startup (new blank 0x01FF00)).2._pageColourSize = 0 ∧
    (begin Colours.rgb565 Globals.startup (new blank 0x01FF00)).2._frameSize = 0 :=
  (C19_unrecognised_code_keeps_members Colours.rgb565 Constants.pdls Globals.startup blank
    0x01FF00 (by decide)).2.2.2.2.2.1 rfl rfl

/-! ## `regenerate` -/

theorem Geometry.sendImage {s : Screen_EPD_EXT3_Fast} (h : Geometry s) :
    Geometry (COG_sendImageDataFast s).1 :=
  h.of_fields rfl rfl rfl rfl rfl rfl (length_memcpy _ _ _ _)

theorem COG_sendImageDataFast_events {s : Screen_EPD_EXT3_Fast} (hg : Geometry s) :
    (COG_sendImageDataFast s).2 =
      [Event.sendIndexData 0x10 (previousPlane s), Event.sendIndexData 0x13 (nextPlane s)] := by
  unfold COG_sendImageDataFast previousPlane nextPlane
  simp only [List.drop_zero, hg.frame]

/-- One half of `regenerate`: `clear` with a colour that is not grey, then a
flush cycle. The events, and the state left, in terms of the state before. -/
theorem _flushFast_after_clear (c : Colours) (k : Constants) (g : Globals)
    {s : Screen_EPD_EXT3_Fast} (hg : Geometry s) (colour : Nat) (hc : colour ≠ c.grey) :
    (_flushFast k g (clear c s colour)).2 =
      COG_initial k g s k.UPDATE_FAST
      ++ [Event.sendIndexData 0x10 (previousPlane s),
          Event.sendIndexData 0x13 (List.replicate s._pageColourSize
            (if Bool.xor (colour == c.white) s._invert then 0x00 else 0xff))]
      ++ COG_update k s k.UPDATE_FAST ++ COG_powerOff ∧
    Geometry (_flushFast k g (clear c s colour)).1 ∧
    nextPlane (_flushFast k g (clear c s colour)).1 =
      List.replicate s._pageColourSize
        (if Bool.xor (colour == c.white) s._invert then 0x00 else 0xff) ∧
    previousPlane (_flushFast k g (clear c s colour)).1 =
      List.replicate s._pageColourSize
        (if Bool.xor (colour == c.white) s._invert then 0x00 else 0xff) ∧
    (_flushFast k g (clear c s colour)).1 =
      { s with _newImage := (_flushFast k g (clear c s colour)).1._newImage } := by
  have hgt := hg.clear c colour
  have hnext := nextPlane_clear_solid c hg colour hc
  have hprev : previousPlane (clear c s colour) = previousPlane s := by
    unfold previousPlane
    rw [clear_pageColourSize, drop_clear c hg colour]
  have hev := COG_sendImageDataFast_events hgt
  obtain ⟨hp', hn'⟩ := COG_sendImageDataFast_planes hgt
  have hgs := hgt.sendImage
  rw [hnext] at hev hp' hn'
  rw [hprev] at hev
  have ht := clear_eq c s colour
  generalize (clear c s colour)._newImage = img at ht
  generalize clear c s colour = t at *
  rw [_flushFast_state, _flushFast_trace]
  refine ⟨?_, hgs, hn', hp', ?_⟩
  · unfold cycleWithMode
    rw [hev, ht]
    rfl
  · rw [ht]
    rfl

theorem count_powerOff_phases (k : Constants) (g : Globals) (s : Screen_EPD_EXT3_Fast)
    (m : Nat) (p n : List Nat) :
    (COG_initial k g s m ++ [Event.sendIndexData 0x10 p, Event.sendIndexData 0x13 n]
      ++ COG_update k s m ++ COG_powerOff).count (Event.sendCommand8 0x02) = 1 := by
  unfold COG_initial COG_update COG_powerOff
  simp only [List.count_append]
  split_ifs <;> simp [List.count_cons]

/-- C15, refuted as stated: when `checkTemperatureMode` answers a mode that is
none of Fast, Partial and Global (here 0), `regenerate()` runs no flush cycle at
all: nothing is sent to the panel. -/
theorem C15_regenerate_without_cycle :
    commandTrace
      (regenerate Colours.rgb565 Constants.pdls (fun _ => 0) Globals.startup
        (inUse Colours.rgb565 Globals.startup blank 0x01150C (List.replicate 5776 0x55) 0
          false)).2 = [] ∧
    (regenerate Colours.rgb565 Constants.pdls (fun _ => 0) Globals.startup
        (inUse Colours.rgb565 Globals.startup blank 0x01150C (List.replicate 5776 0x55) 0
          false)).2
      = [Event.println "* PDLS - UPDATE_NONE invoked", Event.delay 100,
         Event.println "* PDLS - UPDATE_NONE invoked", Event.delay 100] := by
  have h : (regenerate Colours.rgb565 Constants.pdls (fun _ => 0) Globals.startup
        (inUse Colours.rgb565 Globals.startup blank 0x01150C (List.replicate 5776 0x55) 0
          false)).2
      = [Event.println "* PDLS - UPDATE_NONE invoked", Event.delay 100,
         Event.println "* PDLS - UPDATE_NONE invoked", Event.delay 100] := by
    unfold regenerate flush
    simp only [flushMode_skip Constants.pdls (fun _ => 0) _ _ Constants.pdls.UPDATE_FAST
      (by decide)]
    rfl
  rw [h]
  exact ⟨rfl, rfl⟩

/-- C15, amended: when the mode applied for `flush()`, `checkTemperatureMode(UPDATE_FAST)`,
is one of Fast, Partial and Global, `regenerate()` performs exactly two complete
flush cycles whatever the buffer held beforehand: the first sends under 0x13 a
next plane that is entirely black (as written by `clear(black)`), the second one
that is entirely white, each cycle ending with Power-Off and followed by a
delay; afterwards both the next and the previous plane are entirely white,
independent of the initial buffer content. -/
theorem C15_regenerate_two_cycles (myColours : Colours) (k : Constants)
    (checkTemperatureMode : Nat → Nat) (g g' : Globals)
    (raw : Screen_EPD_EXT3_Fast) (e : Nat) (buf : List Nat) (o : Nat) (inv : Bool)
    (hcol : myColours.Distinct)
    (hsize : supportedSize (codeSizeOf e))
    (hbuf : buf.length = 2 * planeSize myColours g raw e)
    (hmode : checkTemperatureMode k.UPDATE_FAST = k.UPDATE_FAST ∨
      checkTemperatureMode k.UPDATE_FAST = k.UPDATE_PARTIAL ∨
      checkTemperatureMode k.UPDATE_FAST = k.UPDATE_GLOBAL) :
    (regenerate myColours k checkTemperatureMode g' (inUse myColours g raw e buf o inv)).2 =
      (COG_initial k g' (inUse myColours g raw e buf o inv) k.UPDATE_FAST
        ++ [Event.sendIndexData 0x10 (previousPlane (inUse myColours g raw e buf o inv)),
            Event.sendIndexData 0x13
              (List.replicate (planeSize myColours g raw e) (if inv then 0x00 else 0xff))]
        ++ COG_update k (inUse myColours g raw e buf o inv) k.UPDATE_FAST ++ COG_powerOff)
      ++ [Event.delay 100]
      ++ (COG_initial k g' (inUse myColours g raw e buf o inv) k.UPDATE_FAST
        ++ [Event.sendIndexData 0x10
              (List.replicate (planeSize myColours g raw e) (if inv then 0x00 else 0xff)),
            Event.sendIndexData 0x13
              (List.replicate (planeSize myColours g raw e) (if inv then 0xff else 0x00))]
        ++ COG_update k (inUse myColours g raw e buf o inv) k.UPDATE_FAST ++ COG_powerOff)
      ++ [Event.delay 100] ∧
    (regenerate myColours k checkTemperatureMode g'
        (inUse myColours g raw e buf o inv)).2.count (Event.sendCommand8 0x02) = 2 ∧
    nextPlane (regenerate myColours k checkTemperatureMode g'
        (inUse myColours g raw e buf o inv)).1
      = List.replicate (planeSize myColours g raw e) (if inv then 0xff else 0x00) ∧
    previousPlane (regenerate myColours k checkTemperatureMode g'
        (inUse myColours g raw e buf o inv)).1
      = List.replicate (planeSize myColours g raw e) (if inv then 0xff else 0x00) := by
  have hg := inUse_geometry myColours g raw e buf o inv hsize hbuf
  obtain ⟨hbw, hgb, hgw⟩ := hcol
  have hpage := inUse_pageColourSize myColours g raw e buf o inv
  have hinv := inUse_invert myColours g raw e buf o inv
  generalize inUse myColours g raw e buf o inv = s at hg hpage hinv ⊢
  obtain ⟨t1, g1, -, p1, e1⟩ :=
    _flushFast_after_clear myColours k g' hg myColours.black (Ne.symm hgb)
  have hbk : (if Bool.xor (myColours.black == myColours.white) s._invert then 0x00 else 0xff)
      = (if inv then 0x00 else 0xff : Nat) := by
    rw [hinv]
    cases inv <;> simp [hbw]
  rw [hbk, hpage] at t1 p1
  have htrace : (regenerate myColours k checkTemperatureMode g' s).2 =
      (_flushFast k g' (clear myColours s myColours.black)).2 ++ [Event.delay 100]
      ++ (_flushFast k g' (clear myColours
          (_flushFast k g' (clear myColours s myColours.black)).1 myColours.white)).2
      ++ [Event.delay 100] := by
    unfold regenerate flush
    simp only [flushMode_run k checkTemperatureMode g' _ k.UPDATE_FAST hmode]
  have hstate : (regenerate myColours k checkTemperatureMode g' s).1 =
      (_flushFast k g' (clear myColours
          (_flushFast k g' (clear myColours s myColours.black)).1 myColours.white)).1 := by
    unfold regenerate flush
    simp only [flushMode_run k checkTemperatureMode g' _ k.UPDATE_FAST hmode]
  rw [htrace, hstate, t1]
  generalize (_flushFast k g' (clear myColours s myColours.black)).1._newImage = img1 at e1
  generalize (_flushFast k g' (clear myColours s myColours.black)).1 = s1 at g1 p1 e1 ⊢
  obtain ⟨t2, -, n2, p2, -⟩ :=
    _flushFast_after_clear myColours k g' g1 myColours.white (Ne.symm hgw)
  have hwh : (if Bool.xor (myColours.white == myColours.white) s1._invert then 0x00 else 0xff)
      = (if inv then 0xff else 0x00 : Nat) := by
    rw [e1]
    show (if Bool.xor (myColours.white == myColours.white) s._invert then 0x00 else 0xff) = _
    rw [hinv]
    cases inv <;> simp
  have hpage1 : s1._pageColourSize = planeSize myColours g raw e := by
    rw [e1]
    exact hpage
  have hi1 : COG_initial k g' s1 k.UPDATE_FAST = COG_initial k g' s k.UPDATE_FAST := by
    rw [e1]
    rfl
  have hu1 : COG_update k s1 k.UPDATE_FAST = COG_update k s k.UPDATE_FAST := by
    rw [e1]
    rfl
  rw [hwh, hpage1] at t2 n2 p2
  rw [hi1, hu1, p1] at t2
  rw [t2]
  refine ⟨rfl, ?_, n2, p2⟩
  rw [List.count_append, List.count_append, List.count_append, count_powerOff_phases,
    count_powerOff_phases]
  rfl

/-- Witness of C15 (amended): the final planes on the 1.54" screen, the mode
being left as requested. -/
theorem C15_regenerate_two_cycles_witness :
    nextPlane (regenerate Colours.rgb565 Constants.pdls id Globals.startup
        (inUse Colours.rgb565 Globals.startup blank 0x01150C (List.replicate 5776 0x55) 0
          false)).1
      = List.replicate (planeSize Colours.rgb565 Globals.startup blank 0x01150C)
          (if false then 0xff else 0x00) ∧
    previousPlane (regenerate Colours.rgb565 Constants.pdls id Globals.startup
        (inUse Colours.rgb565 Globals.startup blank 0x01150C (List.replicate 5776 0x55) 0
          false)).1
      = List.replicate (planeSize Colours.rgb565 Globals.startup blank 0x01150C)
          (if false then 0xff else 0x00) :=
  (C15_regenerate_two_cycles Colours.rgb565 Constants.pdls id Globals.startup Globals.startup
    blank 0x01150C (List.replicate 5776 0x55) 0 false (by decide) (by decide)
    (by rw [List.length_replicate]; decide) (Or.inl rfl)).2.2

/-! ## The size table and the tables of `COG_getUserData` -/

/-- C21, at the failing input: for the 4.17" screen (size byte 0x41), a size of
the table of `begin`, sizeV is 300 and sizeH is 400, so sizeV is not the long
axis, although the comments on these two assignments say "vertical = wide
size" and "horizontal = small size". -/
theorem C21_size_417_vertical_is_short :
    supportedSize (codeSizeOf 0x01410D) ∧
    (begin Colours.rgb565 Globals.startup (new blank 0x01410D)).2._screenSizeV = 300 ∧
    (begin Colours.rgb565 Globals.startup (new blank 0x01410D)).2._screenSizeH = 400 ∧
    ¬ ((begin Colours.rgb565 Globals.startup (new blank 0x01410D)).2._screenSizeV
        ≥ (begin Colours.rgb565 Globals.startup (new blank 0x01410D)).2._screenSizeH) := by
  obtain ⟨hV, hH, -⟩ := begin_fields Colours.rgb565 Globals.startup (new blank 0x01410D)
  have hV' : (begin_sizes (begin_codes (new blank 0x01410D)))._screenSizeV = 300 := by decide
  have hH' : (begin_sizes (begin_codes (new blank 0x01410D)))._screenSizeH = 400 := by decide
  rw [hV'] at hV
  rw [hH'] at hH
  refine ⟨by decide, hV, hH, ?_⟩
  rw [hV, hH]
  decide

/-- C24, at the failing input: for the 4.37" screen (code 0x430C), which is
not one of the 1.54, 2.13, 2.66 and 3.70 screens, `COG_getUserData` sets
`_flag50`, so the Configure phase sends the additional 0x50 [0x27] and the
Refresh phase the additional 0x50 [0x07] for it too. -/
theorem C24_flag50_set_for_437 :
    (COG_getUserData Globals.startup (new blank 0x01430C)).2._flag50 = true ∧
    (inUse Colours.rgb565 Globals.startup blank 0x01430C (List.replicate 21120 0) 0
      false)._flag50 = true ∧
    Event.sendIndexData 0x50 [0x27] ∈
      COG_initial Constants.pdls Globals.startup
        (inUse Colours.rgb565 Globals.startup blank 0x01430C (List.replicate 21120 0) 0 false)
        Constants.pdls.UPDATE_FAST ∧
    Event.sendIndexData 0x50 [0x07] ∈
      COG_update Constants.pdls
        (inUse Colours.rgb565 Globals.startup blank 0x01430C (List.replicate 21120 0) 0 false)
        Constants.pdls.UPDATE_FAST := by
  have h50 : (inUse Colours.rgb565 Globals.startup blank 0x01430C (List.replicate 21120 0) 0
      false)._flag50 = true := by decide
  refine ⟨by decide, h50, ?_, ?_⟩
  · rw [COG_initial_fast _ _ _ _ (by decide) (by decide), h50]
    decide
  · rw [COG_update_fast _ _ _ (by decide) (by decide), h50]
    decide

/-- C25, at the failing input: for the 3.70" screen (code 0x370C)
`COG_getUserData` stores the PSR bytes (0xcf, 0x8f), not the (0xcf, 0x0f) that the
comment on its case documents; for the seven other screens it stores the
documented bytes. -/
theorem C25_psr_370_differs_from_comment :
    (COG_getUserData Globals.startup (new blank 0x01370C)).1.index00_data = (0xcf, 0x8f) ∧
    (COG_getUserData Globals.startup (new blank 0x01370C)).1.index00_data ≠ (0xcf, 0x0f) ∧
    (COG_getUserData Globals.startup (new blank 0x01150C)).1.index00_data = (0xcf, 0x02) ∧
    (COG_getUserData Globals.startup (new blank 0x01210E)).1.index00_data = (0xcf, 0x02) ∧
    (COG_getUserData Globals.startup (new blank 0x01260C)).1.index00_data = (0xcf, 0x02) ∧
    (COG_getUserData Globals.startup (new blank 0x012709)).1.index00_data = (0xcf, 0x8d) ∧
    (COG_getUserData Globals.startup (new blank 0x012809)).1.index00_data = (0xcf, 0x8d) ∧
    (COG_getUserData Globals.startup (new blank 0x01410D)).1.index00_data = (0x0f, 0x0e) ∧
    (COG_getUserData Globals.startup (new blank 0x01430C)).1.index00_data = (0x0f, 0x0e) := by
  refine ⟨?_, ?_, ?_, ?_, ?_, ?_, ?_, ?_, ?_⟩ <;> decide

/-- C23: the payloads of the Configure phase are selected by the flags alone.
Writing fast for "fastCapable and the mode is not Global" and (p0, p1) for the
bytes of the PSR table, `COG_initial` sends in order 0x00 [0x0e] (followed by the
one busy-wait), 0xE5 [0x59 if fast, else 0x19], 0xE0 [0x02], 0x00 [p0 | 0x10,
p1 | 0x02 if fast, else p0, p1], then 0x50 [0x07] if and only if fast, then a
second 0x50 [0x27] if and only if fast and `_flag50`; in Global mode or on a
profile that is not fast-capable no 0x50 command is sent at all. -/
theorem C23_configure_payloads_by_flags (k : Constants) (g : Globals)
    (s : Screen_EPD_EXT3_Fast) (m : Nat) :
    COG_initial k g s m =
      [Event.sendIndexData 0x00 [0x0e], Event.waitBusy,
       Event.sendIndexData 0xe5
         [if s._codeExtra &&& k.FEATURE_FAST ≠ 0 ∧ m ≠ k.UPDATE_GLOBAL then 0x59 else 0x19],
       Event.sendIndexData 0xe0 [0x02],
       Event.sendIndexData 0x00
         (if s._codeExtra &&& k.FEATURE_FAST ≠ 0 ∧ m ≠ k.UPDATE_GLOBAL
          then [g.index00_data.1 ||| 0x10, g.index00_data.2 ||| 0x02]
          else [g.index00_data.1, g.index00_data.2])]
      ++ (if s._codeExtra &&& k.FEATURE_FAST ≠ 0 ∧ m ≠ k.UPDATE_GLOBAL
          then [Event.sendIndexData 0x50 [0x07]] else [])
      ++ (if (s._codeExtra &&& k.FEATURE_FAST ≠ 0 ∧ m ≠ k.UPDATE_GLOBAL) ∧ s._flag50 = true
          then [Event.sendIndexData 0x50 [0x27]] else []) ∧
    (¬ (s._codeExtra &&& k.FEATURE_FAST ≠ 0 ∧ m ≠ k.UPDATE_GLOBAL) →
      ∀ data, Event.sendIndexData 0x50 data ∉ COG_initial k g s m) := by
  by_cases hfast : s._codeExtra &&& k.FEATURE_FAST ≠ 0 ∧ m ≠ k.UPDATE_GLOBAL
  · rw [COG_initial_fast k g s m hfast.1 hfast.2]
    refine ⟨?_, fun h => absurd hfast h⟩
    simp only [hfast, true_and, if_true, ne_eq, not_false_eq_true, and_self]
    cases s._flag50 <;> rfl
  · have hc : s._codeExtra &&& k.FEATURE_FAST = 0 ∨ m = k.UPDATE_GLOBAL := by
      by_cases h1 : s._codeExtra &&& k.FEATURE_FAST = 0
      · exact Or.inl h1
      · by_cases h2 : m = k.UPDATE_GLOBAL
        · exact Or.inr h2
        · exact absurd ⟨h1, h2⟩ hfast
    rw [COG_initial_common k g s m hc]
    refine ⟨?_, fun _ data hmem => ?_⟩
    · simp only [hfast, false_and, if_false, List.append_nil]
    · simp at hmem

/-- C28: an in-bounds `_setPoint` whose colour is none of black, white and grey
depends on the invert flag. With invert false the driver state, buffer included,
is left unchanged; with invert true the addressed bit is cleared, exactly as a
black write does under invert true. -/
theorem C28_other_colour_depends_on_invert (myColours : Colours) (g : Globals)
    (raw : Screen_EPD_EXT3_Fast) (e : Nat) (buf : List Nat) (o x y colour : Nat)
    (hcol : myColours.Distinct)
    (hsize : supportedSize (codeSizeOf e))
    (hbuf : buf.length = 2 * planeSize myColours g raw e)
    (hxy : inBounds (inUse myColours g raw e buf o true) x y)
    (hb : colour ≠ myColours.black) (hw : colour ≠ myColours.white)
    (hgr : colour ≠ myColours.grey) :
    _setPoint myColours (inUse myColours g raw e buf o false) x y colour
      = inUse myColours g raw e buf o false ∧
    _setPoint myColours (inUse myColours g raw e buf o true) x y colour
      = _setPoint myColours (inUse myColours g raw e buf o true) x y myColours.black ∧
    (_setPoint myColours (inUse myColours g raw e buf o true) x y colour)._newImage
      = buf.set
          (_getZ (inUse myColours g raw e buf o true)
            (_orientCoordinates (inUse myColours g raw e buf o true) x y).2.1
            (_orientCoordinates (inUse myColours g raw e buf o true) x y).2.2)
          (bitClear
            (buf.getD
              (_getZ (inUse myColours g raw e buf o true)
                (_orientCoordinates (inUse myColours g raw e buf o true) x y).2.1
                (_orientCoordinates (inUse myColours g raw e buf o true) x y).2.2) 0)
            (_getB (inUse myColours g raw e buf o true)
              (_orientCoordinates (inUse myColours g raw e buf o true) x y).2.1
              (_orientCoordinates (inUse myColours g raw e buf o true) x y).2.2)) ∧
    ((_setPoint myColours (inUse myColours g raw e buf o true) x y colour)._newImage.getD
        (_getZ (inUse myColours g raw e buf o true)
          (_orientCoordinates (inUse myColours g raw e buf o true) x y).2.1
          (_orientCoordinates (inUse myColours g raw e buf o true) x y).2.2) 0).testBit
      (_getB (inUse myColours g raw e buf o true)
        (_orientCoordinates (inUse myColours g raw e buf o true) x y).2.1
        (_orientCoordinates (inUse myColours g raw e buf o true) x y).2.2) = false := by
  obtain ⟨hbw, hgb, hgw⟩ := hcol
  have hg := inUse_geometry myColours g raw e buf o true hsize hbuf
  have hxy' : inBounds (inUse myColours g raw e buf o false) x y := hxy
  obtain ⟨-, hx, hy⟩ := orient_inBounds _ x y hxy
  obtain ⟨hz, hbit⟩ := address_inPlane hg _ _ hx hy
  have hlen : _getZ (inUse myColours g raw e buf o true)
      (_orientCoordinates (inUse myColours g raw e buf o true) x y).2.1
      (_orientCoordinates (inUse myColours g raw e buf o true) x y).2.2 < buf.length := by
    have := hg.len
    rw [inUse_newImage] at this
    omega
  have himgF := _setPoint_image myColours (inUse myColours g raw e buf o false) x y colour hxy'
    _ _ colour rfl rfl (by rw [if_neg hgr])
  have himgT := _setPoint_image myColours (inUse myColours g raw e buf o true) x y colour hxy
    _ _ colour rfl rfl (by rw [if_neg hgr])
  have himgB := _setPoint_image myColours (inUse myColours g raw e buf o true) x y
    myColours.black hxy _ _ myColours.black rfl rfl (by rw [if_neg (Ne.symm hgb)])
  rw [inUse_invert, inUse_newImage] at himgF himgT himgB
  have e1 : (colour == myColours.white) = false := by simp [hw]
  have e2 : (colour == myColours.black) = false := by simp [hb]
  have e3 : (myColours.black == myColours.white) = false := by simp [hbw]
  simp only [e1, e2, Bool.xor_false, Bool.false_eq_true, if_false] at himgF
  simp only [e1, Bool.xor_true, Bool.not_false, if_true] at himgT
  simp only [e3, Bool.xor_true, Bool.not_false, if_true] at himgB
  refine ⟨?_, ?_, himgT, ?_⟩
  · rw [_setPoint_eq, himgF]
    rfl
  · rw [_setPoint_eq, himgT, _setPoint_eq myColours _ x y myColours.black, himgB]
  · rw [himgT, getD_set_same _ _ _ hlen, testBit_bitClear _ _ _ hbit hbit]
    simp

/-- Witness of C28: the colour 0x1234 at (7, 9) of the 1.54" screen. -/
theorem C28_other_colour_depends_on_invert_witness :
    _setPoint Colours.rgb565
        (inUse Colours.rgb565 Globals.startup blank 0x01150C (List.replicate 5776 255) 0 false)
        7 9 0x1234
      = inUse Colours.rgb565 Globals.startup blank 0x01150C (List.replicate 5776 255) 0 false ∧
    _setPoint Colours.rgb565
        (inUse Colours.rgb565 Globals.startup blank 0x01150C (List.replicate 5776 255) 0 true)
        7 9 0x1234
      = _setPoint Colours.rgb565
        (inUse Colours.rgb565 Globals.startup blank 0x01150C (List.replicate 5776 255) 0 true)
        7 9 Colours.rgb565.black :=
  ⟨(C28_other_colour_depends_on_invert Colours.rgb565 Globals.startup blank 0x01150C
      (List.replicate 5776 255) 0 7 9 0x1234 (by decide) (by decide)
      (by rw [List.length_replicate]; decide) (by decide) (by decide) (by decide)
      (by decide)).1,
   (C28_other_colour_depends_on_invert Colours.rgb565 Globals.startup blank 0x01150C
      (List.replicate 5776 255) 0 7 9 0x1234 (by decide) (by decide)
      (by rw [List.length_replicate]; decide) (by decide) (by decide) (by decide)
      (by decide)).2.1⟩

/-! ## Orientation and addressing -/

theorem _setPoint_accesses_sub (c : Colours) (s : Screen_EPD_EXT3_Fast) (x y colour : Nat) :
    ∀ i ∈ _setPoint_accesses c s x y colour,
      i = _getZ s (_orientCoordinates s x y).2.1 (_orientCoordinates s x y).2.2 := by
  intro i hi
  unfold _setPoint_accesses at hi
  simp only [] at hi
  split_ifs at hi <;> simp_all

/-- C22: `_orientCoordinates` succeeds exactly when x < sizeH and y < sizeV for
the orientations 0 and 2, and exactly when x < sizeV and y < sizeH for the
orientations 1 and 3. On success the rotated pair (x', y') is (y, x) for
orientation 0, (x, sizeH-1-y) for 1, (sizeV-1-y, sizeH-1-x) for 2 and
(sizeV-1-x, y) for 3; it satisfies x' < sizeV and y' < sizeH; and the pixel is
addressed at byte offset x' * bufferRowBytes + (y' >> 3), bit index
7 - (y' mod 8): `_setPoint` touches no other byte and `_getPoint` reads that
bit. -/
theorem C22_orientation_and_addressing (myColours : Colours) (s : Screen_EPD_EXT3_Fast)
    (x y colour : Nat) :
    (s._orientation = 0 ∨ s._orientation = 2 →
      ((_orientCoordinates s x y).1 = false ↔ x < s._screenSizeH ∧ y < s._screenSizeV)) ∧
    (s._orientation = 1 ∨ s._orientation = 3 →
      ((_orientCoordinates s x y).1 = false ↔ x < s._screenSizeV ∧ y < s._screenSizeH)) ∧
    ((_orientCoordinates s x y).1 = false →
      (s._orientation = 0 → (_orientCoordinates s x y).2 = (y, x)) ∧
      (s._orientation = 1 → (_orientCoordinates s x y).2 = (x, s._screenSizeH - 1 - y)) ∧
      (s._orientation = 2 →
        (_orientCoordinates s x y).2 = (s._screenSizeV - 1 - y, s._screenSizeH - 1 - x)) ∧
      (s._orientation = 3 → (_orientCoordinates s x y).2 = (s._screenSizeV - 1 - x, y)) ∧
      (_orientCoordinates s x y).2.1 < s._screenSizeV ∧
      (_orientCoordinates s x y).2.2 < s._screenSizeH ∧
      (∀ i ∈ _setPoint_accesses myColours s x y colour,
        i = (_orientCoordinates s x y).2.1 * s._bufferSizeH
          + ((_orientCoordinates s x y).2.2 >>> 3)) ∧
      _getPoint myColours s x y =
        if (s._newImage.getD
              ((_orientCoordinates s x y).2.1 * s._bufferSizeH
                + ((_orientCoordinates s x y).2.2 >>> 3)) 0).testBit
            (7 - (_orientCoordinates s x y).2.2 % 8)
        then myColours.black else myColours.white) := by
  refine ⟨?_, ?_, ?_⟩
  · intro ho
    unfold _orientCoordinates
    rcases ho with ho | ho <;> rw [ho] <;> simp <;> split_ifs <;> simp_all
  · intro ho
    unfold _orientCoordinates
    rcases ho with ho | ho <;> rw [ho] <;> simp <;> split_ifs <;> simp_all
  · intro hok
    have hin : inBounds s x y := by
      by_contra hout
      rw [orient_outOfBounds s x y hout] at hok
      exact absurd hok (by decide)
    obtain ⟨hx, hy⟩ := orient_ok s x y hok
    refine ⟨?_, ?_, ?_, ?_, hx, hy, _setPoint_accesses_sub myColours s x y colour,
      _getPoint_bit myColours s x y hin⟩
    · intro ho
      unfold _orientCoordinates at hok ⊢
      rw [ho] at hok ⊢
      simp only [OfNat.zero_ne_ofNat, if_false, OfNat.ofNat_ne_zero] at hok ⊢
      split_ifs at hok ⊢ <;> simp_all
    · intro ho
      unfold _orientCoordinates at hok ⊢
      rw [ho] at hok ⊢
      simp only [OfNat.one_ne_ofNat, if_false, if_true] at hok ⊢
      split_ifs at hok ⊢
      simp_all
    · intro ho
      unfold _orientCoordinates at hok ⊢
      rw [ho] at hok ⊢
      simp only [if_false, if_true] at hok ⊢
      split_ifs at hok ⊢ <;> simp_all
    · intro ho
      unfold _orientCoordinates at hok ⊢
      rw [ho] at hok ⊢
      simp only [if_true] at hok ⊢
      split_ifs at hok ⊢
      simp_all

theorem address_injective {s : Screen_EPD_EXT3_Fast} (hg : Geometry s) (x1 y1 x2 y2 : Nat)
    (hy1 : y1 < s._screenSizeH) (hy2 : y2 < s._screenSizeH)
    (hz : _getZ s x1 y1 = _getZ s x2 y2) (hb : _getB s x1 y1 = _getB s x2 y2) :
    x1 = x2 ∧ y1 = y2 := by
  unfold _getZ at hz
  unfold _getB at hb
  rw [Nat.shiftRight_eq_div_pow, Nat.shiftRight_eq_div_pow] at hz
  have h8 := hg.rowBytes
  have q1 : y1 / 2 ^ 3 < s._bufferSizeH := by
    rw [Nat.div_lt_iff_lt_mul (by decide)]
    omega
  have q2 : y2 / 2 ^ 3 < s._bufferSizeH := by
    rw [Nat.div_lt_iff_lt_mul (by decide)]
    omega
  have d1 : (x1 * s._bufferSizeH + y1 / 2 ^ 3) / s._bufferSizeH = x1 :=
    Nat.div_eq_of_lt_le (by omega) (by rw [Nat.add_mul, Nat.one_mul]; omega)
  have d2 : (x2 * s._bufferSizeH + y2 / 2 ^ 3) / s._bufferSizeH = x2 :=
    Nat.div_eq_of_lt_le (by omega) (by rw [Nat.add_mul, Nat.one_mul]; omega)
  have hx : x1 = x2 := by
    rw [← d1, ← d2, hz]
  subst hx
  refine ⟨rfl, ?_⟩
  have hq : y1 / 2 ^ 3 = y2 / 2 ^ 3 := by omega
  have e1 : y1 / 2 ^ 3 = y1 / 8 := rfl
  have e2 : y2 / 2 ^ 3 = y2 / 8 := rfl
  omega

theorem orient_injective (s : Screen_EPD_EXT3_Fast) (x y x2 y2 : Nat)
    (h : inBounds s x y) (h2 : inBounds s x2 y2)
    (heq : (_orientCoordinates s x y).2 = (_orientCoordinates s x2 y2).2) :
    x = x2 ∧ y = y2 := by
  unfold inBounds at h h2
  unfold _orientCoordinates at heq
  split_ifs at h h2 heq <;> simp_all <;> omega

/-- The bits that `_setPoint` leaves alone: every bit but the addressed one. -/
theorem _setPoint_other_bits (c : Colours) {s : Screen_EPD_EXT3_Fast} (hg : Geometry s)
    (x y colour : Nat) (h : inBounds s x y) (i j : Nat) (hj : j < 8)
    (hne : ¬ (i = _getZ s (_orientCoordinates s x y).2.1 (_orientCoordinates s x y).2.2 ∧
      j = _getB s (_orientCoordinates s x y).2.1 (_orientCoordinates s x y).2.2)) :
    ((_setPoint c s x y colour)._newImage.getD i 0).testBit j
      = (s._newImage.getD i 0).testBit j := by
  obtain ⟨-, hx, hy⟩ := orient_inBounds s x y h
  obtain ⟨hz, hb⟩ := address_inPlane hg _ _ hx hy
  have hlen : _getZ s (_orientCoordinates s x y).2.1 (_orientCoordinates s x y).2.2
      < s._newImage.length := by
    rw [hg.len]; omega
  obtain ⟨col, hcol⟩ : ∃ col, col = if colour = c.grey then
      (if ((_orientCoordinates s x y).2.1 + (_orientCoordinates s x y).2.2) % 2 = 0
        then c.black else c.white) else colour := ⟨_, rfl⟩
  rw [_setPoint_image c s x y colour h _ _ col rfl rfl hcol]
  by_cases hi : _getZ s (_orientCoordinates s x y).2.1 (_orientCoordinates s x y).2.2 = i
  · have hbj : ¬ (_getB s (_orientCoordinates s x y).2.1 (_orientCoordinates s x y).2.2 = j) :=
      fun hbj => hne ⟨hi.symm, hbj.symm⟩
    subst hi
    split_ifs
    · rw [getD_set_same _ _ _ hlen, testBit_bitClear _ _ _ hj hb]
      simp [hbj]
    · rw [getD_set_same _ _ _ hlen, testBit_bitSet _ _ _ hj]
      simp [hbj]
    · rfl
  · split_ifs
    · rw [getD_set_ne _ _ _ _ hi]
    · rw [getD_set_ne _ _ _ _ hi]
    · rfl

/-- C26: pixel addressing is injective on every supported screen. For a fixed
orientation two distinct in-bounds logical coordinates map to distinct (byte
offset, bit index) pairs; `_setPoint(x, y, c)` changes at most that one bit of
the buffer, and `_getPoint` at every other in-bounds coordinate returns the
same value as before the write. -/
theorem C26_addressing_injective (myColours : Colours) (g : Globals)
    (raw : Screen_EPD_EXT3_Fast) (e : Nat) (buf : List Nat) (o : Nat) (inv : Bool)
    (x y x₂ y₂ colour : Nat)
    (hsize : supportedSize (codeSizeOf e))
    (hbuf : buf.length = 2 * planeSize myColours g raw e)
    (hxy : inBounds (inUse myColours g raw e buf o inv) x y)
    (hxy₂ : inBounds (inUse myColours g raw e buf o inv) x₂ y₂)
    (hne : (x₂, y₂) ≠ (x, y)) :
    (_getZ (inUse myColours g raw e buf o inv)
        (_orientCoordinates (inUse myColours g raw e buf o inv) x₂ y₂).2.1
        (_orientCoordinates (inUse myColours g raw e buf o inv) x₂ y₂).2.2,
      _getB (inUse myColours g raw e buf o inv)
        (_orientCoordinates (inUse myColours g raw e buf o inv) x₂ y₂).2.1
        (_orientCoordinates (inUse myColours g raw e buf o inv) x₂ y₂).2.2)
      ≠ (_getZ (inUse myColours g raw e buf o inv)
        (_orientCoordinates (inUse myColours g raw e buf o inv) x y).2.1
        (_orientCoordinates (inUse myColours g raw e buf o inv) x y).2.2,
      _getB (inUse myColours g raw e buf o inv)
        (_orientCoordinates (inUse myColours g raw e buf o inv) x y).2.1
        (_orientCoordinates (inUse myColours g raw e buf o inv) x y).2.2) ∧
    (∀ i j, j < 8 →
      (i, j) ≠ (_getZ (inUse myColours g raw e buf o inv)
          (_orientCoordinates (inUse myColours g raw e buf o inv) x y).2.1
          (_orientCoordinates (inUse myColours g raw e buf o inv) x y).2.2,
        _getB (inUse myColours g raw e buf o inv)
          (_orientCoordinates (inUse myColours g raw e buf o inv) x y).2.1
          (_orientCoordinates (inUse myColours g raw e buf o inv) x y).2.2) →
      ((_setPoint myColours (inUse myColours g raw e buf o inv) x y colour)._newImage.getD
          i 0).testBit j = (buf.getD i 0).testBit j) ∧
    _getPoint myColours
        (_setPoint myColours (inUse myColours g raw e buf o inv) x y colour) x₂ y₂
      = _getPoint myColours (inUse myColours g raw e buf o inv) x₂ y₂ := by
  have hg := inUse_geometry myColours g raw e buf o inv hsize hbuf
  have hi := inUse_newImage myColours g raw e buf o inv
  generalize inUse myColours g raw e buf o inv = s at hg hi hxy hxy₂ ⊢
  obtain ⟨-, hx1, hy1⟩ := orient_inBounds s x y hxy
  obtain ⟨-, hx2, hy2⟩ := orient_inBounds s x₂ y₂ hxy₂
  obtain ⟨-, hb2⟩ := address_inPlane hg _ _ hx2 hy2
  have hinj : (_getZ s (_orientCoordinates s x₂ y₂).2.1 (_orientCoordinates s x₂ y₂).2.2,
      _getB s (_orientCoordinates s x₂ y₂).2.1 (_orientCoordinates s x₂ y₂).2.2)
      ≠ (_getZ s (_orientCoordinates s x y).2.1 (_orientCoordinates s x y).2.2,
        _getB s (_orientCoordinates s x y).2.1 (_orientCoordinates s x y).2.2) := by
    intro heq
    obtain ⟨hz, hb⟩ := Prod.mk.inj heq
    obtain ⟨e1, e2⟩ := address_injective hg _ _ _ _ hy2 hy1 hz hb
    obtain ⟨f1, f2⟩ := orient_injective s x₂ y₂ x y hxy₂ hxy (Prod.ext e1 e2)
    exact hne (by rw [f1, f2])
  have hbits : ∀ i j, j < 8 →
      (i, j) ≠ (_getZ s (_orientCoordinates s x y).2.1 (_orientCoordinates s x y).2.2,
        _getB s (_orientCoordinates s x y).2.1 (_orientCoordinates s x y).2.2) →
      ((_setPoint myColours s x y colour)._newImage.getD i 0).testBit j
        = (buf.getD i 0).testBit j := by
    intro i j hj hij
    rw [← hi]
    exact _setPoint_other_bits myColours hg x y colour hxy i j hj
      (fun h => hij (by rw [h.1, h.2]))
  refine ⟨hinj, hbits, ?_⟩
  have hbit := hbits _ _ hb2 hinj
  rw [← hi] at hbit
  rw [_getPoint_bit myColours s x₂ y₂ hxy₂, ← hbit, _setPoint_eq]
  generalize (_setPoint myColours s x y colour)._newImage = img
  exact _getPoint_bit myColours { s with _newImage := img } x₂ y₂ hxy₂

/-- Witness of C26: a black write at (3, 4) and the pixel (4, 3) on the 1.54"
screen in orientation 2. -/
theorem C26_addressing_injective_witness :
    _getPoint Colours.rgb565
        (_setPoint Colours.rgb565
          (inUse Colours.rgb565 Globals.startup blank 0x01150C (List.replicate 5776 0) 2 false)
          3 4 Colours.rgb565.black) 4 3
      = _getPoint Colours.rgb565
        (inUse Colours.rgb565 Globals.startup blank 0x01150C (List.replicate 5776 0) 2 false)
        4 3 :=
  (C26_addressing_injective Colours.rgb565 Globals.startup blank 0x01150C
    (List.replicate 5776 0) 2 false 3 4 4 3 Colours.rgb565.black (by decide)
    (by rw [List.length_replicate]; decide) (by decide) (by decide) (by decide)).2.2

theorem testBit_checkerboard (r : Nat) (hr : r < 8) :
    Nat.testBit 0b01010101 (7 - r) = decide (r % 2 = 1) ∧
    Nat.testBit 0b10101010 (7 - r) = decide (r % 2 = 0) := by
  revert r
  decide

/-- Reading an in-bounds pixel after `clear` with grey: black exactly when the
oriented `x1 + y1` is odd. -/
theorem _getPoint_clear_grey (c : Colours) {s : Screen_EPD_EXT3_Fast} (hg : Geometry s)
    (x y : Nat) (h : inBounds s x y) :
    _getPoint c (clear c s c.grey) x y =
      if ((_orientCoordinates s x y).2.1 + (_orientCoordinates s x y).2.2) % 2 = 1
      then c.black else c.white := by
  obtain ⟨-, hx, hy⟩ := orient_inBounds s x y h
  have h8 := hg.rowBytes
  have hq : (_orientCoordinates s x y).2.2 >>> 3 < s._bufferSizeH := by
    rw [Nat.shiftRight_eq_div_pow, Nat.div_lt_iff_lt_mul (by decide)]
    omega
  have hbyte := getD_clear_grey c hg (_orientCoordinates s x y).2.1
    ((_orientCoordinates s x y).2.2 >>> 3) (by rw [hg.bufV]; exact hx) hq
  rw [clear_eq]
  generalize (clear c s c.grey)._newImage = img at hbyte
  rw [_getPoint_bit c { s with _newImage := img } x y h]
  change (if (img.getD ((_orientCoordinates s x y).2.1 * s._bufferSizeH
        + ((_orientCoordinates s x y).2.2 >>> 3)) 0).testBit
        (7 - (_orientCoordinates s x y).2.2 % 8) then c.black else c.white) = _
  rw [hbyte]
  obtain ⟨t1, t2⟩ := testBit_checkerboard ((_orientCoordinates s x y).2.2 % 8)
    (Nat.mod_lt _ (by decide))
  by_cases hp : (_orientCoordinates s x y).2.1 % 2 = 0
  · rw [if_pos hp, t1]
    by_cases hr : (_orientCoordinates s x y).2.2 % 8 % 2 = 1
    · rw [decide_eq_true hr, if_pos rfl, if_pos (by omega)]
    · rw [decide_eq_false hr, if_neg (by decide), if_neg (by omega)]
  · rw [if_neg hp, t2]
    by_cases hr : (_orientCoordinates s x y).2.2 % 8 % 2 = 0
    · rw [decide_eq_true hr, if_pos rfl, if_pos (by omega)]
    · rw [decide_eq_false hr, if_neg (by decide), if_neg (by omega)]

/-- C27: the grey checkerboard of `clear(grey)` has the opposite phase to the grey
dither of `_setPoint`. With invert false and orientation 0, after `clear(grey)`
every in-bounds `_getPoint(x, y)` returns black exactly when x + y is odd (white
otherwise), whereas `_setPoint(x, y, grey)` followed by `_getPoint(x, y)` returns
black exactly when x + y is even; and `clear(grey)` writes the same bytes
whatever the invert flag is. -/
theorem C27_grey_clear_and_dither_phases (myColours : Colours) (g : Globals)
    (raw : Screen_EPD_EXT3_Fast) (e : Nat) (buf : List Nat) (x y : Nat)
    (hcol : myColours.Distinct)
    (hsize : supportedSize (codeSizeOf e))
    (hbuf : buf.length = 2 * planeSize myColours g raw e)
    (hxy : inBounds (inUse myColours g raw e buf 0 false) x y) :
    _getPoint myColours
        (clear myColours (inUse myColours g raw e buf 0 false) myColours.grey) x y
      = (if (x + y) % 2 = 1 then myColours.black else myColours.white) ∧
    _getPoint myColours
        (_setPoint myColours (inUse myColours g raw e buf 0 false) x y myColours.grey) x y
      = (if (x + y) % 2 = 0 then myColours.black else myColours.white) ∧
    (_getPoint myColours
        (clear myColours (inUse myColours g raw e buf 0 false) myColours.grey) x y
      ≠ _getPoint myColours
        (_setPoint myColours (inUse myColours g raw e buf 0 false) x y myColours.grey) x y) ∧
    (∀ o, (clear myColours (inUse myColours g raw e buf o true) myColours.grey)._newImage
      = (clear myColours (inUse myColours g raw e buf o false) myColours.grey)._newImage) := by
  have hg := inUse_geometry myColours g raw e buf 0 false hsize hbuf
  have ho := inUse_orientation_lt myColours g raw e buf 0 false
  have ho0 : (inUse myColours g raw e buf 0 false)._orientation = 0 := rfl
  have hpar := orient_parity hg ho x y hxy
  rw [ho0, Nat.add_zero] at hpar
  have h1 : _getPoint myColours
      (clear myColours (inUse myColours g raw e buf 0 false) myColours.grey) x y
      = (if (x + y) % 2 = 1 then myColours.black else myColours.white) := by
    rw [_getPoint_clear_grey myColours hg x y hxy, hpar]
  have h2 : _getPoint myColours
      (_setPoint myColours (inUse myColours g raw e buf 0 false) x y myColours.grey) x y
      = (if (x + y) % 2 = 0 then myColours.black else myColours.white) := by
    rw [_getPoint_setPoint_grey myColours _ x y hcol hg ho hxy, ho0, Nat.add_zero]
    simp [inUse_invert]
  refine ⟨h1, h2, ?_, fun o => ?_⟩
  · rw [h1, h2]
    obtain ⟨hbw, -, -⟩ := hcol
    by_cases hp : (x + y) % 2 = 0
    · rw [if_neg (by omega), if_pos hp]
      exact Ne.symm hbw
    · rw [if_pos (by omega), if_neg hp]
      exact hbw
  · unfold clear
    rw [if_pos rfl, if_pos rfl]
    rfl

/-- Witness of C27: the pixel (5, 8) of the 2.66" screen. -/
theorem C27_grey_clear_and_dither_phases_witness :
    _getPoint Colours.rgb565
        (clear Colours.rgb565
          (inUse Colours.rgb565 Globals.startup blank 0x01260C (List.replicate 11248 0) 0 false)
          Colours.rgb565.grey) 5 8
      = (if (5 + 8) % 2 = 1 then Colours.rgb565.black else Colours.rgb565.white) ∧
    _getPoint Colours.rgb565
        (_setPoint Colours.rgb565
          (inUse Colours.rgb565 Globals.startup blank 0x01260C (List.replicate 11248 0) 0 false)
          5 8 Colours.rgb565.grey) 5 8
      = (if (5 + 8) % 2 = 0 then Colours.rgb565.black else Colours.rgb565.white) :=
  ⟨(C27_grey_clear_and_dither_phases Colours.rgb565 Globals.startup blank 0x01260C
      (List.replicate 11248 0) 5 8 (by decide) (by decide)
      (by rw [List.length_replicate]; decide) (by decide)).1,
   (C27_grey_clear_and_dither_phases Colours.rgb565 Globals.startup blank 0x01260C
      (List.replicate 11248 0) 5 8 (by decide) (by decide)
      (by rw [List.length_replicate]; decide) (by decide)).2.1⟩

end Screen_EPD_EXT3_Fast
